import Mathlib

/-!
Verification development for the exact diagonalization example script
(examples/sphinx/example_0_ed_calculator.py).

The script orchestrates library calls: build a Coulomb tensor from Slater
integrals, enumerate a Fock basis, assemble many body operator matrices in
that basis, diagonalize with a dense Hermitian eigensolver, and print two
tables of eigenvalues together with angular momentum expectation values.

The numeric model below works over the exact field Q(i, sqrt 2, sqrt 3),
built as a tower of quadratic extensions of the rationals, which embeds
into the complex numbers.  Library functions whose code is not part of the
repository sources are modelled from the specification and marked as such
in their doc comments.
-/

/-- Quadratic extension of a commutative ring `R` by a formal square root of
`d`: elements are pairs `z.x + z.y * w` with `w * w = d`. -/
@[ext]
structure QuadExt (R : Type) (d : R) where
  x : R
  y : R
deriving DecidableEq

namespace QuadExt

variable {R : Type} [CommRing R] {d : R}

instance : Zero (QuadExt R d) := ⟨⟨0, 0⟩⟩

instance : One (QuadExt R d) := ⟨⟨1, 0⟩⟩

instance : Add (QuadExt R d) := ⟨fun z w => ⟨z.x + w.x, z.y + w.y⟩⟩

instance : Neg (QuadExt R d) := ⟨fun z => ⟨-z.x, -z.y⟩⟩

instance : Mul (QuadExt R d) :=
  ⟨fun z w => ⟨z.x * w.x + d * z.y * w.y, z.x * w.y + z.y * w.x⟩⟩

@[simp] theorem zero_x : (0 : QuadExt R d).x = 0 := rfl

@[simp] theorem zero_y : (0 : QuadExt R d).y = 0 := rfl

@[simp] theorem one_x : (1 : QuadExt R d).x = 1 := rfl

@[simp] theorem one_y : (1 : QuadExt R d).y = 0 := rfl

@[simp] theorem add_x (z w : QuadExt R d) : (z + w).x = z.x + w.x := rfl

@[simp] theorem add_y (z w : QuadExt R d) : (z + w).y = z.y + w.y := rfl

@[simp] theorem neg_x (z : QuadExt R d) : (-z).x = -z.x := rfl

@[simp] theorem neg_y (z : QuadExt R d) : (-z).y = -z.y := rfl

@[simp] theorem mul_x (z w : QuadExt R d) :
    (z * w).x = z.x * w.x + d * z.y * w.y := rfl

@[simp] theorem mul_y (z w : QuadExt R d) :
    (z * w).y = z.x * w.y + z.y * w.x := rfl

instance : NatCast (QuadExt R d) := ⟨fun n => ⟨(n : R), 0⟩⟩

instance : IntCast (QuadExt R d) := ⟨fun z => ⟨(z : R), 0⟩⟩

@[simp] theorem natCast_x (n : ℕ) : ((n : QuadExt R d)).x = (n : R) := rfl

@[simp] theorem natCast_y (n : ℕ) : ((n : QuadExt R d)).y = 0 := rfl

@[simp] theorem intCast_x (n : ℤ) : ((n : QuadExt R d)).x = (n : R) := rfl

@[simp] theorem intCast_y (n : ℤ) : ((n : QuadExt R d)).y = 0 := rfl

instance : AddCommGroup (QuadExt R d) := by
  refine
  { add := (· + ·)
    zero := 0
    neg := Neg.neg
    sub := fun z w => z + -w
    nsmul := nsmulRec
    zsmul := zsmulRec
    add_assoc := ?_
    zero_add := ?_
    add_zero := ?_
    neg_add_cancel := ?_
    add_comm := ?_ } <;> intros <;> ext <;> simp <;> ring

instance : AddGroupWithOne (QuadExt R d) :=
  { (inferInstance : AddCommGroup (QuadExt R d)) with
    one := 1
    natCast := Nat.cast
    intCast := Int.cast
    natCast_zero := by ext <;> simp
    natCast_succ := fun n => by ext <;> simp
    intCast_ofNat := fun n => by ext <;> simp
    intCast_negSucc := fun n => by ext <;> simp [Int.negSucc_eq] }

instance : CommRing (QuadExt R d) := by
  refine
  { (inferInstance : AddCommGroup (QuadExt R d)),
    (inferInstance : AddGroupWithOne (QuadExt R d)) with
    mul := (· * ·)
    npow := @npowRec _ ⟨1⟩ ⟨(· * ·)⟩
    mul_assoc := ?_
    one_mul := ?_
    mul_one := ?_
    left_distrib := ?_
    right_distrib := ?_
    zero_mul := ?_
    mul_zero := ?_
    mul_comm := ?_ } <;> intros <;> ext <;> simp <;> ring

/-- Embedding of the base ring into the quadratic extension. -/
def base : R →+* QuadExt R d where
  toFun r := ⟨r, 0⟩
  map_one' := rfl
  map_mul' r s := by ext <;> simp
  map_zero' := rfl
  map_add' r s := by ext <;> simp

@[simp] theorem base_x (r : R) : (base (d := d) r).x = r := rfl

@[simp] theorem base_y (r : R) : (base (d := d) r).y = 0 := rfl

/-- Evaluate the quadratic extension in a target ring, sending the adjoined
square root to a chosen element `w` that satisfies `w * w = f d`. -/
def evalHom {S : Type} [CommRing S] (f : R →+* S) (w : S) (hw : w * w = f d) :
    QuadExt R d →+* S where
  toFun z := f z.x + f z.y * w
  map_one' := by simp
  map_mul' z t := by
    simp only [mul_x, mul_y, map_add, map_mul]
    rw [← hw]; ring
  map_zero' := by simp
  map_add' z t := by
    simp only [add_x, add_y, map_add]
    ring

@[simp] theorem evalHom_apply {S : Type} [CommRing S] (f : R →+* S) (w : S)
    (hw : w * w = f d) (z : QuadExt R d) :
    evalHom f w hw z = f z.x + f z.y * w := rfl

end QuadExt

/-- Rationals with sqrt 2 adjoined. -/
abbrev Qr2 := QuadExt ℚ 2

/-- The field Qr2 with sqrt 3 adjoined; it also contains sqrt 6. -/
abbrev Qr23 := QuadExt Qr2 3

/-- Exact coefficient field of the model: Qr23 with the imaginary unit
adjoined, an exact substitute for the floating complex numbers the script
manipulates. -/
abbrev KF := QuadExt Qr23 (-1)

/-- Rational constants inside the coefficient field. -/
def ratKF : ℚ →+* KF :=
  (QuadExt.base).comp ((QuadExt.base).comp (QuadExt.base))

/-- The element sqrt 2 of the coefficient field. -/
def sqrt2K : KF := QuadExt.base (QuadExt.base (⟨0, 1⟩ : Qr2))

/-- The element sqrt 3 of the coefficient field. -/
def sqrt3K : KF := QuadExt.base (⟨0, 1⟩ : Qr23)

/-- The element sqrt 6 of the coefficient field. -/
def sqrt6K : KF := QuadExt.base (⟨0, sqrt2K.x.y⟩ : Qr23)

/-- The imaginary unit of the coefficient field. -/
def iK : KF := ⟨0, 1⟩

noncomputable section

/-- Evaluation of Qr2 in the real numbers. -/
def r2toReal : Qr2 →+* ℝ :=
  QuadExt.evalHom (Rat.castHom ℝ) (Real.sqrt 2)
    (by rw [Real.mul_self_sqrt (by norm_num)]; norm_num)

/-- Evaluation of Qr23 in the real numbers. -/
def r23toReal : Qr23 →+* ℝ :=
  QuadExt.evalHom r2toReal (Real.sqrt 3)
    (by rw [Real.mul_self_sqrt (by norm_num), map_ofNat])

/-- Evaluation of the exact coefficient field in the complex numbers. -/
def toC : KF →+* ℂ :=
  QuadExt.evalHom (Complex.ofRealHom.comp r23toReal) Complex.I
    (by simp [Complex.I_mul_I, map_neg])

theorem toC_im (z : KF) : (toC z).im = r23toReal z.y := by
  simp [toC]

theorem toC_real_of (z : KF) (h : z.y = 0) : toC z = ((r23toReal z.x : ℝ) : ℂ) := by
  simp [toC, h, map_zero]

theorem toC_conj_of_real (z : KF) (h : z.y = 0) :
    (starRingEnd ℂ) (toC z) = toC z := by
  rw [toC_real_of z h]
  exact Complex.conj_ofReal _

end

/-! ### Single particle orbitals of the p shell

The script sets l = 1, norb = 6, noccu = 2, F0 = 4, F2 = 1.  Spin orbitals
are indexed by `Fin 6`, with the magnetic quantum number slowest and the
spin fastest, so orbital `n` has magnetic quantum number `n / 2 - 1` and
spin `n % 2` (0 = up, 1 = down). -/

/-- Number of spin orbitals, from the script. -/
def norb : ℕ := 6

/-- Electron occupancy, from the script. -/
def noccu : ℕ := 2

/-- First Slater integral of the script, F0 = 4.0. -/
def F0 : KF := ratKF 4

/-- Second Slater integral of the script, F2 = 1.0. -/
def F2 : KF := ratKF 1

/-- Magnetic quantum number of a spin orbital. -/
def ml (n : Fin 6) : ℤ := ((n.val / 2 : ℕ) : ℤ) - 1

/-- Spin projection index of a spin orbital (0 = up, 1 = down). -/
def ms (n : Fin 6) : ℕ := n.val % 2

/-- Gaunt coefficient table c2 of the p shell (Condon Shortley convention). -/
def c2g (m mp : ℤ) : KF :=
  if m = 1 ∧ mp = 1 then ratKF (-1/5)
  else if m = 1 ∧ mp = 0 then sqrt3K * ratKF (1/5)
  else if m = 1 ∧ mp = -1 then -(sqrt6K * ratKF (1/5))
  else if m = 0 ∧ mp = 1 then -(sqrt3K * ratKF (1/5))
  else if m = 0 ∧ mp = 0 then ratKF (2/5)
  else if m = 0 ∧ mp = -1 then sqrt3K * ratKF (1/5)
  else if m = -1 ∧ mp = 1 then -(sqrt6K * ratKF (1/5))
  else if m = -1 ∧ mp = 0 then -(sqrt3K * ratKF (1/5))
  else if m = -1 ∧ mp = -1 then ratKF (-1/5)
  else 0

/-- Gaunt coefficients of the p shell: the multipole k = 0 coefficient is a
Kronecker delta and k = 2 is the table `c2g`; other multipoles vanish. -/
def gaunt (k : ℕ) (m mp : ℤ) : KF :=
  if k = 0 then (if m = mp ∧ m.natAbs ≤ 1 then 1 else 0)
  else if k = 2 then c2g m mp
  else 0

/-- Modelled from the spec: `edrixs.get_umat_slater` for the p shell builds
the four index Coulomb interaction tensor from the Slater integrals F0 and
F2, following the formula quoted in the script documentation: one half
times spin conservation deltas, a magnetic quantum number conservation
delta, and a sum over multipoles k of products of two Gaunt coefficients
weighted by the Slater integrals. -/
def get_umat_slater (f0 f2 : KF) (i j t u : Fin 6) : KF :=
  if ms i = ms t ∧ ms j = ms u ∧ ml i + ml j = ml t + ml u then
    ratKF (1/2) * (gaunt 0 (ml i) (ml t) * gaunt 0 (ml u) (ml j) * f0 +
                   gaunt 2 (ml i) (ml t) * gaunt 2 (ml u) (ml j) * f2)
  else 0

/-- The Coulomb tensor of the script. -/
def umat : Fin 6 → Fin 6 → Fin 6 → Fin 6 → KF := get_umat_slater F0 F2

/-! ### Fock states and fermionic operators -/

/-- Modelled from the spec: `edrixs.get_fock_bin_by_N` enumerates all Fock
basis states of `n` single particle orbitals with `k` of them occupied, as
lists of occupation bits (true = occupied, false = empty). -/
def get_fock_bin_by_N : ℕ → ℕ → List (List Bool)
  | 0, 0 => [[]]
  | 0, _ + 1 => []
  | n + 1, 0 => (get_fock_bin_by_N n 0).map (fun s => false :: s)
  | n + 1, k + 1 =>
      (get_fock_bin_by_N n (k + 1)).map (fun s => false :: s) ++
      (get_fock_bin_by_N n k).map (fun s => true :: s)

/-- The Fock basis of the script. -/
def basis : List (List Bool) := get_fock_bin_by_N norb noccu

/-- Fermionic parity sign accumulated by an operator acting at orbital `i`
of state `s`. -/
def fermiSign (s : List Bool) (i : ℕ) : ℤ :=
  if (s.take i).count true % 2 = 0 then 1 else -1

/-- Apply one creation (cr = true) or annihilation (cr = false) operator at
orbital `i`: returns the sign and the resulting state, or none when the
result vanishes. -/
def applyOp (cr : Bool) (i : ℕ) (s : List Bool) : Option (ℤ × List Bool) :=
  if s.getD i cr = cr then none else some (fermiSign s i, s.set i cr)

/-- Apply a list of operators to a state, first element first, accumulating
the fermionic signs. -/
def applyOps : List (Bool × ℕ) → List Bool → Option (ℤ × List Bool)
  | [], s => some (1, s)
  | p :: rest, s =>
      (applyOp p.1 p.2 s).bind fun r =>
        (applyOps rest r.2).map fun q => (r.1 * q.1, q.2)

/-- Matrix element of the normal ordered four fermion string
f(i) dagger f(j) dagger f(t) f(u) between Fock states `a` and `b`. -/
def matel4 (a : List Bool) (i j t u : Fin 6) (b : List Bool) : ℤ :=
  match applyOps [(false, u.val), (false, t.val), (true, j.val), (true, i.val)] b with
  | none => 0
  | some (sg, s) => if s = a then sg else 0

/-- Matrix element of the two fermion string f(i) dagger f(j) between Fock
states `a` and `b`. -/
def matel2 (a : List Bool) (i j : Fin 6) (b : List Bool) : ℤ :=
  match applyOps [(false, j.val), (true, i.val)] b with
  | none => 0
  | some (sg, s) => if s = a then sg else 0

/-- Modelled from the spec: `edrixs.build_opers` with n_fermion = 4 turns a
four index coefficient tensor into a many body operator matrix on the Fock
basis, with entries given by the four fermion matrix elements quoted in the
script documentation. -/
def build_opers4 (cf : Fin 6 → Fin 6 → Fin 6 → Fin 6 → KF)
    (bs : List (List Bool)) : Matrix (Fin bs.length) (Fin bs.length) KF :=
  Matrix.of fun a b =>
    ∑ q : Fin 6 × Fin 6 × Fin 6 × Fin 6,
      cf q.1 q.2.1 q.2.2.1 q.2.2.2 *
        ((matel4 (bs.get a) q.1 q.2.1 q.2.2.1 q.2.2.2 (bs.get b) : ℤ) : KF)

/-- Modelled from the spec: `edrixs.build_opers` with n_fermion = 2 turns a
single particle matrix into a many body operator matrix on the Fock basis,
with entries given by the two fermion matrix elements. -/
def build_opers2 (mat : Matrix (Fin 6) (Fin 6) KF)
    (bs : List (List Bool)) : Matrix (Fin bs.length) (Fin bs.length) KF :=
  Matrix.of fun a b =>
    ∑ p : Fin 6 × Fin 6,
      mat p.1 p.2 * ((matel2 (bs.get a) p.1 p.2 (bs.get b) : ℤ) : KF)

/-- The Coulomb Hamiltonian of the script in the Fock basis. -/
def H : Matrix (Fin basis.length) (Fin basis.length) KF := build_opers4 umat basis

/-! ### Angular momentum operators -/

/-- Angular momentum component matrices for l = 1 over the orbital index
0, 1, 2 (magnetic quantum number m = index - 1): component 0, 1, 2 is
lx, ly, lz respectively. -/
def l1mat (a : ℕ) (p q : ℕ) : KF :=
  if a = 0 then
    (if (p = q + 1 ∨ q = p + 1) ∧ p ≤ 2 ∧ q ≤ 2 then sqrt2K * ratKF (1/2) else 0)
  else if a = 1 then
    (if p = q + 1 ∧ p ≤ 2 then -(iK * sqrt2K * ratKF (1/2))
     else if q = p + 1 ∧ q ≤ 2 then iK * sqrt2K * ratKF (1/2)
     else 0)
  else
    (if p = q ∧ p ≤ 2 then
      (if p = 0 then -(ratKF 1) else if p = 1 then 0 else ratKF 1)
     else 0)

/-- Spin one half component matrices over the spin index 0 = up, 1 = down:
component 0, 1, 2 is sx, sy, sz respectively. -/
def s1mat (a : ℕ) (p q : ℕ) : KF :=
  if a = 0 then
    (if (p = 0 ∧ q = 1) ∨ (p = 1 ∧ q = 0) then ratKF (1/2) else 0)
  else if a = 1 then
    (if p = 0 ∧ q = 1 then -(iK * ratKF (1/2))
     else if p = 1 ∧ q = 0 then iK * ratKF (1/2)
     else 0)
  else
    (if p = 0 ∧ q = 0 then ratKF (1/2)
     else if p = 1 ∧ q = 1 then ratKF (-1/2)
     else 0)

/-- Modelled from the spec: `edrixs.get_orb_momentum(1, ispin=True)` gives
the three orbital angular momentum component matrices of the p shell,
acting as the identity on spin. -/
def get_orb_momentum (a : Fin 3) : Matrix (Fin 6) (Fin 6) KF :=
  Matrix.of fun n np =>
    (if ms n = ms np then 1 else 0) * l1mat a.val (n.val / 2) (np.val / 2)

/-- Modelled from the spec: `edrixs.get_spin_momentum(1)` gives the three
spin one half component matrices of the p shell, acting as the identity on
the orbital index. -/
def get_spin_momentum (a : Fin 3) : Matrix (Fin 6) (Fin 6) KF :=
  Matrix.of fun n np =>
    (if n.val / 2 = np.val / 2 then 1 else 0) * s1mat a.val (ms n) (ms np)

/-- The orbital momentum stack of the script. -/
def orb_mom : Fin 3 → Matrix (Fin 6) (Fin 6) KF := get_orb_momentum

/-- The spin momentum stack of the script. -/
def spin_mom : Fin 3 → Matrix (Fin 6) (Fin 6) KF := get_spin_momentum

/-- The total momentum stack of the script: the sum of the orbital and the
spin matrices. -/
def tot_mom (a : Fin 3) : Matrix (Fin 6) (Fin 6) KF := orb_mom a + spin_mom a

/-- Modelled from the spec: `edrixs.atom_hsoc` for the p shell with coupling
strength `zeta` builds the single particle spin orbit matrix
zeta * (l dot s) on the six spin orbitals. -/
def atom_hsoc (zeta : ℚ) : Matrix (Fin 6) (Fin 6) KF :=
  Matrix.of fun n np =>
    ratKF zeta *
      (orb_mom 0 * spin_mom 0 + orb_mom 1 * spin_mom 1 + orb_mom 2 * spin_mom 2) n np

/-- The spin orbit single particle matrix of the script, zeta = 0.2. -/
def soc : Matrix (Fin 6) (Fin 6) KF := atom_hsoc (1/5)

/-- The spin orbit operator in the Fock basis. -/
def Hsoc : Matrix (Fin basis.length) (Fin basis.length) KF := build_opers2 soc basis

/-- The Hamiltonian with spin orbit coupling added, as in the script. -/
def H2 : Matrix (Fin basis.length) (Fin basis.length) KF := H + Hsoc

/-- The operator stacks of the script built in the Fock basis. -/
def opL (a : Fin 3) : Matrix (Fin basis.length) (Fin basis.length) KF :=
  build_opers2 (orb_mom a) basis

/-- Spin operator stack in the Fock basis. -/
def opS (a : Fin 3) : Matrix (Fin basis.length) (Fin basis.length) KF :=
  build_opers2 (spin_mom a) basis

/-- Total momentum operator stack in the Fock basis. -/
def opJ (a : Fin 3) : Matrix (Fin basis.length) (Fin basis.length) KF :=
  build_opers2 (tot_mom a) basis

/-- The squared orbital angular momentum operator of the script. -/
def L2 : Matrix (Fin basis.length) (Fin basis.length) KF :=
  opL 0 * opL 0 + opL 1 * opL 1 + opL 2 * opL 2

/-- The squared spin operator of the script. -/
def S2 : Matrix (Fin basis.length) (Fin basis.length) KF :=
  opS 0 * opS 0 + opS 1 * opS 1 + opS 2 * opS 2

/-- The squared total angular momentum operator of the script. -/
def J2 : Matrix (Fin basis.length) (Fin basis.length) KF :=
  opJ 0 * opJ 0 + opJ 1 * opJ 1 + opJ 2 * opJ 2

/-! ### Size of the Fock basis -/

theorem get_fock_bin_length (n k : ℕ) :
    (get_fock_bin_by_N n k).length = n.choose k := by
  induction n generalizing k with
  | zero => cases k <;> simp [get_fock_bin_by_N]
  | succ n ih =>
    cases k with
    | zero => simp [get_fock_bin_by_N, ih]
    | succ k =>
      simp [get_fock_bin_by_N, ih, Nat.choose_succ_succ, Nat.add_comm]

theorem basis_length : basis.length = 15 := by
  rw [basis, norb, noccu, get_fock_bin_length]
  decide

/-! ### Adjoint symmetry of the fermionic operator strings -/

theorem take_set (s : List Bool) (i : ℕ) (x : Bool) :
    (s.set i x).take i = s.take i := by
  induction s generalizing i with
  | nil => simp
  | cons a rest ih =>
    cases i with
    | zero => simp
    | succ i => simp [ih]

theorem set_of_getD (s : List Bool) (i : ℕ) (x : Bool) (h : s.getD i x = x) :
    s.set i x = s := by
  induction s generalizing i with
  | nil => simp
  | cons a rest ih =>
    cases i with
    | zero => simp_all [List.getD]
    | succ i => simp_all [List.getD]

theorem getD_set_self (s : List Bool) (i : ℕ) (x d : Bool) (h : i < s.length) :
    (s.set i x).getD i d = x := by
  have h2 : i < (s.set i x).length := by simpa using h
  rw [List.getD_eq_getElem _ _ h2]
  exact List.getElem_set_self h2

theorem fermiSign_set (s : List Bool) (i : ℕ) (x : Bool) :
    fermiSign (s.set i x) i = fermiSign s i := by
  rw [fermiSign, fermiSign, take_set]

theorem applyOp_adjoint {cr : Bool} {i : ℕ} {s t : List Bool} {sg : ℤ}
    (h : applyOp cr i s = some (sg, t)) : applyOp (!cr) i t = some (sg, s) := by
  rw [applyOp] at h
  by_cases hc : s.getD i cr = cr
  · rw [if_pos hc] at h; cases h
  · rw [if_neg hc] at h
    have hlen : i < s.length := by
      by_contra hn
      exact hc (List.getD_eq_default _ _ (Nat.le_of_not_lt hn))
    obtain ⟨hsg, ht⟩ : sg = fermiSign s i ∧ t = s.set i cr := by
      cases h; exact ⟨rfl, rfl⟩
    subst hsg; subst ht
    have hx : s.getD i cr = !cr := by
      cases hcr : s.getD i cr
      · cases cr
        · exact absurd hcr hc
        · rfl
      · cases cr
        · rfl
        · exact absurd hcr hc
    rw [applyOp, getD_set_self _ _ _ _ hlen, if_neg (by simp), fermiSign_set,
      List.set_set]
    have : s.set i (!cr) = s := by
      apply set_of_getD
      rw [List.getD_eq_getElem _ _ (by simpa using hlen)] at hx ⊢
      exact hx
    rw [this]

/-- The adjoint of an operator string: reverse the order and exchange
creation with annihilation. -/
def adjOps (ops : List (Bool × ℕ)) : List (Bool × ℕ) :=
  (ops.map (fun p => (!p.1, p.2))).reverse

theorem applyOps_append (l1 l2 : List (Bool × ℕ)) (s : List Bool) :
    applyOps (l1 ++ l2) s =
      (applyOps l1 s).bind fun r =>
        (applyOps l2 r.2).map fun q => (r.1 * q.1, q.2) := by
  induction l1 generalizing s with
  | nil =>
    cases h : applyOps l2 s with
    | none => simp [applyOps, h]
    | some pr => simp [applyOps, h]
  | cons p rest ih =>
    show applyOps (p :: (rest ++ l2)) s = _
    rw [applyOps, applyOps]
    cases h1 : applyOp p.1 p.2 s with
    | none => simp
    | some r =>
      simp only [Option.some_bind]
      rw [ih]
      cases h2 : applyOps rest r.2 with
      | none => simp
      | some q =>
        cases h3 : applyOps l2 q.2 with
        | none => simp [h2, h3]
        | some w => simp [h2, h3, mul_assoc]

theorem applyOps_adjoint {ops : List (Bool × ℕ)} {s t : List Bool} {sg : ℤ}
    (h : applyOps ops s = some (sg, t)) :
    applyOps (adjOps ops) t = some (sg, s) := by
  induction ops generalizing s sg t with
  | nil =>
    obtain ⟨h1, h2⟩ : (1 : ℤ) = sg ∧ s = t := by cases h; exact ⟨rfl, rfl⟩
    subst h1; subst h2
    rfl
  | cons p rest ih =>
    rw [applyOps] at h
    cases h1 : applyOp p.1 p.2 s with
    | none => rw [h1] at h; cases h
    | some pr =>
      obtain ⟨sg1, s1⟩ := pr
      rw [h1, Option.some_bind] at h
      cases h2 : applyOps rest s1 with
      | none => rw [h2] at h; cases h
      | some pr2 =>
        obtain ⟨sg2, s2⟩ := pr2
        rw [h2] at h
        obtain ⟨hsg, hs2⟩ : sg1 * sg2 = sg ∧ s2 = t := by cases h; exact ⟨rfl, rfl⟩
        subst hsg; subst hs2
        have hadj : adjOps (p :: rest) = adjOps rest ++ [(!p.1, p.2)] := by
          simp [adjOps]
        rw [hadj, applyOps_append, ih h2]
        have h3 := applyOp_adjoint h1
        simp [applyOps, h3, mul_comm]

/-- Matrix element of a general operator string between Fock states. -/
def stringMatel (ops : List (Bool × ℕ)) (a b : List Bool) : ℤ :=
  match applyOps ops b with
  | none => 0
  | some (sg, s) => if s = a then sg else 0

theorem adjOps_adjOps (ops : List (Bool × ℕ)) : adjOps (adjOps ops) = ops := by
  simp [adjOps, List.map_reverse, List.map_map, Function.comp_def]

theorem stringMatel_adjoint (ops : List (Bool × ℕ)) (a b : List Bool) :
    stringMatel ops a b = stringMatel (adjOps ops) b a := by
  rw [stringMatel, stringMatel]
  cases h1 : applyOps ops b with
  | none =>
    cases h2 : applyOps (adjOps ops) a with
    | none => rfl
    | some pr =>
      obtain ⟨sg, s⟩ := pr
      by_cases hs : s = b
      · subst hs
        have h3 := applyOps_adjoint h2
        rw [adjOps_adjOps, h1] at h3
        simp at h3
      · simp [hs]
  | some pr =>
    obtain ⟨sg, s⟩ := pr
    by_cases hs : s = a
    · subst hs
      have h3 := applyOps_adjoint h1
      rw [h3]
      simp
    · cases h2 : applyOps (adjOps ops) a with
      | none => simp [hs]
      | some pr2 =>
        obtain ⟨tg, r⟩ := pr2
        by_cases hr : r = b
        · subst hr
          have h4 := applyOps_adjoint h2
          rw [adjOps_adjOps, h1] at h4
          simp only [Option.some.injEq, Prod.mk.injEq] at h4
          exact absurd h4.2 hs
        · simp [hs, hr]

theorem matel4_adjoint (a b : List Bool) (i j t u : Fin 6) :
    matel4 a i j t u b = matel4 b u t j i a :=
  stringMatel_adjoint [(false, u.val), (false, t.val), (true, j.val), (true, i.val)] a b

theorem matel2_adjoint (a b : List Bool) (i j : Fin 6) :
    matel2 a i j b = matel2 b j i a :=
  stringMatel_adjoint [(false, j.val), (true, i.val)] a b

/-! ### Symmetries of the Coulomb tensor -/

theorem get_umat_slater_rev (f0 f2 : KF) (i j t u : Fin 6) :
    get_umat_slater f0 f2 u t j i = get_umat_slater f0 f2 i j t u := by
  rw [get_umat_slater, get_umat_slater]
  have hiff : (ms u = ms j ∧ ms t = ms i ∧ ml u + ml t = ml j + ml i) ↔
      (ms i = ms t ∧ ms j = ms u ∧ ml i + ml j = ml t + ml u) := by
    constructor <;> rintro ⟨h1, h2, h3⟩ <;> exact ⟨h2.symm, h1.symm, by omega⟩
  exact if_congr hiff (by ring) rfl

theorem ml_bounds (n : Fin 6) : -1 ≤ ml n ∧ ml n ≤ 1 := by
  fin_cases n <;> decide

theorem gaunt_symm (k : ℕ) (m mp : ℤ) (h1 : -1 ≤ m) (h2 : m ≤ 1)
    (h3 : -1 ≤ mp) (h4 : mp ≤ 1) :
    gaunt k m mp = (-1 : KF) ^ ((m - mp).natAbs) * gaunt k mp m := by
  by_cases hk0 : k = 0
  · subst hk0
    by_cases hm : m = mp
    · subst hm
      simp [gaunt]
    · rw [gaunt, gaunt, if_pos rfl, if_pos rfl, if_neg (by tauto),
        if_neg (by exact fun hc => hm (hc.1.symm)), mul_zero]
  · by_cases hk2 : k = 2
    · subst hk2
      interval_cases m <;> interval_cases mp <;> simp [gaunt, c2g] <;> ring
    · simp [gaunt, hk0, hk2]

theorem umat_exchange_aux (f0 f2 : KF) (i j t u : Fin 6) :
    get_umat_slater f0 f2 i j t u = get_umat_slater f0 f2 j i u t := by
  rw [get_umat_slater, get_umat_slater]
  split_ifs with hc1 hc2 hc2
  · obtain ⟨hms1, hms2, hml⟩ := hc1
    have hd : (ml j - ml u).natAbs = (ml t - ml i).natAbs := by omega
    rw [gaunt_symm 0 (ml j) (ml u) (ml_bounds j).1 (ml_bounds j).2
        (ml_bounds u).1 (ml_bounds u).2,
      gaunt_symm 2 (ml j) (ml u) (ml_bounds j).1 (ml_bounds j).2
        (ml_bounds u).1 (ml_bounds u).2,
      gaunt_symm 0 (ml t) (ml i) (ml_bounds t).1 (ml_bounds t).2
        (ml_bounds i).1 (ml_bounds i).2,
      gaunt_symm 2 (ml t) (ml i) (ml_bounds t).1 (ml_bounds t).2
        (ml_bounds i).1 (ml_bounds i).2,
      hd]
    have hsq : ((-1 : KF)) ^ ((ml t - ml i).natAbs) *
        ((-1 : KF)) ^ ((ml t - ml i).natAbs) = 1 := by
      rw [← mul_pow]
      simp
    have expand : ∀ gA gB f : KF,
        ((-1 : KF) ^ ((ml t - ml i).natAbs) * gA) *
          ((-1 : KF) ^ ((ml t - ml i).natAbs) * gB) * f = gB * gA * f := by
      intro gA gB f
      calc ((-1 : KF) ^ ((ml t - ml i).natAbs) * gA) *
            ((-1 : KF) ^ ((ml t - ml i).natAbs) * gB) * f
          = ((-1 : KF) ^ ((ml t - ml i).natAbs) *
              (-1 : KF) ^ ((ml t - ml i).natAbs)) * (gB * gA * f) := by ring
        _ = gB * gA * f := by rw [hsq, one_mul]
    rw [expand, expand]
  · obtain ⟨hms1, hms2, hml⟩ := hc1
    exact absurd ⟨hms2, hms1, by omega⟩ hc2
  · obtain ⟨hms1, hms2, hml⟩ := hc2
    exact absurd ⟨hms2, hms1, by omega⟩ hc1
  · rfl

/-! ### Symmetry and realness of the Hamiltonian -/

/-- Index reversal of the four orbital indices of the Coulomb sum. -/
def rev4 : (Fin 6 × Fin 6 × Fin 6 × Fin 6) ≃ (Fin 6 × Fin 6 × Fin 6 × Fin 6) where
  toFun q := (q.2.2.2, q.2.2.1, q.2.1, q.1)
  invFun q := (q.2.2.2, q.2.2.1, q.2.1, q.1)
  left_inv q := rfl
  right_inv q := rfl

theorem H_symm (a b : Fin basis.length) : H b a = H a b := by
  show (∑ q : Fin 6 × Fin 6 × Fin 6 × Fin 6,
      umat q.1 q.2.1 q.2.2.1 q.2.2.2 *
        ((matel4 (basis.get b) q.1 q.2.1 q.2.2.1 q.2.2.2 (basis.get a) : ℤ) : KF)) =
    (∑ q : Fin 6 × Fin 6 × Fin 6 × Fin 6,
      umat q.1 q.2.1 q.2.2.1 q.2.2.2 *
        ((matel4 (basis.get a) q.1 q.2.1 q.2.2.1 q.2.2.2 (basis.get b) : ℤ) : KF))
  refine Fintype.sum_equiv rev4 _ _ ?_
  rintro ⟨i, j, t, u⟩
  show umat i j t u * ((matel4 (basis.get b) i j t u (basis.get a) : ℤ) : KF) =
    umat u t j i * ((matel4 (basis.get a) u t j i (basis.get b) : ℤ) : KF)
  rw [show umat i j t u = get_umat_slater F0 F2 i j t u from rfl,
    show umat u t j i = get_umat_slater F0 F2 u t j i from rfl,
    get_umat_slater_rev, matel4_adjoint]

/-- Additive projection on the imaginary component of the coefficient field. -/
def yHom : KF →+ Qr23 where
  toFun z := z.y
  map_zero' := rfl
  map_add' _ _ := rfl

theorem sum_y {ι : Type} (s : Finset ι) (f : ι → KF) :
    (∑ i ∈ s, f i).y = ∑ i ∈ s, (f i).y :=
  map_sum yHom f s

theorem mul_y_zero {z w : KF} (hz : z.y = 0) (hw : w.y = 0) : (z * w).y = 0 := by
  simp [hz, hw]

theorem ratKF_y (q : ℚ) : (ratKF q).y = 0 := rfl

theorem sqrt3K_y : sqrt3K.y = 0 := rfl

theorem sqrt6K_y : sqrt6K.y = 0 := rfl

theorem c2g_y (m mp : ℤ) : (c2g m mp).y = 0 := by
  rw [c2g]
  split_ifs <;> simp [ratKF_y, sqrt3K_y, sqrt6K_y]

theorem gaunt_y (k : ℕ) (m mp : ℤ) : (gaunt k m mp).y = 0 := by
  rw [gaunt]
  split_ifs <;> simp [c2g_y]

theorem umat_y (i j t u : Fin 6) : (umat i j t u).y = 0 := by
  show (get_umat_slater F0 F2 i j t u).y = 0
  rw [get_umat_slater]
  split_ifs
  · simp [F0, F2, gaunt_y, ratKF_y]
  · rfl

theorem H_real (a b : Fin basis.length) : (H a b).y = 0 := by
  show (∑ q : Fin 6 × Fin 6 × Fin 6 × Fin 6,
      umat q.1 q.2.1 q.2.2.1 q.2.2.2 *
        ((matel4 (basis.get a) q.1 q.2.1 q.2.2.1 q.2.2.2 (basis.get b) : ℤ) : KF)).y = 0
  rw [sum_y]
  refine Finset.sum_eq_zero ?_
  intro q _
  exact mul_y_zero (umat_y _ _ _ _) (QuadExt.intCast_y _)

noncomputable section

/-- The Hamiltonian of the script as a complex matrix. -/
def Hc : Matrix (Fin basis.length) (Fin basis.length) ℂ := H.map toC

theorem Hc_hermitian : Hc.IsHermitian := by
  rw [Matrix.IsHermitian]
  ext a b
  rw [Matrix.conjTranspose_apply]
  show star (Hc b a) = Hc a b
  rw [show Hc b a = toC (H b a) from rfl, show Hc a b = toC (H a b) from rfl]
  calc star (toC (H b a)) = toC (H b a) := toC_conj_of_real _ (H_real b a)
    _ = toC (H a b) := by rw [H_symm]

end

/-! ### Claims C1, C3 and C4 -/

/-- Claim C1: for norb = 6 and noccu = 2 the Fock basis returned by the
enumeration has exactly choose 6 2 = 15 states, and in general the number of
enumerated basis states is the binomial coefficient of the number of single
particle states choose the occupancy count. -/
theorem C1_fock_basis_count :
    basis.length = Nat.choose 6 2 ∧ Nat.choose 6 2 = 15 ∧
      ∀ n k : ℕ, (get_fock_bin_by_N n k).length = n.choose k :=
  ⟨get_fock_bin_length 6 2, by decide, get_fock_bin_length⟩

/-- Claim C3: the Hamiltonian built from the Coulomb tensor on the Fock
basis is Hermitian, and here real valued, so it equals its conjugate
transpose and every entry has vanishing imaginary part. -/
theorem C3_H_hermitian :
    Hc.IsHermitian ∧ ∀ a b : Fin basis.length, (Hc a b).im = 0 := by
  refine ⟨Hc_hermitian, fun a b => ?_⟩
  show (toC (H a b)).im = 0
  rw [toC_im, H_real, map_zero]

/-- Claim C4: the four index Coulomb tensor built from the Slater integrals
F0 and F2 is symmetric under simultaneous exchange of the two creation
indices and the two annihilation indices. -/
theorem C4_umat_exchange :
    ∀ i j t u : Fin 6, umat i j t u = umat j i u t := fun i j t u =>
  umat_exchange_aux F0 F2 i j t u

/-! ### Hermiticity of the spin orbit operator -/

@[simp] theorem iK_x : iK.x = 0 := rfl

@[simp] theorem iK_y : iK.y = 1 := rfl

theorem sqrt2K_y : sqrt2K.y = 0 := rfl

/-- Entry formula for the product of one orbital and one spin component
matrix: the inner sum collapses to the unique intermediate orbital. -/
theorem LS_entry (a : Fin 3) (n np : Fin 6) :
    (orb_mom a * spin_mom a) n np =
      l1mat a.val (n.val / 2) (np.val / 2) * s1mat a.val (ms n) (ms np) := by
  have hk : 2 * (np.val / 2) + n.val % 2 < 6 := by omega
  rw [Matrix.mul_apply]
  rw [Finset.sum_eq_single (⟨2 * (np.val / 2) + n.val % 2, hk⟩ : Fin 6)]
  · have hv : (⟨2 * (np.val / 2) + n.val % 2, hk⟩ : Fin 6).val =
        2 * (np.val / 2) + n.val % 2 := rfl
    have e1 : (⟨2 * (np.val / 2) + n.val % 2, hk⟩ : Fin 6).val / 2 = np.val / 2 := by
      omega
    have e2 : (⟨2 * (np.val / 2) + n.val % 2, hk⟩ : Fin 6).val % 2 = n.val % 2 := by
      omega
    simp only [orb_mom, spin_mom, get_orb_momentum, get_spin_momentum,
      Matrix.of_apply, ms]
    rw [if_pos (by omega), if_pos (by omega), one_mul, one_mul, e1, e2]
  · intro k _ hne
    simp only [orb_mom, spin_mom, get_orb_momentum, get_spin_momentum,
      Matrix.of_apply, ms]
    have hv : (⟨2 * (np.val / 2) + n.val % 2, hk⟩ : Fin 6).val =
        2 * (np.val / 2) + n.val % 2 := rfl
    by_cases h1 : n.val % 2 = k.val % 2
    · by_cases h2 : k.val / 2 = np.val / 2
      · exact absurd (Fin.ext (by rw [hv]; omega)) hne
      · rw [if_neg h2, zero_mul, mul_zero]
    · rw [if_neg h1, zero_mul, zero_mul]
  · intro hn
    exact absurd (Finset.mem_univ _) hn

/-- Explicit entry formula for the spin orbit matrix. -/
theorem soc_entry (n np : Fin 6) :
    soc n np = ratKF (1/5) *
      (l1mat 0 (n.val / 2) (np.val / 2) * s1mat 0 (ms n) (ms np) +
       l1mat 1 (n.val / 2) (np.val / 2) * s1mat 1 (ms n) (ms np) +
       l1mat 2 (n.val / 2) (np.val / 2) * s1mat 2 (ms n) (ms np)) := by
  simp only [soc, atom_hsoc, Matrix.of_apply, Matrix.add_apply, LS_entry]
  simp

set_option maxHeartbeats 2000000 in
/-- Exchange symmetry of the single particle spin orbit sum. -/
theorem lssum_symm (po qo ps qs : ℕ) (hpo : po ≤ 2) (hqo : qo ≤ 2)
    (hps : ps ≤ 1) (hqs : qs ≤ 1) :
    l1mat 0 qo po * s1mat 0 qs ps + l1mat 1 qo po * s1mat 1 qs ps +
      l1mat 2 qo po * s1mat 2 qs ps =
    l1mat 0 po qo * s1mat 0 ps qs + l1mat 1 po qo * s1mat 1 ps qs +
      l1mat 2 po qo * s1mat 2 ps qs := by
  interval_cases po <;> interval_cases qo <;> interval_cases ps <;> interval_cases qs <;>
    simp [l1mat, s1mat] <;> ring

set_option maxHeartbeats 2000000 in
/-- Realness of the single particle spin orbit sum. -/
theorem lssum_real (po qo ps qs : ℕ) (hpo : po ≤ 2) (hqo : qo ≤ 2)
    (hps : ps ≤ 1) (hqs : qs ≤ 1) :
    (l1mat 0 po qo * s1mat 0 ps qs + l1mat 1 po qo * s1mat 1 ps qs +
      l1mat 2 po qo * s1mat 2 ps qs).y = 0 := by
  interval_cases po <;> interval_cases qo <;> interval_cases ps <;> interval_cases qs <;>
    simp [l1mat, s1mat, ratKF_y, sqrt2K_y] <;> ring

theorem soc_symm (n np : Fin 6) : soc np n = soc n np := by
  rw [soc_entry, soc_entry]
  rw [lssum_symm (n.val / 2) (np.val / 2) (ms n) (ms np) (by omega) (by omega)
    (by simp [ms]; omega) (by simp [ms]; omega)]

theorem soc_real (n np : Fin 6) : (soc n np).y = 0 := by
  rw [soc_entry]
  refine mul_y_zero (ratKF_y _) ?_
  exact lssum_real (n.val / 2) (np.val / 2) (ms n) (ms np) (by omega) (by omega)
    (by simp [ms]; omega) (by simp [ms]; omega)

/-! ### The Hamiltonian with spin orbit coupling -/

/-- Swap of the two orbital indices of the two fermion sum. -/
def swap2 : (Fin 6 × Fin 6) ≃ (Fin 6 × Fin 6) where
  toFun p := (p.2, p.1)
  invFun p := (p.2, p.1)
  left_inv p := rfl
  right_inv p := rfl

theorem Hsoc_symm (a b : Fin basis.length) : Hsoc b a = Hsoc a b := by
  simp only [Hsoc, build_opers2, Matrix.of_apply]
  refine Fintype.sum_equiv swap2 _ _ ?_
  rintro ⟨i, j⟩
  dsimp only [swap2, Equiv.coe_fn_mk]
  rw [matel2_adjoint, soc_symm]

theorem Hsoc_real (a b : Fin basis.length) : (Hsoc a b).y = 0 := by
  simp only [Hsoc, build_opers2, Matrix.of_apply]
  rw [sum_y]
  refine Finset.sum_eq_zero ?_
  intro p _
  exact mul_y_zero (soc_real _ _) (QuadExt.intCast_y _)

theorem H2_symm (a b : Fin basis.length) : H2 b a = H2 a b := by
  rw [H2, Matrix.add_apply, Matrix.add_apply, H_symm, Hsoc_symm]

theorem H2_real (a b : Fin basis.length) : (H2 a b).y = 0 := by
  rw [H2, Matrix.add_apply]
  rw [QuadExt.add_y, H_real, Hsoc_real, add_zero]

noncomputable section

/-- The spin orbit operator in the Fock basis as a complex matrix. -/
def Hsocc : Matrix (Fin basis.length) (Fin basis.length) ℂ := Hsoc.map toC

/-- The Hamiltonian with spin orbit coupling as a complex matrix. -/
def H2c : Matrix (Fin basis.length) (Fin basis.length) ℂ := H2.map toC

/-- A symmetric real valued matrix over the coefficient field maps to a
Hermitian complex matrix. -/
theorem map_herm {M : Matrix (Fin basis.length) (Fin basis.length) KF}
    (hs : ∀ a b, M b a = M a b) (hr : ∀ a b, (M a b).y = 0) :
    (M.map ⇑toC).IsHermitian := by
  rw [Matrix.IsHermitian]
  ext a b
  rw [Matrix.conjTranspose_apply]
  show star (toC (M b a)) = toC (M a b)
  calc star (toC (M b a)) = toC (M b a) := toC_conj_of_real _ (hr b a)
    _ = toC (M a b) := by rw [hs]

theorem H2c_hermitian : H2c.IsHermitian := map_herm H2_symm H2_real

/-! ### The eigensolver model -/

/-- Modelled from the spec: `scipy.linalg.eigh` returns the real eigenvalues
of a Hermitian matrix in ascending order, together with a square matrix
whose column `c` is an eigenvector for the eigenvalue of rank `c`. -/
def eigh {n : ℕ} (A : Matrix (Fin n) (Fin n) ℂ) (hA : A.IsHermitian) :
    (Fin n → ℝ) × Matrix (Fin n) (Fin n) ℂ :=
  (hA.eigenvalues ∘ Tuple.sort hA.eigenvalues,
   Matrix.of fun r c =>
     (hA.eigenvectorUnitary : Matrix (Fin n) (Fin n) ℂ) r (Tuple.sort hA.eigenvalues c))

/-- Sorted eigenvalues of the Coulomb Hamiltonian, as in the script. -/
def e : Fin basis.length → ℝ := (eigh Hc Hc_hermitian).1

/-- Eigenvector matrix of the Coulomb Hamiltonian, as in the script. -/
def v : Matrix (Fin basis.length) (Fin basis.length) ℂ := (eigh Hc Hc_hermitian).2

/-- Sorted eigenvalues of the Hamiltonian with spin orbit coupling. -/
def e2 : Fin basis.length → ℝ := (eigh H2c H2c_hermitian).1

/-- Eigenvector matrix of the Hamiltonian with spin orbit coupling. -/
def v2 : Matrix (Fin basis.length) (Fin basis.length) ℂ := (eigh H2c H2c_hermitian).2

/-- Trace of a Hermitian matrix is the sum of its eigenvalues. -/
theorem herm_trace_eq {n : ℕ} (A : Matrix (Fin n) (Fin n) ℂ) (hA : A.IsHermitian) :
    A.trace = ∑ i, (hA.eigenvalues i : ℂ) := by
  conv_lhs => rw [hA.spectral_theorem]
  rw [Matrix.trace_mul_cycle, Matrix.UnitaryGroup.star_mul_self, one_mul,
    Matrix.trace_diagonal]
  simp [Function.comp]

theorem sum_e_eq_trace : (∑ i, (e i : ℂ)) = Hc.trace := by
  rw [herm_trace_eq Hc Hc_hermitian]
  exact Equiv.sum_comp (Tuple.sort Hc_hermitian.eigenvalues)
    (fun i => ((Hc_hermitian.eigenvalues i : ℝ) : ℂ))

theorem sum_e2_eq_trace : (∑ i, (e2 i : ℂ)) = H2c.trace := by
  rw [herm_trace_eq H2c H2c_hermitian]
  exact Equiv.sum_comp (Tuple.sort H2c_hermitian.eigenvalues)
    (fun i => ((H2c_hermitian.eigenvalues i : ℝ) : ℂ))

theorem H2c_split : H2c = Hc + Hsocc := by
  rw [H2c, H2, Hc, Hsocc]
  exact Matrix.map_add _ (fun z w => map_add toC z w) H Hsoc

end

/-! ### Claims C2 and C5 -/

/-- Claim C2: the eigensolver model returns its eigenvalues in ascending
order, and the number of eigenvalues, as well as the row and column counts
of the eigenvector matrix, all equal the Fock basis size. -/
theorem C2_eigh_sorted_counts :
    (∀ i j : Fin basis.length, i ≤ j → e i ≤ e j) ∧
      (List.ofFn e).length = basis.length ∧
      Fintype.card (Fin basis.length) = basis.length := by
  refine ⟨fun i j hij => ?_, by simp [basis_length], by simp [basis_length]⟩
  exact Tuple.monotone_sort Hc_hermitian.eigenvalues hij

/-- Closed witness for claim C2, comparing the two lowest eigenvalues. -/
theorem C2_eigh_sorted_counts_witness :
    e ⟨0, by rw [basis_length]; omega⟩ ≤ e ⟨1, by rw [basis_length]; omega⟩ :=
  C2_eigh_sorted_counts.1 ⟨0, by rw [basis_length]; omega⟩
    ⟨1, by rw [basis_length]; omega⟩ (by decide)

/-- Claim C5: adding the spin orbit term preserves the number of states, the
eigenvalue sums of the two Hamiltonians equal their traces, and the
difference of the eigenvalue sums is the trace of the Fock basis spin orbit
operator. -/
theorem C5_trace_invariance :
    (List.ofFn e2).length = (List.ofFn e).length ∧
      (List.ofFn e).length = basis.length ∧
      (∑ i, (e i : ℂ)) = Hc.trace ∧
      (∑ i, (e2 i : ℂ)) = H2c.trace ∧
      (∑ i, (e2 i : ℂ)) - (∑ i, (e i : ℂ)) = Hsocc.trace := by
  refine ⟨by simp, by simp [basis_length], sum_e_eq_trace, sum_e2_eq_trace, ?_⟩
  rw [sum_e_eq_trace, sum_e2_eq_trace, H2c_split, Matrix.trace_add]
  ring

/-! ### Expectation values and console output -/

noncomputable section

/-- Modelled from the spec: `edrixs.cb_op` changes the basis of an operator
matrix using the transform whose columns are the new basis vectors:
conjugate transpose of T, times the operator, times T. -/
def cb_op {k : ℕ} (o T : Matrix (Fin k) (Fin k) ℂ) : Matrix (Fin k) (Fin k) ℂ :=
  T.conjTranspose * o * T

/-- The squared orbital momentum operator as a complex matrix. -/
def L2c : Matrix (Fin basis.length) (Fin basis.length) ℂ := L2.map toC

/-- The squared spin operator as a complex matrix. -/
def S2c : Matrix (Fin basis.length) (Fin basis.length) ℂ := S2.map toC

/-- The squared total momentum operator as a complex matrix. -/
def J2c : Matrix (Fin basis.length) (Fin basis.length) ℂ := J2.map toC

/-- Orbital momentum expectation values printed in the first table: real
part of the diagonal of the basis changed operator. -/
def L2_val (i : Fin basis.length) : ℝ := (Matrix.diag (cb_op L2c v) i).re

/-- Spin expectation values printed in the first table. -/
def S2_val (i : Fin basis.length) : ℝ := (Matrix.diag (cb_op S2c v) i).re

/-- Total momentum expectation values computed for the first table. -/
def J2_val (i : Fin basis.length) : ℝ := (Matrix.diag (cb_op J2c v) i).re

/-- Total momentum expectation values printed in the second table. -/
def J2_val_soc (i : Fin basis.length) : ℝ := (Matrix.diag (cb_op J2c v2) i).re

/-- Orbital momentum expectation values printed in the second table. -/
def L2_val_soc (i : Fin basis.length) : ℝ := (Matrix.diag (cb_op L2c v2) i).re

/-- Spin expectation values printed in the second table. -/
def S2_val_soc (i : Fin basis.length) : ℝ := (Matrix.diag (cb_op S2c v2) i).re

end

/-- A fixed width, fixed precision formatted numeric cell, mirroring a
format item of the script print statements. -/
structure FmtF where
  width : ℕ
  prec : ℕ
  val : ℝ

/-- One line of the console output of the script. -/
inductive OutLine where
  | matrixDump : OutLine
  | countLine (ne nv1 nv0 : ℕ) : OutLine
  | header (cols : List String) : OutLine
  | text (s : String) : OutLine
  | row (idx idxWidth : ℕ) (energy : FmtF) (avals : List FmtF) : OutLine

/-- Header line detector. -/
def isHeader : OutLine → Bool
  | OutLine.header _ => true
  | _ => false

noncomputable section

/-- Rows of the first table: index, energy, then the spin and orbital
momentum expectation values, all floats at width 8 and 3 decimals. -/
def table1_rows : List OutLine :=
  (List.finRange basis.length).map fun i =>
    OutLine.row i.val 3 ⟨8, 3, e i⟩ [⟨8, 3, S2_val i⟩, ⟨8, 3, L2_val i⟩]

/-- Rows of the second table: index, energy, then the spin, orbital and
total momentum expectation values, all floats at width 8 and 3 decimals. -/
def table2_rows : List OutLine :=
  (List.finRange basis.length).map fun i =>
    OutLine.row i.val 3 ⟨8, 3, e2 i⟩
      [⟨8, 3, S2_val_soc i⟩, ⟨8, 3, L2_val_soc i⟩, ⟨8, 3, J2_val_soc i⟩]

/-- The console output of the script, line by line and in print order: the
basis array dump, the eigenvalue count line, the first table header and its
rows, the text line With SOC, and the second table header and its rows. -/
def script_output : List OutLine :=
  OutLine.matrixDump ::
  OutLine.countLine (List.ofFn e).length (Fintype.card (Fin basis.length))
      (Fintype.card (Fin basis.length)) ::
  OutLine.header ["#  ", "E  ", "S(S+1)", "L(L+1)"] ::
  (table1_rows ++
    OutLine.text "With SOC" ::
    OutLine.header ["#", "E", "S(S+1)", "L(L+1)", "J(J+1)"] ::
    table2_rows)

end

theorem table1_rows_filter : table1_rows.filter isHeader = [] := by
  simp [table1_rows, List.filter_map, isHeader, Function.comp_def]

theorem table2_rows_filter : table2_rows.filter isHeader = [] := by
  simp [table2_rows, List.filter_map, isHeader, Function.comp_def]

/-! ### Claims C7, C9 and C10 -/

/-- Claim C7: the console output contains exactly two formatted tables; the
second one is immediately preceded by the line With SOC; rows of the first
table carry an index and three floats (energy, then two expectation values)
and rows of the second table carry an index and four floats, all printed at
fixed width 8 with 3 decimal places. -/
theorem C7_output_tables :
    (script_output.filter isHeader).length = 2 ∧
    (∃ pre : List OutLine,
      script_output = pre ++
        OutLine.text "With SOC" ::
        OutLine.header ["#", "E", "S(S+1)", "L(L+1)", "J(J+1)"] :: table2_rows ∧
      (pre.filter isHeader).length = 1) ∧
    (∀ r ∈ table1_rows, ∃ i en vs, r = OutLine.row i 3 en vs ∧
      en.width = 8 ∧ en.prec = 3 ∧ vs.length = 2 ∧
      ∀ f ∈ vs, f.width = 8 ∧ f.prec = 3) ∧
    (∀ r ∈ table2_rows, ∃ i en vs, r = OutLine.row i 3 en vs ∧
      en.width = 8 ∧ en.prec = 3 ∧ vs.length = 3 ∧
      ∀ f ∈ vs, f.width = 8 ∧ f.prec = 3) := by
  refine ⟨?_, ?_, ?_, ?_⟩
  · simp [script_output, List.filter_append, table1_rows_filter, table2_rows_filter,
      isHeader]
  · refine ⟨OutLine.matrixDump ::
      OutLine.countLine (List.ofFn e).length (Fintype.card (Fin basis.length))
        (Fintype.card (Fin basis.length)) ::
      OutLine.header ["#  ", "E  ", "S(S+1)", "L(L+1)"] :: table1_rows, ?_, ?_⟩
    · simp [script_output]
    · simp [List.filter_append, table1_rows_filter, isHeader]
  · intro r hr
    rw [table1_rows, List.mem_map] at hr
    obtain ⟨i, _, rfl⟩ := hr
    refine ⟨i.val, ⟨8, 3, e i⟩, _, rfl, rfl, rfl, rfl, ?_⟩
    intro f hf
    simp at hf
    rcases hf with h | h <;> subst h <;> exact ⟨rfl, rfl⟩
  · intro r hr
    rw [table2_rows, List.mem_map] at hr
    obtain ⟨i, _, rfl⟩ := hr
    refine ⟨i.val, ⟨8, 3, e2 i⟩, _, rfl, rfl, rfl, rfl, ?_⟩
    intro f hf
    simp at hf
    rcases hf with h | h | h <;> subst h <;> exact ⟨rfl, rfl⟩

/-- Claim C9: both printed tables have the same number of rows, namely the
Fock basis size 15, and every eigenvalue or expectation value vector has
that same length. -/
theorem C9_row_counts :
    table1_rows.length = basis.length ∧
    table2_rows.length = basis.length ∧
    basis.length = 15 ∧
    (List.ofFn e).length = basis.length ∧
    (List.ofFn e2).length = basis.length ∧
    (List.ofFn S2_val).length = basis.length ∧
    (List.ofFn L2_val).length = basis.length ∧
    (List.ofFn J2_val).length = basis.length ∧
    (List.ofFn S2_val_soc).length = basis.length ∧
    (List.ofFn L2_val_soc).length = basis.length ∧
    (List.ofFn J2_val_soc).length = basis.length := by
  refine ⟨?_, ?_, basis_length, ?_, ?_, ?_, ?_, ?_, ?_, ?_, ?_⟩ <;>
    simp [table1_rows, table2_rows, basis_length]

/-- Claim C10: every expectation value placed in the output rows is exactly
the real part of the corresponding diagonal entry of the basis changed
operator matrix; the imaginary component is discarded. -/
theorem C10_vals_are_real_diagonal :
    ∀ i : Fin basis.length,
      (OutLine.row i.val 3 ⟨8, 3, e i⟩ [⟨8, 3, S2_val i⟩, ⟨8, 3, L2_val i⟩]
          ∈ table1_rows ∧
        OutLine.row i.val 3 ⟨8, 3, e2 i⟩
          [⟨8, 3, S2_val_soc i⟩, ⟨8, 3, L2_val_soc i⟩, ⟨8, 3, J2_val_soc i⟩]
          ∈ table2_rows) ∧
      S2_val i = (Matrix.diag (cb_op S2c v) i).re ∧
      L2_val i = (Matrix.diag (cb_op L2c v) i).re ∧
      J2_val i = (Matrix.diag (cb_op J2c v) i).re ∧
      S2_val_soc i = (Matrix.diag (cb_op S2c v2) i).re ∧
      L2_val_soc i = (Matrix.diag (cb_op L2c v2) i).re ∧
      J2_val_soc i = (Matrix.diag (cb_op J2c v2) i).re := by
  intro i
  refine ⟨⟨?_, ?_⟩, rfl, rfl, rfl, rfl, rfl, rfl⟩
  · rw [table1_rows, List.mem_map]
    exact ⟨i, List.mem_finRange i, rfl⟩
  · rw [table2_rows, List.mem_map]
    exact ⟨i, List.mem_finRange i, rfl⟩

/-! ### Claim C8: no error handling, exceptions propagate -/

/-- The script viewed as the sequence of its possibly failing library calls,
composed without any error handling, in source order: Coulomb tensor, Fock
basis, Hamiltonian assembly, diagonalization, momentum operators, operator
assembly for them, spin orbit matrix, assembly and second diagonalization. -/
def script_run {eE aA : Type}
    (get_umat get_basis get_moments get_soc : Except eE aA)
    (build : aA → aA → Except eE aA)
    (diag : aA → Except eE aA) : Except eE (aA × aA) :=
  get_umat.bind fun u =>
  get_basis.bind fun b =>
  (build u b).bind fun h =>
  (diag h).bind fun ev1 =>
  get_moments.bind fun m =>
  (build m b).bind fun _ops =>
  get_soc.bind fun s =>
  (build s b).bind fun h2 =>
  (diag h2).bind fun ev2 =>
  Except.ok (ev1, ev2)

/-- Claim C8: the script has no error handling: whichever library stage
fails first, its exception is returned unmodified as the outcome of the
whole run. -/
theorem C8_exception_propagation {eE aA : Type} (err : eE)
    (get_umat get_basis get_moments get_soc : Except eE aA)
    (build : aA → aA → Except eE aA) (diag : aA → Except eE aA) :
    (get_umat = Except.error err →
      script_run get_umat get_basis get_moments get_soc build diag =
        Except.error err) ∧
    (∀ u, get_umat = Except.ok u → get_basis = Except.error err →
      script_run get_umat get_basis get_moments get_soc build diag =
        Except.error err) ∧
    (∀ u b, get_umat = Except.ok u → get_basis = Except.ok b →
      build u b = Except.error err →
      script_run get_umat get_basis get_moments get_soc build diag =
        Except.error err) ∧
    (∀ u b h, get_umat = Except.ok u → get_basis = Except.ok b →
      build u b = Except.ok h → diag h = Except.error err →
      script_run get_umat get_basis get_moments get_soc build diag =
        Except.error err) ∧
    (∀ u b h ev1, get_umat = Except.ok u → get_basis = Except.ok b →
      build u b = Except.ok h → diag h = Except.ok ev1 →
      get_moments = Except.error err →
      script_run get_umat get_basis get_moments get_soc build diag =
        Except.error err) ∧
    (∀ u b h ev1 m, get_umat = Except.ok u → get_basis = Except.ok b →
      build u b = Except.ok h → diag h = Except.ok ev1 →
      get_moments = Except.ok m → build m b = Except.error err →
      script_run get_umat get_basis get_moments get_soc build diag =
        Except.error err) ∧
    (∀ u b h ev1 m ops, get_umat = Except.ok u → get_basis = Except.ok b →
      build u b = Except.ok h → diag h = Except.ok ev1 →
      get_moments = Except.ok m → build m b = Except.ok ops →
      get_soc = Except.error err →
      script_run get_umat get_basis get_moments get_soc build diag =
        Except.error err) ∧
    (∀ u b h ev1 m ops s, get_umat = Except.ok u → get_basis = Except.ok b →
      build u b = Except.ok h → diag h = Except.ok ev1 →
      get_moments = Except.ok m → build m b = Except.ok ops →
      get_soc = Except.ok s → build s b = Except.error err →
      script_run get_umat get_basis get_moments get_soc build diag =
        Except.error err) ∧
    (∀ u b h ev1 m ops s h2, get_umat = Except.ok u → get_basis = Except.ok b →
      build u b = Except.ok h → diag h = Except.ok ev1 →
      get_moments = Except.ok m → build m b = Except.ok ops →
      get_soc = Except.ok s → build s b = Except.ok h2 →
      diag h2 = Except.error err →
      script_run get_umat get_basis get_moments get_soc build diag =
        Except.error err) := by
  refine ⟨?_, ?_, ?_, ?_, ?_, ?_, ?_, ?_, ?_⟩
  · intro h1
    simp [script_run, h1, Except.bind]
  · intro u h1 h2
    simp [script_run, h1, h2, Except.bind]
  · intro u b h1 h2 h3
    simp [script_run, h1, h2, h3, Except.bind]
  · intro u b h h1 h2 h3 h4
    simp [script_run, h1, h2, h3, h4, Except.bind]
  · intro u b h ev1 h1 h2 h3 h4 h5
    simp [script_run, h1, h2, h3, h4, h5, Except.bind]
  · intro u b h ev1 m h1 h2 h3 h4 h5 h6
    simp [script_run, h1, h2, h3, h4, h5, h6, Except.bind]
  · intro u b h ev1 m ops h1 h2 h3 h4 h5 h6 h7
    simp [script_run, h1, h2, h3, h4, h5, h6, h7, Except.bind]
  · intro u b h ev1 m ops s h1 h2 h3 h4 h5 h6 h7 h8
    simp [script_run, h1, h2, h3, h4, h5, h6, h7, h8, Except.bind]
  · intro u b h ev1 m ops s h2m h1 h2 h3 h4 h5 h6 h7 h8 h9
    simp [script_run, h1, h2, h3, h4, h5, h6, h7, h8, h9, Except.bind]

/-- Closed witness for claim C8: a failing first stage aborts the run with
exactly that error. -/
theorem C8_exception_propagation_witness :
    @script_run ℕ ℕ (Except.error 7) (Except.ok 0) (Except.ok 0) (Except.ok 0)
      (fun _ _ => Except.ok 0) (fun _ => Except.ok 0) = Except.error 7 :=
  (@C8_exception_propagation ℕ ℕ 7 (Except.error 7) (Except.ok 0) (Except.ok 0)
    (Except.ok 0) (fun _ _ => Except.ok 0) (fun _ => Except.ok 0)).1 rfl
/-! ### A concrete eigenvector of H with non quantized total momentum

The Fock state with the two up spin electrons in the extreme orbitals
(magnetic quantum numbers -1 and +1) spans the whole sector with total
magnetic quantum number zero and both spins up, so it is an eigenvector of
the Coulomb Hamiltonian.  Its squared spin and orbital momentum expectation
values are the quantized 1(1+1) = 2, but the expectation value of the
squared total momentum computes to exactly 4, which is not of the form
j(j+1) for any half integer j. -/

theorem finval6_0 : ((0 : Fin 6)).val = 0 := rfl

theorem finval6_1 : ((1 : Fin 6)).val = 1 := rfl

theorem finval6_2 : ((2 : Fin 6)).val = 2 := rfl

theorem finval6_3 : ((3 : Fin 6)).val = 3 := rfl

theorem finval6_4 : ((4 : Fin 6)).val = 4 := rfl

theorem finval6_5 : ((5 : Fin 6)).val = 5 := rfl

theorem ratKF_apply (q : ℚ) : ratKF q = ⟨⟨⟨q, 0⟩, 0⟩, 0⟩ := rfl

theorem sqrt2K_apply : sqrt2K = ⟨⟨⟨0, 1⟩, 0⟩, 0⟩ := rfl

/-- The distinguished Fock state: up spin electrons at magnetic quantum
numbers -1 and +1. -/
def sstar : List Bool := [true, false, false, false, true, false]

/-- Position of the distinguished state in the Fock basis. -/
def bstar : Fin basis.length := ⟨11, by decide⟩

theorem basis_get_bstar : basis.get bstar = sstar := by decide

theorem Hcol_0 : H (⟨0, by decide⟩ : Fin basis.length) bstar = 0 := by
  rw [H, build_opers4, Matrix.of_apply]
  rw [(by decide : basis.get bstar = [true, false, false, false, true, false])]
  rw [(by decide : basis.get (⟨0, by decide⟩ : Fin basis.length) = [false, false, false, false, true, true])]
  have hkey : ∀ i j t u : Fin 6,
      matel4 [false, false, false, false, true, true] i j t u [true, false, false, false, true, false] ≠ 0 →
      ¬(ms i = ms t ∧ ms j = ms u ∧ ml i + ml j = ml t + ml u) := by decide
  refine Finset.sum_eq_zero ?_
  rintro ⟨i, j, t, u⟩ -
  by_cases hm : matel4 [false, false, false, false, true, true] i j t u [true, false, false, false, true, false] = 0
  · rw [hm, Int.cast_zero, mul_zero]
  · rw [show umat i j t u = 0 from by
      rw [show umat i j t u = get_umat_slater F0 F2 i j t u from rfl,
        get_umat_slater, if_neg (hkey i j t u hm)],
      zero_mul]

theorem Hcol_1 : H (⟨1, by decide⟩ : Fin basis.length) bstar = 0 := by
  rw [H, build_opers4, Matrix.of_apply]
  rw [(by decide : basis.get bstar = [true, false, false, false, true, false])]
  rw [(by decide : basis.get (⟨1, by decide⟩ : Fin basis.length) = [false, false, false, true, false, true])]
  have hkey : ∀ i j t u : Fin 6,
      matel4 [false, false, false, true, false, true] i j t u [true, false, false, false, true, false] ≠ 0 →
      ¬(ms i = ms t ∧ ms j = ms u ∧ ml i + ml j = ml t + ml u) := by decide
  refine Finset.sum_eq_zero ?_
  rintro ⟨i, j, t, u⟩ -
  by_cases hm : matel4 [false, false, false, true, false, true] i j t u [true, false, false, false, true, false] = 0
  · rw [hm, Int.cast_zero, mul_zero]
  · rw [show umat i j t u = 0 from by
      rw [show umat i j t u = get_umat_slater F0 F2 i j t u from rfl,
        get_umat_slater, if_neg (hkey i j t u hm)],
      zero_mul]

theorem Hcol_2 : H (⟨2, by decide⟩ : Fin basis.length) bstar = 0 := by
  rw [H, build_opers4, Matrix.of_apply]
  rw [(by decide : basis.get bstar = [true, false, false, false, true, false])]
  rw [(by decide : basis.get (⟨2, by decide⟩ : Fin basis.length) = [false, false, false, true, true, false])]
  have hkey : ∀ i j t u : Fin 6,
      matel4 [false, false, false, true, true, false] i j t u [true, false, false, false, true, false] ≠ 0 →
      ¬(ms i = ms t ∧ ms j = ms u ∧ ml i + ml j = ml t + ml u) := by decide
  refine Finset.sum_eq_zero ?_
  rintro ⟨i, j, t, u⟩ -
  by_cases hm : matel4 [false, false, false, true, true, false] i j t u [true, false, false, false, true, false] = 0
  · rw [hm, Int.cast_zero, mul_zero]
  · rw [show umat i j t u = 0 from by
      rw [show umat i j t u = get_umat_slater F0 F2 i j t u from rfl,
        get_umat_slater, if_neg (hkey i j t u hm)],
      zero_mul]

theorem Hcol_3 : H (⟨3, by decide⟩ : Fin basis.length) bstar = 0 := by
  rw [H, build_opers4, Matrix.of_apply]
  rw [(by decide : basis.get bstar = [true, false, false, false, true, false])]
  rw [(by decide : basis.get (⟨3, by decide⟩ : Fin basis.length) = [false, false, true, false, false, true])]
  have hkey : ∀ i j t u : Fin 6,
      matel4 [false, false, true, false, false, true] i j t u [true, false, false, false, true, false] ≠ 0 →
      ¬(ms i = ms t ∧ ms j = ms u ∧ ml i + ml j = ml t + ml u) := by decide
  refine Finset.sum_eq_zero ?_
  rintro ⟨i, j, t, u⟩ -
  by_cases hm : matel4 [false, false, true, false, false, true] i j t u [true, false, false, false, true, false] = 0
  · rw [hm, Int.cast_zero, mul_zero]
  · rw [show umat i j t u = 0 from by
      rw [show umat i j t u = get_umat_slater F0 F2 i j t u from rfl,
        get_umat_slater, if_neg (hkey i j t u hm)],
      zero_mul]

theorem Hcol_4 : H (⟨4, by decide⟩ : Fin basis.length) bstar = 0 := by
  rw [H, build_opers4, Matrix.of_apply]
  rw [(by decide : basis.get bstar = [true, false, false, false, true, false])]
  rw [(by decide : basis.get (⟨4, by decide⟩ : Fin basis.length) = [false, false, true, false, true, false])]
  have hkey : ∀ i j t u : Fin 6,
      matel4 [false, false, true, false, true, false] i j t u [true, false, false, false, true, false] ≠ 0 →
      ¬(ms i = ms t ∧ ms j = ms u ∧ ml i + ml j = ml t + ml u) := by decide
  refine Finset.sum_eq_zero ?_
  rintro ⟨i, j, t, u⟩ -
  by_cases hm : matel4 [false, false, true, false, true, false] i j t u [true, false, false, false, true, false] = 0
  · rw [hm, Int.cast_zero, mul_zero]
  · rw [show umat i j t u = 0 from by
      rw [show umat i j t u = get_umat_slater F0 F2 i j t u from rfl,
        get_umat_slater, if_neg (hkey i j t u hm)],
      zero_mul]

theorem Hcol_5 : H (⟨5, by decide⟩ : Fin basis.length) bstar = 0 := by
  rw [H, build_opers4, Matrix.of_apply]
  rw [(by decide : basis.get bstar = [true, false, false, false, true, false])]
  rw [(by decide : basis.get (⟨5, by decide⟩ : Fin basis.length) = [false, false, true, true, false, false])]
  have hkey : ∀ i j t u : Fin 6,
      matel4 [false, false, true, true, false, false] i j t u [true, false, false, false, true, false] ≠ 0 →
      ¬(ms i = ms t ∧ ms j = ms u ∧ ml i + ml j = ml t + ml u) := by decide
  refine Finset.sum_eq_zero ?_
  rintro ⟨i, j, t, u⟩ -
  by_cases hm : matel4 [false, false, true, true, false, false] i j t u [true, false, false, false, true, false] = 0
  · rw [hm, Int.cast_zero, mul_zero]
  · rw [show umat i j t u = 0 from by
      rw [show umat i j t u = get_umat_slater F0 F2 i j t u from rfl,
        get_umat_slater, if_neg (hkey i j t u hm)],
      zero_mul]

theorem Hcol_6 : H (⟨6, by decide⟩ : Fin basis.length) bstar = 0 := by
  rw [H, build_opers4, Matrix.of_apply]
  rw [(by decide : basis.get bstar = [true, false, false, false, true, false])]
  rw [(by decide : basis.get (⟨6, by decide⟩ : Fin basis.length) = [false, true, false, false, false, true])]
  have hkey : ∀ i j t u : Fin 6,
      matel4 [false, true, false, false, false, true] i j t u [true, false, false, false, true, false] ≠ 0 →
      ¬(ms i = ms t ∧ ms j = ms u ∧ ml i + ml j = ml t + ml u) := by decide
  refine Finset.sum_eq_zero ?_
  rintro ⟨i, j, t, u⟩ -
  by_cases hm : matel4 [false, true, false, false, false, true] i j t u [true, false, false, false, true, false] = 0
  · rw [hm, Int.cast_zero, mul_zero]
  · rw [show umat i j t u = 0 from by
      rw [show umat i j t u = get_umat_slater F0 F2 i j t u from rfl,
        get_umat_slater, if_neg (hkey i j t u hm)],
      zero_mul]

theorem Hcol_7 : H (⟨7, by decide⟩ : Fin basis.length) bstar = 0 := by
  rw [H, build_opers4, Matrix.of_apply]
  rw [(by decide : basis.get bstar = [true, false, false, false, true, false])]
  rw [(by decide : basis.get (⟨7, by decide⟩ : Fin basis.length) = [false, true, false, false, true, false])]
  have hkey : ∀ i j t u : Fin 6,
      matel4 [false, true, false, false, true, false] i j t u [true, false, false, false, true, false] ≠ 0 →
      ¬(ms i = ms t ∧ ms j = ms u ∧ ml i + ml j = ml t + ml u) := by decide
  refine Finset.sum_eq_zero ?_
  rintro ⟨i, j, t, u⟩ -
  by_cases hm : matel4 [false, true, false, false, true, false] i j t u [true, false, false, false, true, false] = 0
  · rw [hm, Int.cast_zero, mul_zero]
  · rw [show umat i j t u = 0 from by
      rw [show umat i j t u = get_umat_slater F0 F2 i j t u from rfl,
        get_umat_slater, if_neg (hkey i j t u hm)],
      zero_mul]

theorem Hcol_8 : H (⟨8, by decide⟩ : Fin basis.length) bstar = 0 := by
  rw [H, build_opers4, Matrix.of_apply]
  rw [(by decide : basis.get bstar = [true, false, false, false, true, false])]
  rw [(by decide : basis.get (⟨8, by decide⟩ : Fin basis.length) = [false, true, false, true, false, false])]
  have hkey : ∀ i j t u : Fin 6,
      matel4 [false, true, false, true, false, false] i j t u [true, false, false, false, true, false] ≠ 0 →
      ¬(ms i = ms t ∧ ms j = ms u ∧ ml i + ml j = ml t + ml u) := by decide
  refine Finset.sum_eq_zero ?_
  rintro ⟨i, j, t, u⟩ -
  by_cases hm : matel4 [false, true, false, true, false, false] i j t u [true, false, false, false, true, false] = 0
  · rw [hm, Int.cast_zero, mul_zero]
  · rw [show umat i j t u = 0 from by
      rw [show umat i j t u = get_umat_slater F0 F2 i j t u from rfl,
        get_umat_slater, if_neg (hkey i j t u hm)],
      zero_mul]

theorem Hcol_9 : H (⟨9, by decide⟩ : Fin basis.length) bstar = 0 := by
  rw [H, build_opers4, Matrix.of_apply]
  rw [(by decide : basis.get bstar = [true, false, false, false, true, false])]
  rw [(by decide : basis.get (⟨9, by decide⟩ : Fin basis.length) = [false, true, true, false, false, false])]
  have hkey : ∀ i j t u : Fin 6,
      matel4 [false, true, true, false, false, false] i j t u [true, false, false, false, true, false] ≠ 0 →
      ¬(ms i = ms t ∧ ms j = ms u ∧ ml i + ml j = ml t + ml u) := by decide
  refine Finset.sum_eq_zero ?_
  rintro ⟨i, j, t, u⟩ -
  by_cases hm : matel4 [false, true, true, false, false, false] i j t u [true, false, false, false, true, false] = 0
  · rw [hm, Int.cast_zero, mul_zero]
  · rw [show umat i j t u = 0 from by
      rw [show umat i j t u = get_umat_slater F0 F2 i j t u from rfl,
        get_umat_slater, if_neg (hkey i j t u hm)],
      zero_mul]

theorem Hcol_10 : H (⟨10, by decide⟩ : Fin basis.length) bstar = 0 := by
  rw [H, build_opers4, Matrix.of_apply]
  rw [(by decide : basis.get bstar = [true, false, false, false, true, false])]
  rw [(by decide : basis.get (⟨10, by decide⟩ : Fin basis.length) = [true, false, false, false, false, true])]
  have hkey : ∀ i j t u : Fin 6,
      matel4 [true, false, false, false, false, true] i j t u [true, false, false, false, true, false] ≠ 0 →
      ¬(ms i = ms t ∧ ms j = ms u ∧ ml i + ml j = ml t + ml u) := by decide
  refine Finset.sum_eq_zero ?_
  rintro ⟨i, j, t, u⟩ -
  by_cases hm : matel4 [true, false, false, false, false, true] i j t u [true, false, false, false, true, false] = 0
  · rw [hm, Int.cast_zero, mul_zero]
  · rw [show umat i j t u = 0 from by
      rw [show umat i j t u = get_umat_slater F0 F2 i j t u from rfl,
        get_umat_slater, if_neg (hkey i j t u hm)],
      zero_mul]

theorem Hcol_12 : H (⟨12, by decide⟩ : Fin basis.length) bstar = 0 := by
  rw [H, build_opers4, Matrix.of_apply]
  rw [(by decide : basis.get bstar = [true, false, false, false, true, false])]
  rw [(by decide : basis.get (⟨12, by decide⟩ : Fin basis.length) = [true, false, false, true, false, false])]
  have hkey : ∀ i j t u : Fin 6,
      matel4 [true, false, false, true, false, false] i j t u [true, false, false, false, true, false] ≠ 0 →
      ¬(ms i = ms t ∧ ms j = ms u ∧ ml i + ml j = ml t + ml u) := by decide
  refine Finset.sum_eq_zero ?_
  rintro ⟨i, j, t, u⟩ -
  by_cases hm : matel4 [true, false, false, true, false, false] i j t u [true, false, false, false, true, false] = 0
  · rw [hm, Int.cast_zero, mul_zero]
  · rw [show umat i j t u = 0 from by
      rw [show umat i j t u = get_umat_slater F0 F2 i j t u from rfl,
        get_umat_slater, if_neg (hkey i j t u hm)],
      zero_mul]

theorem Hcol_13 : H (⟨13, by decide⟩ : Fin basis.length) bstar = 0 := by
  rw [H, build_opers4, Matrix.of_apply]
  rw [(by decide : basis.get bstar = [true, false, false, false, true, false])]
  rw [(by decide : basis.get (⟨13, by decide⟩ : Fin basis.length) = [true, false, true, false, false, false])]
  have hkey : ∀ i j t u : Fin 6,
      matel4 [true, false, true, false, false, false] i j t u [true, false, false, false, true, false] ≠ 0 →
      ¬(ms i = ms t ∧ ms j = ms u ∧ ml i + ml j = ml t + ml u) := by decide
  refine Finset.sum_eq_zero ?_
  rintro ⟨i, j, t, u⟩ -
  by_cases hm : matel4 [true, false, true, false, false, false] i j t u [true, false, false, false, true, false] = 0
  · rw [hm, Int.cast_zero, mul_zero]
  · rw [show umat i j t u = 0 from by
      rw [show umat i j t u = get_umat_slater F0 F2 i j t u from rfl,
        get_umat_slater, if_neg (hkey i j t u hm)],
      zero_mul]

theorem Hcol_14 : H (⟨14, by decide⟩ : Fin basis.length) bstar = 0 := by
  rw [H, build_opers4, Matrix.of_apply]
  rw [(by decide : basis.get bstar = [true, false, false, false, true, false])]
  rw [(by decide : basis.get (⟨14, by decide⟩ : Fin basis.length) = [true, true, false, false, false, false])]
  have hkey : ∀ i j t u : Fin 6,
      matel4 [true, true, false, false, false, false] i j t u [true, false, false, false, true, false] ≠ 0 →
      ¬(ms i = ms t ∧ ms j = ms u ∧ ml i + ml j = ml t + ml u) := by decide
  refine Finset.sum_eq_zero ?_
  rintro ⟨i, j, t, u⟩ -
  by_cases hm : matel4 [true, true, false, false, false, false] i j t u [true, false, false, false, true, false] = 0
  · rw [hm, Int.cast_zero, mul_zero]
  · rw [show umat i j t u = 0 from by
      rw [show umat i j t u = get_umat_slater F0 F2 i j t u from rfl,
        get_umat_slater, if_neg (hkey i j t u hm)],
      zero_mul]

/-- The column of H at the distinguished state vanishes off the
diagonal. -/
theorem Hcol_off (r : Fin basis.length) (h : r ≠ bstar) : H r bstar = 0 := by
  fin_cases r
  · exact Hcol_0
  · exact Hcol_1
  · exact Hcol_2
  · exact Hcol_3
  · exact Hcol_4
  · exact Hcol_5
  · exact Hcol_6
  · exact Hcol_7
  · exact Hcol_8
  · exact Hcol_9
  · exact Hcol_10
  · exact absurd rfl h
  · exact Hcol_12
  · exact Hcol_13
  · exact Hcol_14

theorem opLcol_0_0 : opL 0 (⟨0, by decide⟩ : Fin basis.length) bstar = (0 : KF) := by
  rw [opL, build_opers2, Matrix.of_apply]
  rw [(by decide : basis.get (⟨0, by decide⟩ : Fin basis.length) = [false, false, false, false, true, true])]
  rw [(by decide : basis.get bstar = [true, false, false, false, true, false])]
  rw [← Finset.sum_subset (Finset.subset_univ ({((5 : Fin 6), (0 : Fin 6))} :
      Finset (Fin 6 × Fin 6))) ?hz]
  case hz =>
    intro p _ hp
    have hm : matel2 [false, false, false, false, true, true] p.1 p.2 [true, false, false, false, true, false] = 0 := by
      revert hp
      revert p
      decide
    rw [hm, Int.cast_zero, mul_zero]
  rw [Finset.sum_singleton]
  rw [(by decide : matel2 [false, false, false, false, true, true] 5 0 [true, false, false, false, true, false] = -1)]
  norm_num [tot_mom, orb_mom, spin_mom, get_orb_momentum, get_spin_momentum,
    Matrix.of_apply, Matrix.add_apply, l1mat, s1mat, ms,
    finval6_0, finval6_1, finval6_2, finval6_3, finval6_4, finval6_5]
  all_goals try simp [QuadExt.ext_iff, ratKF_apply, sqrt2K_apply, iK]
  all_goals try norm_num

theorem opLcol_0_1 : opL 0 (⟨1, by decide⟩ : Fin basis.length) bstar = (0 : KF) := by
  rw [opL, build_opers2, Matrix.of_apply]
  rw [(by decide : basis.get (⟨1, by decide⟩ : Fin basis.length) = [false, false, false, true, false, true])]
  rw [(by decide : basis.get bstar = [true, false, false, false, true, false])]
  rw [← Finset.sum_subset (Finset.subset_univ (∅ :
      Finset (Fin 6 × Fin 6))) ?hz]
  case hz =>
    intro p _ hp
    have hm : matel2 [false, false, false, true, false, true] p.1 p.2 [true, false, false, false, true, false] = 0 := by
      revert hp
      revert p
      decide
    rw [hm, Int.cast_zero, mul_zero]
  rw [Finset.sum_empty]

theorem opLcol_0_2 : opL 0 (⟨2, by decide⟩ : Fin basis.length) bstar = (0 : KF) := by
  rw [opL, build_opers2, Matrix.of_apply]
  rw [(by decide : basis.get (⟨2, by decide⟩ : Fin basis.length) = [false, false, false, true, true, false])]
  rw [(by decide : basis.get bstar = [true, false, false, false, true, false])]
  rw [← Finset.sum_subset (Finset.subset_univ ({((3 : Fin 6), (0 : Fin 6))} :
      Finset (Fin 6 × Fin 6))) ?hz]
  case hz =>
    intro p _ hp
    have hm : matel2 [false, false, false, true, true, false] p.1 p.2 [true, false, false, false, true, false] = 0 := by
      revert hp
      revert p
      decide
    rw [hm, Int.cast_zero, mul_zero]
  rw [Finset.sum_singleton]
  rw [(by decide : matel2 [false, false, false, true, true, false] 3 0 [true, false, false, false, true, false] = 1)]
  norm_num [tot_mom, orb_mom, spin_mom, get_orb_momentum, get_spin_momentum,
    Matrix.of_apply, Matrix.add_apply, l1mat, s1mat, ms,
    finval6_0, finval6_1, finval6_2, finval6_3, finval6_4, finval6_5]
  all_goals try simp [QuadExt.ext_iff, ratKF_apply, sqrt2K_apply, iK]
  all_goals try norm_num

theorem opLcol_0_3 : opL 0 (⟨3, by decide⟩ : Fin basis.length) bstar = (0 : KF) := by
  rw [opL, build_opers2, Matrix.of_apply]
  rw [(by decide : basis.get (⟨3, by decide⟩ : Fin basis.length) = [false, false, true, false, false, true])]
  rw [(by decide : basis.get bstar = [true, false, false, false, true, false])]
  rw [← Finset.sum_subset (Finset.subset_univ (∅ :
      Finset (Fin 6 × Fin 6))) ?hz]
  case hz =>
    intro p _ hp
    have hm : matel2 [false, false, true, false, false, true] p.1 p.2 [true, false, false, false, true, false] = 0 := by
      revert hp
      revert p
      decide
    rw [hm, Int.cast_zero, mul_zero]
  rw [Finset.sum_empty]

theorem opLcol_0_4 : opL 0 (⟨4, by decide⟩ : Fin basis.length) bstar = (ratKF (1 / 2 : ℚ) * sqrt2K) := by
  rw [opL, build_opers2, Matrix.of_apply]
  rw [(by decide : basis.get (⟨4, by decide⟩ : Fin basis.length) = [false, false, true, false, true, false])]
  rw [(by decide : basis.get bstar = [true, false, false, false, true, false])]
  rw [← Finset.sum_subset (Finset.subset_univ ({((2 : Fin 6), (0 : Fin 6))} :
      Finset (Fin 6 × Fin 6))) ?hz]
  case hz =>
    intro p _ hp
    have hm : matel2 [false, false, true, false, true, false] p.1 p.2 [true, false, false, false, true, false] = 0 := by
      revert hp
      revert p
      decide
    rw [hm, Int.cast_zero, mul_zero]
  rw [Finset.sum_singleton]
  rw [(by decide : matel2 [false, false, true, false, true, false] 2 0 [true, false, false, false, true, false] = 1)]
  norm_num [tot_mom, orb_mom, spin_mom, get_orb_momentum, get_spin_momentum,
    Matrix.of_apply, Matrix.add_apply, l1mat, s1mat, ms,
    finval6_0, finval6_1, finval6_2, finval6_3, finval6_4, finval6_5]
  all_goals try simp [QuadExt.ext_iff, ratKF_apply, sqrt2K_apply, iK]
  all_goals try norm_num

theorem opLcol_0_5 : opL 0 (⟨5, by decide⟩ : Fin basis.length) bstar = (0 : KF) := by
  rw [opL, build_opers2, Matrix.of_apply]
  rw [(by decide : basis.get (⟨5, by decide⟩ : Fin basis.length) = [false, false, true, true, false, false])]
  rw [(by decide : basis.get bstar = [true, false, false, false, true, false])]
  rw [← Finset.sum_subset (Finset.subset_univ (∅ :
      Finset (Fin 6 × Fin 6))) ?hz]
  case hz =>
    intro p _ hp
    have hm : matel2 [false, false, true, true, false, false] p.1 p.2 [true, false, false, false, true, false] = 0 := by
      revert hp
      revert p
      decide
    rw [hm, Int.cast_zero, mul_zero]
  rw [Finset.sum_empty]

theorem opLcol_0_6 : opL 0 (⟨6, by decide⟩ : Fin basis.length) bstar = (0 : KF) := by
  rw [opL, build_opers2, Matrix.of_apply]
  rw [(by decide : basis.get (⟨6, by decide⟩ : Fin basis.length) = [false, true, false, false, false, true])]
  rw [(by decide : basis.get bstar = [true, false, false, false, true, false])]
  rw [← Finset.sum_subset (Finset.subset_univ (∅ :
      Finset (Fin 6 × Fin 6))) ?hz]
  case hz =>
    intro p _ hp
    have hm : matel2 [false, true, false, false, false, true] p.1 p.2 [true, false, false, false, true, false] = 0 := by
      revert hp
      revert p
      decide
    rw [hm, Int.cast_zero, mul_zero]
  rw [Finset.sum_empty]

theorem opLcol_0_7 : opL 0 (⟨7, by decide⟩ : Fin basis.length) bstar = (0 : KF) := by
  rw [opL, build_opers2, Matrix.of_apply]
  rw [(by decide : basis.get (⟨7, by decide⟩ : Fin basis.length) = [false, true, false, false, true, false])]
  rw [(by decide : basis.get bstar = [true, false, false, false, true, false])]
  rw [← Finset.sum_subset (Finset.subset_univ ({((1 : Fin 6), (0 : Fin 6))} :
      Finset (Fin 6 × Fin 6))) ?hz]
  case hz =>
    intro p _ hp
    have hm : matel2 [false, true, false, false, true, false] p.1 p.2 [true, false, false, false, true, false] = 0 := by
      revert hp
      revert p
      decide
    rw [hm, Int.cast_zero, mul_zero]
  rw [Finset.sum_singleton]
  rw [(by decide : matel2 [false, true, false, false, true, false] 1 0 [true, false, false, false, true, false] = 1)]
  norm_num [tot_mom, orb_mom, spin_mom, get_orb_momentum, get_spin_momentum,
    Matrix.of_apply, Matrix.add_apply, l1mat, s1mat, ms,
    finval6_0, finval6_1, finval6_2, finval6_3, finval6_4, finval6_5]
  all_goals try simp [QuadExt.ext_iff, ratKF_apply, sqrt2K_apply, iK]
  all_goals try norm_num

theorem opLcol_0_8 : opL 0 (⟨8, by decide⟩ : Fin basis.length) bstar = (0 : KF) := by
  rw [opL, build_opers2, Matrix.of_apply]
  rw [(by decide : basis.get (⟨8, by decide⟩ : Fin basis.length) = [false, true, false, true, false, false])]
  rw [(by decide : basis.get bstar = [true, false, false, false, true, false])]
  rw [← Finset.sum_subset (Finset.subset_univ (∅ :
      Finset (Fin 6 × Fin 6))) ?hz]
  case hz =>
    intro p _ hp
    have hm : matel2 [false, true, false, true, false, false] p.1 p.2 [true, false, false, false, true, false] = 0 := by
      revert hp
      revert p
      decide
    rw [hm, Int.cast_zero, mul_zero]
  rw [Finset.sum_empty]

theorem opLcol_0_9 : opL 0 (⟨9, by decide⟩ : Fin basis.length) bstar = (0 : KF) := by
  rw [opL, build_opers2, Matrix.of_apply]
  rw [(by decide : basis.get (⟨9, by decide⟩ : Fin basis.length) = [false, true, true, false, false, false])]
  rw [(by decide : basis.get bstar = [true, false, false, false, true, false])]
  rw [← Finset.sum_subset (Finset.subset_univ (∅ :
      Finset (Fin 6 × Fin 6))) ?hz]
  case hz =>
    intro p _ hp
    have hm : matel2 [false, true, true, false, false, false] p.1 p.2 [true, false, false, false, true, false] = 0 := by
      revert hp
      revert p
      decide
    rw [hm, Int.cast_zero, mul_zero]
  rw [Finset.sum_empty]

theorem opLcol_0_10 : opL 0 (⟨10, by decide⟩ : Fin basis.length) bstar = (0 : KF) := by
  rw [opL, build_opers2, Matrix.of_apply]
  rw [(by decide : basis.get (⟨10, by decide⟩ : Fin basis.length) = [true, false, false, false, false, true])]
  rw [(by decide : basis.get bstar = [true, false, false, false, true, false])]
  rw [← Finset.sum_subset (Finset.subset_univ ({((5 : Fin 6), (4 : Fin 6))} :
      Finset (Fin 6 × Fin 6))) ?hz]
  case hz =>
    intro p _ hp
    have hm : matel2 [true, false, false, false, false, true] p.1 p.2 [true, false, false, false, true, false] = 0 := by
      revert hp
      revert p
      decide
    rw [hm, Int.cast_zero, mul_zero]
  rw [Finset.sum_singleton]
  rw [(by decide : matel2 [true, false, false, false, false, true] 5 4 [true, false, false, false, true, false] = 1)]
  norm_num [tot_mom, orb_mom, spin_mom, get_orb_momentum, get_spin_momentum,
    Matrix.of_apply, Matrix.add_apply, l1mat, s1mat, ms,
    finval6_0, finval6_1, finval6_2, finval6_3, finval6_4, finval6_5]
  all_goals try simp [QuadExt.ext_iff, ratKF_apply, sqrt2K_apply, iK]
  all_goals try norm_num

theorem opLcol_0_11 : opL 0 bstar bstar = (0 : KF) := by
  rw [opL, build_opers2, Matrix.of_apply]
  rw [(by decide : basis.get bstar = [true, false, false, false, true, false])]
  rw [← Finset.sum_subset (Finset.subset_univ ({((0 : Fin 6), (0 : Fin 6)), ((4 : Fin 6), (4 : Fin 6))} :
      Finset (Fin 6 × Fin 6))) ?hz]
  case hz =>
    intro p _ hp
    have hm : matel2 [true, false, false, false, true, false] p.1 p.2 [true, false, false, false, true, false] = 0 := by
      revert hp
      revert p
      decide
    rw [hm, Int.cast_zero, mul_zero]
  rw [Finset.sum_insert (by decide), Finset.sum_singleton]
  rw [(by decide : matel2 [true, false, false, false, true, false] 0 0 [true, false, false, false, true, false] = 1), (by decide : matel2 [true, false, false, false, true, false] 4 4 [true, false, false, false, true, false] = 1)]
  norm_num [tot_mom, orb_mom, spin_mom, get_orb_momentum, get_spin_momentum,
    Matrix.of_apply, Matrix.add_apply, l1mat, s1mat, ms,
    finval6_0, finval6_1, finval6_2, finval6_3, finval6_4, finval6_5]
  all_goals try simp [QuadExt.ext_iff, ratKF_apply, sqrt2K_apply, iK]
  all_goals try norm_num

theorem opLcol_0_12 : opL 0 (⟨12, by decide⟩ : Fin basis.length) bstar = (0 : KF) := by
  rw [opL, build_opers2, Matrix.of_apply]
  rw [(by decide : basis.get (⟨12, by decide⟩ : Fin basis.length) = [true, false, false, true, false, false])]
  rw [(by decide : basis.get bstar = [true, false, false, false, true, false])]
  rw [← Finset.sum_subset (Finset.subset_univ ({((3 : Fin 6), (4 : Fin 6))} :
      Finset (Fin 6 × Fin 6))) ?hz]
  case hz =>
    intro p _ hp
    have hm : matel2 [true, false, false, true, false, false] p.1 p.2 [true, false, false, false, true, false] = 0 := by
      revert hp
      revert p
      decide
    rw [hm, Int.cast_zero, mul_zero]
  rw [Finset.sum_singleton]
  rw [(by decide : matel2 [true, false, false, true, false, false] 3 4 [true, false, false, false, true, false] = 1)]
  norm_num [tot_mom, orb_mom, spin_mom, get_orb_momentum, get_spin_momentum,
    Matrix.of_apply, Matrix.add_apply, l1mat, s1mat, ms,
    finval6_0, finval6_1, finval6_2, finval6_3, finval6_4, finval6_5]
  all_goals try simp [QuadExt.ext_iff, ratKF_apply, sqrt2K_apply, iK]
  all_goals try norm_num

theorem opLcol_0_13 : opL 0 (⟨13, by decide⟩ : Fin basis.length) bstar = (ratKF (1 / 2 : ℚ) * sqrt2K) := by
  rw [opL, build_opers2, Matrix.of_apply]
  rw [(by decide : basis.get (⟨13, by decide⟩ : Fin basis.length) = [true, false, true, false, false, false])]
  rw [(by decide : basis.get bstar = [true, false, false, false, true, false])]
  rw [← Finset.sum_subset (Finset.subset_univ ({((2 : Fin 6), (4 : Fin 6))} :
      Finset (Fin 6 × Fin 6))) ?hz]
  case hz =>
    intro p _ hp
    have hm : matel2 [true, false, true, false, false, false] p.1 p.2 [true, false, false, false, true, false] = 0 := by
      revert hp
      revert p
      decide
    rw [hm, Int.cast_zero, mul_zero]
  rw [Finset.sum_singleton]
  rw [(by decide : matel2 [true, false, true, false, false, false] 2 4 [true, false, false, false, true, false] = 1)]
  norm_num [tot_mom, orb_mom, spin_mom, get_orb_momentum, get_spin_momentum,
    Matrix.of_apply, Matrix.add_apply, l1mat, s1mat, ms,
    finval6_0, finval6_1, finval6_2, finval6_3, finval6_4, finval6_5]
  all_goals try simp [QuadExt.ext_iff, ratKF_apply, sqrt2K_apply, iK]
  all_goals try norm_num

theorem opLcol_0_14 : opL 0 (⟨14, by decide⟩ : Fin basis.length) bstar = (0 : KF) := by
  rw [opL, build_opers2, Matrix.of_apply]
  rw [(by decide : basis.get (⟨14, by decide⟩ : Fin basis.length) = [true, true, false, false, false, false])]
  rw [(by decide : basis.get bstar = [true, false, false, false, true, false])]
  rw [← Finset.sum_subset (Finset.subset_univ ({((1 : Fin 6), (4 : Fin 6))} :
      Finset (Fin 6 × Fin 6))) ?hz]
  case hz =>
    intro p _ hp
    have hm : matel2 [true, true, false, false, false, false] p.1 p.2 [true, false, false, false, true, false] = 0 := by
      revert hp
      revert p
      decide
    rw [hm, Int.cast_zero, mul_zero]
  rw [Finset.sum_singleton]
  rw [(by decide : matel2 [true, true, false, false, false, false] 1 4 [true, false, false, false, true, false] = 1)]
  norm_num [tot_mom, orb_mom, spin_mom, get_orb_momentum, get_spin_momentum,
    Matrix.of_apply, Matrix.add_apply, l1mat, s1mat, ms,
    finval6_0, finval6_1, finval6_2, finval6_3, finval6_4, finval6_5]
  all_goals try simp [QuadExt.ext_iff, ratKF_apply, sqrt2K_apply, iK]
  all_goals try norm_num

theorem opLrow_0_4 : opL 0 bstar (⟨4, by decide⟩ : Fin basis.length) = (ratKF (1 / 2 : ℚ) * sqrt2K) := by
  rw [opL, build_opers2, Matrix.of_apply]
  rw [(by decide : basis.get bstar = [true, false, false, false, true, false])]
  rw [(by decide : basis.get (⟨4, by decide⟩ : Fin basis.length) = [false, false, true, false, true, false])]
  rw [← Finset.sum_subset (Finset.subset_univ ({((0 : Fin 6), (2 : Fin 6))} :
      Finset (Fin 6 × Fin 6))) ?hz]
  case hz =>
    intro p _ hp
    have hm : matel2 [true, false, false, false, true, false] p.1 p.2 [false, false, true, false, true, false] = 0 := by
      revert hp
      revert p
      decide
    rw [hm, Int.cast_zero, mul_zero]
  rw [Finset.sum_singleton]
  rw [(by decide : matel2 [true, false, false, false, true, false] 0 2 [false, false, true, false, true, false] = 1)]
  norm_num [tot_mom, orb_mom, spin_mom, get_orb_momentum, get_spin_momentum,
    Matrix.of_apply, Matrix.add_apply, l1mat, s1mat, ms,
    finval6_0, finval6_1, finval6_2, finval6_3, finval6_4, finval6_5]
  all_goals try simp [QuadExt.ext_iff, ratKF_apply, sqrt2K_apply, iK]
  all_goals try norm_num

theorem opLrow_0_13 : opL 0 bstar (⟨13, by decide⟩ : Fin basis.length) = (ratKF (1 / 2 : ℚ) * sqrt2K) := by
  rw [opL, build_opers2, Matrix.of_apply]
  rw [(by decide : basis.get bstar = [true, false, false, false, true, false])]
  rw [(by decide : basis.get (⟨13, by decide⟩ : Fin basis.length) = [true, false, true, false, false, false])]
  rw [← Finset.sum_subset (Finset.subset_univ ({((4 : Fin 6), (2 : Fin 6))} :
      Finset (Fin 6 × Fin 6))) ?hz]
  case hz =>
    intro p _ hp
    have hm : matel2 [true, false, false, false, true, false] p.1 p.2 [true, false, true, false, false, false] = 0 := by
      revert hp
      revert p
      decide
    rw [hm, Int.cast_zero, mul_zero]
  rw [Finset.sum_singleton]
  rw [(by decide : matel2 [true, false, false, false, true, false] 4 2 [true, false, true, false, false, false] = 1)]
  norm_num [tot_mom, orb_mom, spin_mom, get_orb_momentum, get_spin_momentum,
    Matrix.of_apply, Matrix.add_apply, l1mat, s1mat, ms,
    finval6_0, finval6_1, finval6_2, finval6_3, finval6_4, finval6_5]
  all_goals try simp [QuadExt.ext_iff, ratKF_apply, sqrt2K_apply, iK]
  all_goals try norm_num

theorem opLcol_1_0 : opL 1 (⟨0, by decide⟩ : Fin basis.length) bstar = (0 : KF) := by
  rw [opL, build_opers2, Matrix.of_apply]
  rw [(by decide : basis.get (⟨0, by decide⟩ : Fin basis.length) = [false, false, false, false, true, true])]
  rw [(by decide : basis.get bstar = [true, false, false, false, true, false])]
  rw [← Finset.sum_subset (Finset.subset_univ ({((5 : Fin 6), (0 : Fin 6))} :
      Finset (Fin 6 × Fin 6))) ?hz]
  case hz =>
    intro p _ hp
    have hm : matel2 [false, false, false, false, true, true] p.1 p.2 [true, false, false, false, true, false] = 0 := by
      revert hp
      revert p
      decide
    rw [hm, Int.cast_zero, mul_zero]
  rw [Finset.sum_singleton]
  rw [(by decide : matel2 [false, false, false, false, true, true] 5 0 [true, false, false, false, true, false] = -1)]
  norm_num [tot_mom, orb_mom, spin_mom, get_orb_momentum, get_spin_momentum,
    Matrix.of_apply, Matrix.add_apply, l1mat, s1mat, ms,
    finval6_0, finval6_1, finval6_2, finval6_3, finval6_4, finval6_5]
  all_goals try simp [QuadExt.ext_iff, ratKF_apply, sqrt2K_apply, iK]
  all_goals try norm_num

theorem opLcol_1_1 : opL 1 (⟨1, by decide⟩ : Fin basis.length) bstar = (0 : KF) := by
  rw [opL, build_opers2, Matrix.of_apply]
  rw [(by decide : basis.get (⟨1, by decide⟩ : Fin basis.length) = [false, false, false, true, false, true])]
  rw [(by decide : basis.get bstar = [true, false, false, false, true, false])]
  rw [← Finset.sum_subset (Finset.subset_univ (∅ :
      Finset (Fin 6 × Fin 6))) ?hz]
  case hz =>
    intro p _ hp
    have hm : matel2 [false, false, false, true, false, true] p.1 p.2 [true, false, false, false, true, false] = 0 := by
      revert hp
      revert p
      decide
    rw [hm, Int.cast_zero, mul_zero]
  rw [Finset.sum_empty]

theorem opLcol_1_2 : opL 1 (⟨2, by decide⟩ : Fin basis.length) bstar = (0 : KF) := by
  rw [opL, build_opers2, Matrix.of_apply]
  rw [(by decide : basis.get (⟨2, by decide⟩ : Fin basis.length) = [false, false, false, true, true, false])]
  rw [(by decide : basis.get bstar = [true, false, false, false, true, false])]
  rw [← Finset.sum_subset (Finset.subset_univ ({((3 : Fin 6), (0 : Fin 6))} :
      Finset (Fin 6 × Fin 6))) ?hz]
  case hz =>
    intro p _ hp
    have hm : matel2 [false, false, false, true, true, false] p.1 p.2 [true, false, false, false, true, false] = 0 := by
      revert hp
      revert p
      decide
    rw [hm, Int.cast_zero, mul_zero]
  rw [Finset.sum_singleton]
  rw [(by decide : matel2 [false, false, false, true, true, false] 3 0 [true, false, false, false, true, false] = 1)]
  norm_num [tot_mom, orb_mom, spin_mom, get_orb_momentum, get_spin_momentum,
    Matrix.of_apply, Matrix.add_apply, l1mat, s1mat, ms,
    finval6_0, finval6_1, finval6_2, finval6_3, finval6_4, finval6_5]
  all_goals try simp [QuadExt.ext_iff, ratKF_apply, sqrt2K_apply, iK]
  all_goals try norm_num

theorem opLcol_1_3 : opL 1 (⟨3, by decide⟩ : Fin basis.length) bstar = (0 : KF) := by
  rw [opL, build_opers2, Matrix.of_apply]
  rw [(by decide : basis.get (⟨3, by decide⟩ : Fin basis.length) = [false, false, true, false, false, true])]
  rw [(by decide : basis.get bstar = [true, false, false, false, true, false])]
  rw [← Finset.sum_subset (Finset.subset_univ (∅ :
      Finset (Fin 6 × Fin 6))) ?hz]
  case hz =>
    intro p _ hp
    have hm : matel2 [false, false, true, false, false, true] p.1 p.2 [true, false, false, false, true, false] = 0 := by
      revert hp
      revert p
      decide
    rw [hm, Int.cast_zero, mul_zero]
  rw [Finset.sum_empty]

theorem opLcol_1_4 : opL 1 (⟨4, by decide⟩ : Fin basis.length) bstar = (ratKF (-1 / 2 : ℚ) * sqrt2K * iK) := by
  rw [opL, build_opers2, Matrix.of_apply]
  rw [(by decide : basis.get (⟨4, by decide⟩ : Fin basis.length) = [false, false, true, false, true, false])]
  rw [(by decide : basis.get bstar = [true, false, false, false, true, false])]
  rw [← Finset.sum_subset (Finset.subset_univ ({((2 : Fin 6), (0 : Fin 6))} :
      Finset (Fin 6 × Fin 6))) ?hz]
  case hz =>
    intro p _ hp
    have hm : matel2 [false, false, true, false, true, false] p.1 p.2 [true, false, false, false, true, false] = 0 := by
      revert hp
      revert p
      decide
    rw [hm, Int.cast_zero, mul_zero]
  rw [Finset.sum_singleton]
  rw [(by decide : matel2 [false, false, true, false, true, false] 2 0 [true, false, false, false, true, false] = 1)]
  norm_num [tot_mom, orb_mom, spin_mom, get_orb_momentum, get_spin_momentum,
    Matrix.of_apply, Matrix.add_apply, l1mat, s1mat, ms,
    finval6_0, finval6_1, finval6_2, finval6_3, finval6_4, finval6_5]
  all_goals try simp [QuadExt.ext_iff, ratKF_apply, sqrt2K_apply, iK]
  all_goals try norm_num

theorem opLcol_1_5 : opL 1 (⟨5, by decide⟩ : Fin basis.length) bstar = (0 : KF) := by
  rw [opL, build_opers2, Matrix.of_apply]
  rw [(by decide : basis.get (⟨5, by decide⟩ : Fin basis.length) = [false, false, true, true, false, false])]
  rw [(by decide : basis.get bstar = [true, false, false, false, true, false])]
  rw [← Finset.sum_subset (Finset.subset_univ (∅ :
      Finset (Fin 6 × Fin 6))) ?hz]
  case hz =>
    intro p _ hp
    have hm : matel2 [false, false, true, true, false, false] p.1 p.2 [true, false, false, false, true, false] = 0 := by
      revert hp
      revert p
      decide
    rw [hm, Int.cast_zero, mul_zero]
  rw [Finset.sum_empty]

theorem opLcol_1_6 : opL 1 (⟨6, by decide⟩ : Fin basis.length) bstar = (0 : KF) := by
  rw [opL, build_opers2, Matrix.of_apply]
  rw [(by decide : basis.get (⟨6, by decide⟩ : Fin basis.length) = [false, true, false, false, false, true])]
  rw [(by decide : basis.get bstar = [true, false, false, false, true, false])]
  rw [← Finset.sum_subset (Finset.subset_univ (∅ :
      Finset (Fin 6 × Fin 6))) ?hz]
  case hz =>
    intro p _ hp
    have hm : matel2 [false, true, false, false, false, true] p.1 p.2 [true, false, false, false, true, false] = 0 := by
      revert hp
      revert p
      decide
    rw [hm, Int.cast_zero, mul_zero]
  rw [Finset.sum_empty]

theorem opLcol_1_7 : opL 1 (⟨7, by decide⟩ : Fin basis.length) bstar = (0 : KF) := by
  rw [opL, build_opers2, Matrix.of_apply]
  rw [(by decide : basis.get (⟨7, by decide⟩ : Fin basis.length) = [false, true, false, false, true, false])]
  rw [(by decide : basis.get bstar = [true, false, false, false, true, false])]
  rw [← Finset.sum_subset (Finset.subset_univ ({((1 : Fin 6), (0 : Fin 6))} :
      Finset (Fin 6 × Fin 6))) ?hz]
  case hz =>
    intro p _ hp
    have hm : matel2 [false, true, false, false, true, false] p.1 p.2 [true, false, false, false, true, false] = 0 := by
      revert hp
      revert p
      decide
    rw [hm, Int.cast_zero, mul_zero]
  rw [Finset.sum_singleton]
  rw [(by decide : matel2 [false, true, false, false, true, false] 1 0 [true, false, false, false, true, false] = 1)]
  norm_num [tot_mom, orb_mom, spin_mom, get_orb_momentum, get_spin_momentum,
    Matrix.of_apply, Matrix.add_apply, l1mat, s1mat, ms,
    finval6_0, finval6_1, finval6_2, finval6_3, finval6_4, finval6_5]
  all_goals try simp [QuadExt.ext_iff, ratKF_apply, sqrt2K_apply, iK]
  all_goals try norm_num

theorem opLcol_1_8 : opL 1 (⟨8, by decide⟩ : Fin basis.length) bstar = (0 : KF) := by
  rw [opL, build_opers2, Matrix.of_apply]
  rw [(by decide : basis.get (⟨8, by decide⟩ : Fin basis.length) = [false, true, false, true, false, false])]
  rw [(by decide : basis.get bstar = [true, false, false, false, true, false])]
  rw [← Finset.sum_subset (Finset.subset_univ (∅ :
      Finset (Fin 6 × Fin 6))) ?hz]
  case hz =>
    intro p _ hp
    have hm : matel2 [false, true, false, true, false, false] p.1 p.2 [true, false, false, false, true, false] = 0 := by
      revert hp
      revert p
      decide
    rw [hm, Int.cast_zero, mul_zero]
  rw [Finset.sum_empty]

theorem opLcol_1_9 : opL 1 (⟨9, by decide⟩ : Fin basis.length) bstar = (0 : KF) := by
  rw [opL, build_opers2, Matrix.of_apply]
  rw [(by decide : basis.get (⟨9, by decide⟩ : Fin basis.length) = [false, true, true, false, false, false])]
  rw [(by decide : basis.get bstar = [true, false, false, false, true, false])]
  rw [← Finset.sum_subset (Finset.subset_univ (∅ :
      Finset (Fin 6 × Fin 6))) ?hz]
  case hz =>
    intro p _ hp
    have hm : matel2 [false, true, true, false, false, false] p.1 p.2 [true, false, false, false, true, false] = 0 := by
      revert hp
      revert p
      decide
    rw [hm, Int.cast_zero, mul_zero]
  rw [Finset.sum_empty]

theorem opLcol_1_10 : opL 1 (⟨10, by decide⟩ : Fin basis.length) bstar = (0 : KF) := by
  rw [opL, build_opers2, Matrix.of_apply]
  rw [(by decide : basis.get (⟨10, by decide⟩ : Fin basis.length) = [true, false, false, false, false, true])]
  rw [(by decide : basis.get bstar = [true, false, false, false, true, false])]
  rw [← Finset.sum_subset (Finset.subset_univ ({((5 : Fin 6), (4 : Fin 6))} :
      Finset (Fin 6 × Fin 6))) ?hz]
  case hz =>
    intro p _ hp
    have hm : matel2 [true, false, false, false, false, true] p.1 p.2 [true, false, false, false, true, false] = 0 := by
      revert hp
      revert p
      decide
    rw [hm, Int.cast_zero, mul_zero]
  rw [Finset.sum_singleton]
  rw [(by decide : matel2 [true, false, false, false, false, true] 5 4 [true, false, false, false, true, false] = 1)]
  norm_num [tot_mom, orb_mom, spin_mom, get_orb_momentum, get_spin_momentum,
    Matrix.of_apply, Matrix.add_apply, l1mat, s1mat, ms,
    finval6_0, finval6_1, finval6_2, finval6_3, finval6_4, finval6_5]
  all_goals try simp [QuadExt.ext_iff, ratKF_apply, sqrt2K_apply, iK]
  all_goals try norm_num

theorem opLcol_1_11 : opL 1 bstar bstar = (0 : KF) := by
  rw [opL, build_opers2, Matrix.of_apply]
  rw [(by decide : basis.get bstar = [true, false, false, false, true, false])]
  rw [← Finset.sum_subset (Finset.subset_univ ({((0 : Fin 6), (0 : Fin 6)), ((4 : Fin 6), (4 : Fin 6))} :
      Finset (Fin 6 × Fin 6))) ?hz]
  case hz =>
    intro p _ hp
    have hm : matel2 [true, false, false, false, true, false] p.1 p.2 [true, false, false, false, true, false] = 0 := by
      revert hp
      revert p
      decide
    rw [hm, Int.cast_zero, mul_zero]
  rw [Finset.sum_insert (by decide), Finset.sum_singleton]
  rw [(by decide : matel2 [true, false, false, false, true, false] 0 0 [true, false, false, false, true, false] = 1), (by decide : matel2 [true, false, false, false, true, false] 4 4 [true, false, false, false, true, false] = 1)]
  norm_num [tot_mom, orb_mom, spin_mom, get_orb_momentum, get_spin_momentum,
    Matrix.of_apply, Matrix.add_apply, l1mat, s1mat, ms,
    finval6_0, finval6_1, finval6_2, finval6_3, finval6_4, finval6_5]
  all_goals try simp [QuadExt.ext_iff, ratKF_apply, sqrt2K_apply, iK]
  all_goals try norm_num

theorem opLcol_1_12 : opL 1 (⟨12, by decide⟩ : Fin basis.length) bstar = (0 : KF) := by
  rw [opL, build_opers2, Matrix.of_apply]
  rw [(by decide : basis.get (⟨12, by decide⟩ : Fin basis.length) = [true, false, false, true, false, false])]
  rw [(by decide : basis.get bstar = [true, false, false, false, true, false])]
  rw [← Finset.sum_subset (Finset.subset_univ ({((3 : Fin 6), (4 : Fin 6))} :
      Finset (Fin 6 × Fin 6))) ?hz]
  case hz =>
    intro p _ hp
    have hm : matel2 [true, false, false, true, false, false] p.1 p.2 [true, false, false, false, true, false] = 0 := by
      revert hp
      revert p
      decide
    rw [hm, Int.cast_zero, mul_zero]
  rw [Finset.sum_singleton]
  rw [(by decide : matel2 [true, false, false, true, false, false] 3 4 [true, false, false, false, true, false] = 1)]
  norm_num [tot_mom, orb_mom, spin_mom, get_orb_momentum, get_spin_momentum,
    Matrix.of_apply, Matrix.add_apply, l1mat, s1mat, ms,
    finval6_0, finval6_1, finval6_2, finval6_3, finval6_4, finval6_5]
  all_goals try simp [QuadExt.ext_iff, ratKF_apply, sqrt2K_apply, iK]
  all_goals try norm_num

theorem opLcol_1_13 : opL 1 (⟨13, by decide⟩ : Fin basis.length) bstar = (ratKF (1 / 2 : ℚ) * sqrt2K * iK) := by
  rw [opL, build_opers2, Matrix.of_apply]
  rw [(by decide : basis.get (⟨13, by decide⟩ : Fin basis.length) = [true, false, true, false, false, false])]
  rw [(by decide : basis.get bstar = [true, false, false, false, true, false])]
  rw [← Finset.sum_subset (Finset.subset_univ ({((2 : Fin 6), (4 : Fin 6))} :
      Finset (Fin 6 × Fin 6))) ?hz]
  case hz =>
    intro p _ hp
    have hm : matel2 [true, false, true, false, false, false] p.1 p.2 [true, false, false, false, true, false] = 0 := by
      revert hp
      revert p
      decide
    rw [hm, Int.cast_zero, mul_zero]
  rw [Finset.sum_singleton]
  rw [(by decide : matel2 [true, false, true, false, false, false] 2 4 [true, false, false, false, true, false] = 1)]
  norm_num [tot_mom, orb_mom, spin_mom, get_orb_momentum, get_spin_momentum,
    Matrix.of_apply, Matrix.add_apply, l1mat, s1mat, ms,
    finval6_0, finval6_1, finval6_2, finval6_3, finval6_4, finval6_5]
  all_goals try simp [QuadExt.ext_iff, ratKF_apply, sqrt2K_apply, iK]
  all_goals try norm_num

theorem opLcol_1_14 : opL 1 (⟨14, by decide⟩ : Fin basis.length) bstar = (0 : KF) := by
  rw [opL, build_opers2, Matrix.of_apply]
  rw [(by decide : basis.get (⟨14, by decide⟩ : Fin basis.length) = [true, true, false, false, false, false])]
  rw [(by decide : basis.get bstar = [true, false, false, false, true, false])]
  rw [← Finset.sum_subset (Finset.subset_univ ({((1 : Fin 6), (4 : Fin 6))} :
      Finset (Fin 6 × Fin 6))) ?hz]
  case hz =>
    intro p _ hp
    have hm : matel2 [true, true, false, false, false, false] p.1 p.2 [true, false, false, false, true, false] = 0 := by
      revert hp
      revert p
      decide
    rw [hm, Int.cast_zero, mul_zero]
  rw [Finset.sum_singleton]
  rw [(by decide : matel2 [true, true, false, false, false, false] 1 4 [true, false, false, false, true, false] = 1)]
  norm_num [tot_mom, orb_mom, spin_mom, get_orb_momentum, get_spin_momentum,
    Matrix.of_apply, Matrix.add_apply, l1mat, s1mat, ms,
    finval6_0, finval6_1, finval6_2, finval6_3, finval6_4, finval6_5]
  all_goals try simp [QuadExt.ext_iff, ratKF_apply, sqrt2K_apply, iK]
  all_goals try norm_num

theorem opLrow_1_4 : opL 1 bstar (⟨4, by decide⟩ : Fin basis.length) = (ratKF (1 / 2 : ℚ) * sqrt2K * iK) := by
  rw [opL, build_opers2, Matrix.of_apply]
  rw [(by decide : basis.get bstar = [true, false, false, false, true, false])]
  rw [(by decide : basis.get (⟨4, by decide⟩ : Fin basis.length) = [false, false, true, false, true, false])]
  rw [← Finset.sum_subset (Finset.subset_univ ({((0 : Fin 6), (2 : Fin 6))} :
      Finset (Fin 6 × Fin 6))) ?hz]
  case hz =>
    intro p _ hp
    have hm : matel2 [true, false, false, false, true, false] p.1 p.2 [false, false, true, false, true, false] = 0 := by
      revert hp
      revert p
      decide
    rw [hm, Int.cast_zero, mul_zero]
  rw [Finset.sum_singleton]
  rw [(by decide : matel2 [true, false, false, false, true, false] 0 2 [false, false, true, false, true, false] = 1)]
  norm_num [tot_mom, orb_mom, spin_mom, get_orb_momentum, get_spin_momentum,
    Matrix.of_apply, Matrix.add_apply, l1mat, s1mat, ms,
    finval6_0, finval6_1, finval6_2, finval6_3, finval6_4, finval6_5]
  all_goals try simp [QuadExt.ext_iff, ratKF_apply, sqrt2K_apply, iK]
  all_goals try norm_num

theorem opLrow_1_13 : opL 1 bstar (⟨13, by decide⟩ : Fin basis.length) = (ratKF (-1 / 2 : ℚ) * sqrt2K * iK) := by
  rw [opL, build_opers2, Matrix.of_apply]
  rw [(by decide : basis.get bstar = [true, false, false, false, true, false])]
  rw [(by decide : basis.get (⟨13, by decide⟩ : Fin basis.length) = [true, false, true, false, false, false])]
  rw [← Finset.sum_subset (Finset.subset_univ ({((4 : Fin 6), (2 : Fin 6))} :
      Finset (Fin 6 × Fin 6))) ?hz]
  case hz =>
    intro p _ hp
    have hm : matel2 [true, false, false, false, true, false] p.1 p.2 [true, false, true, false, false, false] = 0 := by
      revert hp
      revert p
      decide
    rw [hm, Int.cast_zero, mul_zero]
  rw [Finset.sum_singleton]
  rw [(by decide : matel2 [true, false, false, false, true, false] 4 2 [true, false, true, false, false, false] = 1)]
  norm_num [tot_mom, orb_mom, spin_mom, get_orb_momentum, get_spin_momentum,
    Matrix.of_apply, Matrix.add_apply, l1mat, s1mat, ms,
    finval6_0, finval6_1, finval6_2, finval6_3, finval6_4, finval6_5]
  all_goals try simp [QuadExt.ext_iff, ratKF_apply, sqrt2K_apply, iK]
  all_goals try norm_num

theorem opLcol_2_0 : opL 2 (⟨0, by decide⟩ : Fin basis.length) bstar = (0 : KF) := by
  rw [opL, build_opers2, Matrix.of_apply]
  rw [(by decide : basis.get (⟨0, by decide⟩ : Fin basis.length) = [false, false, false, false, true, true])]
  rw [(by decide : basis.get bstar = [true, false, false, false, true, false])]
  rw [← Finset.sum_subset (Finset.subset_univ ({((5 : Fin 6), (0 : Fin 6))} :
      Finset (Fin 6 × Fin 6))) ?hz]
  case hz =>
    intro p _ hp
    have hm : matel2 [false, false, false, false, true, true] p.1 p.2 [true, false, false, false, true, false] = 0 := by
      revert hp
      revert p
      decide
    rw [hm, Int.cast_zero, mul_zero]
  rw [Finset.sum_singleton]
  rw [(by decide : matel2 [false, false, false, false, true, true] 5 0 [true, false, false, false, true, false] = -1)]
  norm_num [tot_mom, orb_mom, spin_mom, get_orb_momentum, get_spin_momentum,
    Matrix.of_apply, Matrix.add_apply, l1mat, s1mat, ms,
    finval6_0, finval6_1, finval6_2, finval6_3, finval6_4, finval6_5]
  all_goals try simp [QuadExt.ext_iff, ratKF_apply, sqrt2K_apply, iK]
  all_goals try norm_num

theorem opLcol_2_1 : opL 2 (⟨1, by decide⟩ : Fin basis.length) bstar = (0 : KF) := by
  rw [opL, build_opers2, Matrix.of_apply]
  rw [(by decide : basis.get (⟨1, by decide⟩ : Fin basis.length) = [false, false, false, true, false, true])]
  rw [(by decide : basis.get bstar = [true, false, false, false, true, false])]
  rw [← Finset.sum_subset (Finset.subset_univ (∅ :
      Finset (Fin 6 × Fin 6))) ?hz]
  case hz =>
    intro p _ hp
    have hm : matel2 [false, false, false, true, false, true] p.1 p.2 [true, false, false, false, true, false] = 0 := by
      revert hp
      revert p
      decide
    rw [hm, Int.cast_zero, mul_zero]
  rw [Finset.sum_empty]

theorem opLcol_2_2 : opL 2 (⟨2, by decide⟩ : Fin basis.length) bstar = (0 : KF) := by
  rw [opL, build_opers2, Matrix.of_apply]
  rw [(by decide : basis.get (⟨2, by decide⟩ : Fin basis.length) = [false, false, false, true, true, false])]
  rw [(by decide : basis.get bstar = [true, false, false, false, true, false])]
  rw [← Finset.sum_subset (Finset.subset_univ ({((3 : Fin 6), (0 : Fin 6))} :
      Finset (Fin 6 × Fin 6))) ?hz]
  case hz =>
    intro p _ hp
    have hm : matel2 [false, false, false, true, true, false] p.1 p.2 [true, false, false, false, true, false] = 0 := by
      revert hp
      revert p
      decide
    rw [hm, Int.cast_zero, mul_zero]
  rw [Finset.sum_singleton]
  rw [(by decide : matel2 [false, false, false, true, true, false] 3 0 [true, false, false, false, true, false] = 1)]
  norm_num [tot_mom, orb_mom, spin_mom, get_orb_momentum, get_spin_momentum,
    Matrix.of_apply, Matrix.add_apply, l1mat, s1mat, ms,
    finval6_0, finval6_1, finval6_2, finval6_3, finval6_4, finval6_5]
  all_goals try simp [QuadExt.ext_iff, ratKF_apply, sqrt2K_apply, iK]
  all_goals try norm_num

theorem opLcol_2_3 : opL 2 (⟨3, by decide⟩ : Fin basis.length) bstar = (0 : KF) := by
  rw [opL, build_opers2, Matrix.of_apply]
  rw [(by decide : basis.get (⟨3, by decide⟩ : Fin basis.length) = [false, false, true, false, false, true])]
  rw [(by decide : basis.get bstar = [true, false, false, false, true, false])]
  rw [← Finset.sum_subset (Finset.subset_univ (∅ :
      Finset (Fin 6 × Fin 6))) ?hz]
  case hz =>
    intro p _ hp
    have hm : matel2 [false, false, true, false, false, true] p.1 p.2 [true, false, false, false, true, false] = 0 := by
      revert hp
      revert p
      decide
    rw [hm, Int.cast_zero, mul_zero]
  rw [Finset.sum_empty]

theorem opLcol_2_4 : opL 2 (⟨4, by decide⟩ : Fin basis.length) bstar = (0 : KF) := by
  rw [opL, build_opers2, Matrix.of_apply]
  rw [(by decide : basis.get (⟨4, by decide⟩ : Fin basis.length) = [false, false, true, false, true, false])]
  rw [(by decide : basis.get bstar = [true, false, false, false, true, false])]
  rw [← Finset.sum_subset (Finset.subset_univ ({((2 : Fin 6), (0 : Fin 6))} :
      Finset (Fin 6 × Fin 6))) ?hz]
  case hz =>
    intro p _ hp
    have hm : matel2 [false, false, true, false, true, false] p.1 p.2 [true, false, false, false, true, false] = 0 := by
      revert hp
      revert p
      decide
    rw [hm, Int.cast_zero, mul_zero]
  rw [Finset.sum_singleton]
  rw [(by decide : matel2 [false, false, true, false, true, false] 2 0 [true, false, false, false, true, false] = 1)]
  norm_num [tot_mom, orb_mom, spin_mom, get_orb_momentum, get_spin_momentum,
    Matrix.of_apply, Matrix.add_apply, l1mat, s1mat, ms,
    finval6_0, finval6_1, finval6_2, finval6_3, finval6_4, finval6_5]
  all_goals try simp [QuadExt.ext_iff, ratKF_apply, sqrt2K_apply, iK]
  all_goals try norm_num

theorem opLcol_2_5 : opL 2 (⟨5, by decide⟩ : Fin basis.length) bstar = (0 : KF) := by
  rw [opL, build_opers2, Matrix.of_apply]
  rw [(by decide : basis.get (⟨5, by decide⟩ : Fin basis.length) = [false, false, true, true, false, false])]
  rw [(by decide : basis.get bstar = [true, false, false, false, true, false])]
  rw [← Finset.sum_subset (Finset.subset_univ (∅ :
      Finset (Fin 6 × Fin 6))) ?hz]
  case hz =>
    intro p _ hp
    have hm : matel2 [false, false, true, true, false, false] p.1 p.2 [true, false, false, false, true, false] = 0 := by
      revert hp
      revert p
      decide
    rw [hm, Int.cast_zero, mul_zero]
  rw [Finset.sum_empty]

theorem opLcol_2_6 : opL 2 (⟨6, by decide⟩ : Fin basis.length) bstar = (0 : KF) := by
  rw [opL, build_opers2, Matrix.of_apply]
  rw [(by decide : basis.get (⟨6, by decide⟩ : Fin basis.length) = [false, true, false, false, false, true])]
  rw [(by decide : basis.get bstar = [true, false, false, false, true, false])]
  rw [← Finset.sum_subset (Finset.subset_univ (∅ :
      Finset (Fin 6 × Fin 6))) ?hz]
  case hz =>
    intro p _ hp
    have hm : matel2 [false, true, false, false, false, true] p.1 p.2 [true, false, false, false, true, false] = 0 := by
      revert hp
      revert p
      decide
    rw [hm, Int.cast_zero, mul_zero]
  rw [Finset.sum_empty]

theorem opLcol_2_7 : opL 2 (⟨7, by decide⟩ : Fin basis.length) bstar = (0 : KF) := by
  rw [opL, build_opers2, Matrix.of_apply]
  rw [(by decide : basis.get (⟨7, by decide⟩ : Fin basis.length) = [false, true, false, false, true, false])]
  rw [(by decide : basis.get bstar = [true, false, false, false, true, false])]
  rw [← Finset.sum_subset (Finset.subset_univ ({((1 : Fin 6), (0 : Fin 6))} :
      Finset (Fin 6 × Fin 6))) ?hz]
  case hz =>
    intro p _ hp
    have hm : matel2 [false, true, false, false, true, false] p.1 p.2 [true, false, false, false, true, false] = 0 := by
      revert hp
      revert p
      decide
    rw [hm, Int.cast_zero, mul_zero]
  rw [Finset.sum_singleton]
  rw [(by decide : matel2 [false, true, false, false, true, false] 1 0 [true, false, false, false, true, false] = 1)]
  norm_num [tot_mom, orb_mom, spin_mom, get_orb_momentum, get_spin_momentum,
    Matrix.of_apply, Matrix.add_apply, l1mat, s1mat, ms,
    finval6_0, finval6_1, finval6_2, finval6_3, finval6_4, finval6_5]
  all_goals try simp [QuadExt.ext_iff, ratKF_apply, sqrt2K_apply, iK]
  all_goals try norm_num

theorem opLcol_2_8 : opL 2 (⟨8, by decide⟩ : Fin basis.length) bstar = (0 : KF) := by
  rw [opL, build_opers2, Matrix.of_apply]
  rw [(by decide : basis.get (⟨8, by decide⟩ : Fin basis.length) = [false, true, false, true, false, false])]
  rw [(by decide : basis.get bstar = [true, false, false, false, true, false])]
  rw [← Finset.sum_subset (Finset.subset_univ (∅ :
      Finset (Fin 6 × Fin 6))) ?hz]
  case hz =>
    intro p _ hp
    have hm : matel2 [false, true, false, true, false, false] p.1 p.2 [true, false, false, false, true, false] = 0 := by
      revert hp
      revert p
      decide
    rw [hm, Int.cast_zero, mul_zero]
  rw [Finset.sum_empty]

theorem opLcol_2_9 : opL 2 (⟨9, by decide⟩ : Fin basis.length) bstar = (0 : KF) := by
  rw [opL, build_opers2, Matrix.of_apply]
  rw [(by decide : basis.get (⟨9, by decide⟩ : Fin basis.length) = [false, true, true, false, false, false])]
  rw [(by decide : basis.get bstar = [true, false, false, false, true, false])]
  rw [← Finset.sum_subset (Finset.subset_univ (∅ :
      Finset (Fin 6 × Fin 6))) ?hz]
  case hz =>
    intro p _ hp
    have hm : matel2 [false, true, true, false, false, false] p.1 p.2 [true, false, false, false, true, false] = 0 := by
      revert hp
      revert p
      decide
    rw [hm, Int.cast_zero, mul_zero]
  rw [Finset.sum_empty]

theorem opLcol_2_10 : opL 2 (⟨10, by decide⟩ : Fin basis.length) bstar = (0 : KF) := by
  rw [opL, build_opers2, Matrix.of_apply]
  rw [(by decide : basis.get (⟨10, by decide⟩ : Fin basis.length) = [true, false, false, false, false, true])]
  rw [(by decide : basis.get bstar = [true, false, false, false, true, false])]
  rw [← Finset.sum_subset (Finset.subset_univ ({((5 : Fin 6), (4 : Fin 6))} :
      Finset (Fin 6 × Fin 6))) ?hz]
  case hz =>
    intro p _ hp
    have hm : matel2 [true, false, false, false, false, true] p.1 p.2 [true, false, false, false, true, false] = 0 := by
      revert hp
      revert p
      decide
    rw [hm, Int.cast_zero, mul_zero]
  rw [Finset.sum_singleton]
  rw [(by decide : matel2 [true, false, false, false, false, true] 5 4 [true, false, false, false, true, false] = 1)]
  norm_num [tot_mom, orb_mom, spin_mom, get_orb_momentum, get_spin_momentum,
    Matrix.of_apply, Matrix.add_apply, l1mat, s1mat, ms,
    finval6_0, finval6_1, finval6_2, finval6_3, finval6_4, finval6_5]
  all_goals try simp [QuadExt.ext_iff, ratKF_apply, sqrt2K_apply, iK]
  all_goals try norm_num

theorem opLcol_2_11 : opL 2 bstar bstar = (0 : KF) := by
  rw [opL, build_opers2, Matrix.of_apply]
  rw [(by decide : basis.get bstar = [true, false, false, false, true, false])]
  rw [← Finset.sum_subset (Finset.subset_univ ({((0 : Fin 6), (0 : Fin 6)), ((4 : Fin 6), (4 : Fin 6))} :
      Finset (Fin 6 × Fin 6))) ?hz]
  case hz =>
    intro p _ hp
    have hm : matel2 [true, false, false, false, true, false] p.1 p.2 [true, false, false, false, true, false] = 0 := by
      revert hp
      revert p
      decide
    rw [hm, Int.cast_zero, mul_zero]
  rw [Finset.sum_insert (by decide), Finset.sum_singleton]
  rw [(by decide : matel2 [true, false, false, false, true, false] 0 0 [true, false, false, false, true, false] = 1), (by decide : matel2 [true, false, false, false, true, false] 4 4 [true, false, false, false, true, false] = 1)]
  norm_num [tot_mom, orb_mom, spin_mom, get_orb_momentum, get_spin_momentum,
    Matrix.of_apply, Matrix.add_apply, l1mat, s1mat, ms,
    finval6_0, finval6_1, finval6_2, finval6_3, finval6_4, finval6_5]
  all_goals try simp [QuadExt.ext_iff, ratKF_apply, sqrt2K_apply, iK]
  all_goals try norm_num

theorem opLcol_2_12 : opL 2 (⟨12, by decide⟩ : Fin basis.length) bstar = (0 : KF) := by
  rw [opL, build_opers2, Matrix.of_apply]
  rw [(by decide : basis.get (⟨12, by decide⟩ : Fin basis.length) = [true, false, false, true, false, false])]
  rw [(by decide : basis.get bstar = [true, false, false, false, true, false])]
  rw [← Finset.sum_subset (Finset.subset_univ ({((3 : Fin 6), (4 : Fin 6))} :
      Finset (Fin 6 × Fin 6))) ?hz]
  case hz =>
    intro p _ hp
    have hm : matel2 [true, false, false, true, false, false] p.1 p.2 [true, false, false, false, true, false] = 0 := by
      revert hp
      revert p
      decide
    rw [hm, Int.cast_zero, mul_zero]
  rw [Finset.sum_singleton]
  rw [(by decide : matel2 [true, false, false, true, false, false] 3 4 [true, false, false, false, true, false] = 1)]
  norm_num [tot_mom, orb_mom, spin_mom, get_orb_momentum, get_spin_momentum,
    Matrix.of_apply, Matrix.add_apply, l1mat, s1mat, ms,
    finval6_0, finval6_1, finval6_2, finval6_3, finval6_4, finval6_5]
  all_goals try simp [QuadExt.ext_iff, ratKF_apply, sqrt2K_apply, iK]
  all_goals try norm_num

theorem opLcol_2_13 : opL 2 (⟨13, by decide⟩ : Fin basis.length) bstar = (0 : KF) := by
  rw [opL, build_opers2, Matrix.of_apply]
  rw [(by decide : basis.get (⟨13, by decide⟩ : Fin basis.length) = [true, false, true, false, false, false])]
  rw [(by decide : basis.get bstar = [true, false, false, false, true, false])]
  rw [← Finset.sum_subset (Finset.subset_univ ({((2 : Fin 6), (4 : Fin 6))} :
      Finset (Fin 6 × Fin 6))) ?hz]
  case hz =>
    intro p _ hp
    have hm : matel2 [true, false, true, false, false, false] p.1 p.2 [true, false, false, false, true, false] = 0 := by
      revert hp
      revert p
      decide
    rw [hm, Int.cast_zero, mul_zero]
  rw [Finset.sum_singleton]
  rw [(by decide : matel2 [true, false, true, false, false, false] 2 4 [true, false, false, false, true, false] = 1)]
  norm_num [tot_mom, orb_mom, spin_mom, get_orb_momentum, get_spin_momentum,
    Matrix.of_apply, Matrix.add_apply, l1mat, s1mat, ms,
    finval6_0, finval6_1, finval6_2, finval6_3, finval6_4, finval6_5]
  all_goals try simp [QuadExt.ext_iff, ratKF_apply, sqrt2K_apply, iK]
  all_goals try norm_num

theorem opLcol_2_14 : opL 2 (⟨14, by decide⟩ : Fin basis.length) bstar = (0 : KF) := by
  rw [opL, build_opers2, Matrix.of_apply]
  rw [(by decide : basis.get (⟨14, by decide⟩ : Fin basis.length) = [true, true, false, false, false, false])]
  rw [(by decide : basis.get bstar = [true, false, false, false, true, false])]
  rw [← Finset.sum_subset (Finset.subset_univ ({((1 : Fin 6), (4 : Fin 6))} :
      Finset (Fin 6 × Fin 6))) ?hz]
  case hz =>
    intro p _ hp
    have hm : matel2 [true, true, false, false, false, false] p.1 p.2 [true, false, false, false, true, false] = 0 := by
      revert hp
      revert p
      decide
    rw [hm, Int.cast_zero, mul_zero]
  rw [Finset.sum_singleton]
  rw [(by decide : matel2 [true, true, false, false, false, false] 1 4 [true, false, false, false, true, false] = 1)]
  norm_num [tot_mom, orb_mom, spin_mom, get_orb_momentum, get_spin_momentum,
    Matrix.of_apply, Matrix.add_apply, l1mat, s1mat, ms,
    finval6_0, finval6_1, finval6_2, finval6_3, finval6_4, finval6_5]
  all_goals try simp [QuadExt.ext_iff, ratKF_apply, sqrt2K_apply, iK]
  all_goals try norm_num

theorem opScol_0_0 : opS 0 (⟨0, by decide⟩ : Fin basis.length) bstar = (0 : KF) := by
  rw [opS, build_opers2, Matrix.of_apply]
  rw [(by decide : basis.get (⟨0, by decide⟩ : Fin basis.length) = [false, false, false, false, true, true])]
  rw [(by decide : basis.get bstar = [true, false, false, false, true, false])]
  rw [← Finset.sum_subset (Finset.subset_univ ({((5 : Fin 6), (0 : Fin 6))} :
      Finset (Fin 6 × Fin 6))) ?hz]
  case hz =>
    intro p _ hp
    have hm : matel2 [false, false, false, false, true, true] p.1 p.2 [true, false, false, false, true, false] = 0 := by
      revert hp
      revert p
      decide
    rw [hm, Int.cast_zero, mul_zero]
  rw [Finset.sum_singleton]
  rw [(by decide : matel2 [false, false, false, false, true, true] 5 0 [true, false, false, false, true, false] = -1)]
  norm_num [tot_mom, orb_mom, spin_mom, get_orb_momentum, get_spin_momentum,
    Matrix.of_apply, Matrix.add_apply, l1mat, s1mat, ms,
    finval6_0, finval6_1, finval6_2, finval6_3, finval6_4, finval6_5]
  all_goals try simp [QuadExt.ext_iff, ratKF_apply, sqrt2K_apply, iK]
  all_goals try norm_num

theorem opScol_0_1 : opS 0 (⟨1, by decide⟩ : Fin basis.length) bstar = (0 : KF) := by
  rw [opS, build_opers2, Matrix.of_apply]
  rw [(by decide : basis.get (⟨1, by decide⟩ : Fin basis.length) = [false, false, false, true, false, true])]
  rw [(by decide : basis.get bstar = [true, false, false, false, true, false])]
  rw [← Finset.sum_subset (Finset.subset_univ (∅ :
      Finset (Fin 6 × Fin 6))) ?hz]
  case hz =>
    intro p _ hp
    have hm : matel2 [false, false, false, true, false, true] p.1 p.2 [true, false, false, false, true, false] = 0 := by
      revert hp
      revert p
      decide
    rw [hm, Int.cast_zero, mul_zero]
  rw [Finset.sum_empty]

theorem opScol_0_2 : opS 0 (⟨2, by decide⟩ : Fin basis.length) bstar = (0 : KF) := by
  rw [opS, build_opers2, Matrix.of_apply]
  rw [(by decide : basis.get (⟨2, by decide⟩ : Fin basis.length) = [false, false, false, true, true, false])]
  rw [(by decide : basis.get bstar = [true, false, false, false, true, false])]
  rw [← Finset.sum_subset (Finset.subset_univ ({((3 : Fin 6), (0 : Fin 6))} :
      Finset (Fin 6 × Fin 6))) ?hz]
  case hz =>
    intro p _ hp
    have hm : matel2 [false, false, false, true, true, false] p.1 p.2 [true, false, false, false, true, false] = 0 := by
      revert hp
      revert p
      decide
    rw [hm, Int.cast_zero, mul_zero]
  rw [Finset.sum_singleton]
  rw [(by decide : matel2 [false, false, false, true, true, false] 3 0 [true, false, false, false, true, false] = 1)]
  norm_num [tot_mom, orb_mom, spin_mom, get_orb_momentum, get_spin_momentum,
    Matrix.of_apply, Matrix.add_apply, l1mat, s1mat, ms,
    finval6_0, finval6_1, finval6_2, finval6_3, finval6_4, finval6_5]
  all_goals try simp [QuadExt.ext_iff, ratKF_apply, sqrt2K_apply, iK]
  all_goals try norm_num

theorem opScol_0_3 : opS 0 (⟨3, by decide⟩ : Fin basis.length) bstar = (0 : KF) := by
  rw [opS, build_opers2, Matrix.of_apply]
  rw [(by decide : basis.get (⟨3, by decide⟩ : Fin basis.length) = [false, false, true, false, false, true])]
  rw [(by decide : basis.get bstar = [true, false, false, false, true, false])]
  rw [← Finset.sum_subset (Finset.subset_univ (∅ :
      Finset (Fin 6 × Fin 6))) ?hz]
  case hz =>
    intro p _ hp
    have hm : matel2 [false, false, true, false, false, true] p.1 p.2 [true, false, false, false, true, false] = 0 := by
      revert hp
      revert p
      decide
    rw [hm, Int.cast_zero, mul_zero]
  rw [Finset.sum_empty]

theorem opScol_0_4 : opS 0 (⟨4, by decide⟩ : Fin basis.length) bstar = (0 : KF) := by
  rw [opS, build_opers2, Matrix.of_apply]
  rw [(by decide : basis.get (⟨4, by decide⟩ : Fin basis.length) = [false, false, true, false, true, false])]
  rw [(by decide : basis.get bstar = [true, false, false, false, true, false])]
  rw [← Finset.sum_subset (Finset.subset_univ ({((2 : Fin 6), (0 : Fin 6))} :
      Finset (Fin 6 × Fin 6))) ?hz]
  case hz =>
    intro p _ hp
    have hm : matel2 [false, false, true, false, true, false] p.1 p.2 [true, false, false, false, true, false] = 0 := by
      revert hp
      revert p
      decide
    rw [hm, Int.cast_zero, mul_zero]
  rw [Finset.sum_singleton]
  rw [(by decide : matel2 [false, false, true, false, true, false] 2 0 [true, false, false, false, true, false] = 1)]
  norm_num [tot_mom, orb_mom, spin_mom, get_orb_momentum, get_spin_momentum,
    Matrix.of_apply, Matrix.add_apply, l1mat, s1mat, ms,
    finval6_0, finval6_1, finval6_2, finval6_3, finval6_4, finval6_5]
  all_goals try simp [QuadExt.ext_iff, ratKF_apply, sqrt2K_apply, iK]
  all_goals try norm_num

theorem opScol_0_5 : opS 0 (⟨5, by decide⟩ : Fin basis.length) bstar = (0 : KF) := by
  rw [opS, build_opers2, Matrix.of_apply]
  rw [(by decide : basis.get (⟨5, by decide⟩ : Fin basis.length) = [false, false, true, true, false, false])]
  rw [(by decide : basis.get bstar = [true, false, false, false, true, false])]
  rw [← Finset.sum_subset (Finset.subset_univ (∅ :
      Finset (Fin 6 × Fin 6))) ?hz]
  case hz =>
    intro p _ hp
    have hm : matel2 [false, false, true, true, false, false] p.1 p.2 [true, false, false, false, true, false] = 0 := by
      revert hp
      revert p
      decide
    rw [hm, Int.cast_zero, mul_zero]
  rw [Finset.sum_empty]

theorem opScol_0_6 : opS 0 (⟨6, by decide⟩ : Fin basis.length) bstar = (0 : KF) := by
  rw [opS, build_opers2, Matrix.of_apply]
  rw [(by decide : basis.get (⟨6, by decide⟩ : Fin basis.length) = [false, true, false, false, false, true])]
  rw [(by decide : basis.get bstar = [true, false, false, false, true, false])]
  rw [← Finset.sum_subset (Finset.subset_univ (∅ :
      Finset (Fin 6 × Fin 6))) ?hz]
  case hz =>
    intro p _ hp
    have hm : matel2 [false, true, false, false, false, true] p.1 p.2 [true, false, false, false, true, false] = 0 := by
      revert hp
      revert p
      decide
    rw [hm, Int.cast_zero, mul_zero]
  rw [Finset.sum_empty]

theorem opScol_0_7 : opS 0 (⟨7, by decide⟩ : Fin basis.length) bstar = (ratKF (1 / 2 : ℚ)) := by
  rw [opS, build_opers2, Matrix.of_apply]
  rw [(by decide : basis.get (⟨7, by decide⟩ : Fin basis.length) = [false, true, false, false, true, false])]
  rw [(by decide : basis.get bstar = [true, false, false, false, true, false])]
  rw [← Finset.sum_subset (Finset.subset_univ ({((1 : Fin 6), (0 : Fin 6))} :
      Finset (Fin 6 × Fin 6))) ?hz]
  case hz =>
    intro p _ hp
    have hm : matel2 [false, true, false, false, true, false] p.1 p.2 [true, false, false, false, true, false] = 0 := by
      revert hp
      revert p
      decide
    rw [hm, Int.cast_zero, mul_zero]
  rw [Finset.sum_singleton]
  rw [(by decide : matel2 [false, true, false, false, true, false] 1 0 [true, false, false, false, true, false] = 1)]
  norm_num [tot_mom, orb_mom, spin_mom, get_orb_momentum, get_spin_momentum,
    Matrix.of_apply, Matrix.add_apply, l1mat, s1mat, ms,
    finval6_0, finval6_1, finval6_2, finval6_3, finval6_4, finval6_5]
  all_goals try simp [QuadExt.ext_iff, ratKF_apply, sqrt2K_apply, iK]
  all_goals try norm_num

theorem opScol_0_8 : opS 0 (⟨8, by decide⟩ : Fin basis.length) bstar = (0 : KF) := by
  rw [opS, build_opers2, Matrix.of_apply]
  rw [(by decide : basis.get (⟨8, by decide⟩ : Fin basis.length) = [false, true, false, true, false, false])]
  rw [(by decide : basis.get bstar = [true, false, false, false, true, false])]
  rw [← Finset.sum_subset (Finset.subset_univ (∅ :
      Finset (Fin 6 × Fin 6))) ?hz]
  case hz =>
    intro p _ hp
    have hm : matel2 [false, true, false, true, false, false] p.1 p.2 [true, false, false, false, true, false] = 0 := by
      revert hp
      revert p
      decide
    rw [hm, Int.cast_zero, mul_zero]
  rw [Finset.sum_empty]

theorem opScol_0_9 : opS 0 (⟨9, by decide⟩ : Fin basis.length) bstar = (0 : KF) := by
  rw [opS, build_opers2, Matrix.of_apply]
  rw [(by decide : basis.get (⟨9, by decide⟩ : Fin basis.length) = [false, true, true, false, false, false])]
  rw [(by decide : basis.get bstar = [true, false, false, false, true, false])]
  rw [← Finset.sum_subset (Finset.subset_univ (∅ :
      Finset (Fin 6 × Fin 6))) ?hz]
  case hz =>
    intro p _ hp
    have hm : matel2 [false, true, true, false, false, false] p.1 p.2 [true, false, false, false, true, false] = 0 := by
      revert hp
      revert p
      decide
    rw [hm, Int.cast_zero, mul_zero]
  rw [Finset.sum_empty]

theorem opScol_0_10 : opS 0 (⟨10, by decide⟩ : Fin basis.length) bstar = (ratKF (1 / 2 : ℚ)) := by
  rw [opS, build_opers2, Matrix.of_apply]
  rw [(by decide : basis.get (⟨10, by decide⟩ : Fin basis.length) = [true, false, false, false, false, true])]
  rw [(by decide : basis.get bstar = [true, false, false, false, true, false])]
  rw [← Finset.sum_subset (Finset.subset_univ ({((5 : Fin 6), (4 : Fin 6))} :
      Finset (Fin 6 × Fin 6))) ?hz]
  case hz =>
    intro p _ hp
    have hm : matel2 [true, false, false, false, false, true] p.1 p.2 [true, false, false, false, true, false] = 0 := by
      revert hp
      revert p
      decide
    rw [hm, Int.cast_zero, mul_zero]
  rw [Finset.sum_singleton]
  rw [(by decide : matel2 [true, false, false, false, false, true] 5 4 [true, false, false, false, true, false] = 1)]
  norm_num [tot_mom, orb_mom, spin_mom, get_orb_momentum, get_spin_momentum,
    Matrix.of_apply, Matrix.add_apply, l1mat, s1mat, ms,
    finval6_0, finval6_1, finval6_2, finval6_3, finval6_4, finval6_5]
  all_goals try simp [QuadExt.ext_iff, ratKF_apply, sqrt2K_apply, iK]
  all_goals try norm_num

theorem opScol_0_11 : opS 0 bstar bstar = (0 : KF) := by
  rw [opS, build_opers2, Matrix.of_apply]
  rw [(by decide : basis.get bstar = [true, false, false, false, true, false])]
  rw [← Finset.sum_subset (Finset.subset_univ ({((0 : Fin 6), (0 : Fin 6)), ((4 : Fin 6), (4 : Fin 6))} :
      Finset (Fin 6 × Fin 6))) ?hz]
  case hz =>
    intro p _ hp
    have hm : matel2 [true, false, false, false, true, false] p.1 p.2 [true, false, false, false, true, false] = 0 := by
      revert hp
      revert p
      decide
    rw [hm, Int.cast_zero, mul_zero]
  rw [Finset.sum_insert (by decide), Finset.sum_singleton]
  rw [(by decide : matel2 [true, false, false, false, true, false] 0 0 [true, false, false, false, true, false] = 1), (by decide : matel2 [true, false, false, false, true, false] 4 4 [true, false, false, false, true, false] = 1)]
  norm_num [tot_mom, orb_mom, spin_mom, get_orb_momentum, get_spin_momentum,
    Matrix.of_apply, Matrix.add_apply, l1mat, s1mat, ms,
    finval6_0, finval6_1, finval6_2, finval6_3, finval6_4, finval6_5]
  all_goals try simp [QuadExt.ext_iff, ratKF_apply, sqrt2K_apply, iK]
  all_goals try norm_num

theorem opScol_0_12 : opS 0 (⟨12, by decide⟩ : Fin basis.length) bstar = (0 : KF) := by
  rw [opS, build_opers2, Matrix.of_apply]
  rw [(by decide : basis.get (⟨12, by decide⟩ : Fin basis.length) = [true, false, false, true, false, false])]
  rw [(by decide : basis.get bstar = [true, false, false, false, true, false])]
  rw [← Finset.sum_subset (Finset.subset_univ ({((3 : Fin 6), (4 : Fin 6))} :
      Finset (Fin 6 × Fin 6))) ?hz]
  case hz =>
    intro p _ hp
    have hm : matel2 [true, false, false, true, false, false] p.1 p.2 [true, false, false, false, true, false] = 0 := by
      revert hp
      revert p
      decide
    rw [hm, Int.cast_zero, mul_zero]
  rw [Finset.sum_singleton]
  rw [(by decide : matel2 [true, false, false, true, false, false] 3 4 [true, false, false, false, true, false] = 1)]
  norm_num [tot_mom, orb_mom, spin_mom, get_orb_momentum, get_spin_momentum,
    Matrix.of_apply, Matrix.add_apply, l1mat, s1mat, ms,
    finval6_0, finval6_1, finval6_2, finval6_3, finval6_4, finval6_5]
  all_goals try simp [QuadExt.ext_iff, ratKF_apply, sqrt2K_apply, iK]
  all_goals try norm_num

theorem opScol_0_13 : opS 0 (⟨13, by decide⟩ : Fin basis.length) bstar = (0 : KF) := by
  rw [opS, build_opers2, Matrix.of_apply]
  rw [(by decide : basis.get (⟨13, by decide⟩ : Fin basis.length) = [true, false, true, false, false, false])]
  rw [(by decide : basis.get bstar = [true, false, false, false, true, false])]
  rw [← Finset.sum_subset (Finset.subset_univ ({((2 : Fin 6), (4 : Fin 6))} :
      Finset (Fin 6 × Fin 6))) ?hz]
  case hz =>
    intro p _ hp
    have hm : matel2 [true, false, true, false, false, false] p.1 p.2 [true, false, false, false, true, false] = 0 := by
      revert hp
      revert p
      decide
    rw [hm, Int.cast_zero, mul_zero]
  rw [Finset.sum_singleton]
  rw [(by decide : matel2 [true, false, true, false, false, false] 2 4 [true, false, false, false, true, false] = 1)]
  norm_num [tot_mom, orb_mom, spin_mom, get_orb_momentum, get_spin_momentum,
    Matrix.of_apply, Matrix.add_apply, l1mat, s1mat, ms,
    finval6_0, finval6_1, finval6_2, finval6_3, finval6_4, finval6_5]
  all_goals try simp [QuadExt.ext_iff, ratKF_apply, sqrt2K_apply, iK]
  all_goals try norm_num

theorem opScol_0_14 : opS 0 (⟨14, by decide⟩ : Fin basis.length) bstar = (0 : KF) := by
  rw [opS, build_opers2, Matrix.of_apply]
  rw [(by decide : basis.get (⟨14, by decide⟩ : Fin basis.length) = [true, true, false, false, false, false])]
  rw [(by decide : basis.get bstar = [true, false, false, false, true, false])]
  rw [← Finset.sum_subset (Finset.subset_univ ({((1 : Fin 6), (4 : Fin 6))} :
      Finset (Fin 6 × Fin 6))) ?hz]
  case hz =>
    intro p _ hp
    have hm : matel2 [true, true, false, false, false, false] p.1 p.2 [true, false, false, false, true, false] = 0 := by
      revert hp
      revert p
      decide
    rw [hm, Int.cast_zero, mul_zero]
  rw [Finset.sum_singleton]
  rw [(by decide : matel2 [true, true, false, false, false, false] 1 4 [true, false, false, false, true, false] = 1)]
  norm_num [tot_mom, orb_mom, spin_mom, get_orb_momentum, get_spin_momentum,
    Matrix.of_apply, Matrix.add_apply, l1mat, s1mat, ms,
    finval6_0, finval6_1, finval6_2, finval6_3, finval6_4, finval6_5]
  all_goals try simp [QuadExt.ext_iff, ratKF_apply, sqrt2K_apply, iK]
  all_goals try norm_num

theorem opSrow_0_7 : opS 0 bstar (⟨7, by decide⟩ : Fin basis.length) = (ratKF (1 / 2 : ℚ)) := by
  rw [opS, build_opers2, Matrix.of_apply]
  rw [(by decide : basis.get bstar = [true, false, false, false, true, false])]
  rw [(by decide : basis.get (⟨7, by decide⟩ : Fin basis.length) = [false, true, false, false, true, false])]
  rw [← Finset.sum_subset (Finset.subset_univ ({((0 : Fin 6), (1 : Fin 6))} :
      Finset (Fin 6 × Fin 6))) ?hz]
  case hz =>
    intro p _ hp
    have hm : matel2 [true, false, false, false, true, false] p.1 p.2 [false, true, false, false, true, false] = 0 := by
      revert hp
      revert p
      decide
    rw [hm, Int.cast_zero, mul_zero]
  rw [Finset.sum_singleton]
  rw [(by decide : matel2 [true, false, false, false, true, false] 0 1 [false, true, false, false, true, false] = 1)]
  norm_num [tot_mom, orb_mom, spin_mom, get_orb_momentum, get_spin_momentum,
    Matrix.of_apply, Matrix.add_apply, l1mat, s1mat, ms,
    finval6_0, finval6_1, finval6_2, finval6_3, finval6_4, finval6_5]
  all_goals try simp [QuadExt.ext_iff, ratKF_apply, sqrt2K_apply, iK]
  all_goals try norm_num

theorem opSrow_0_10 : opS 0 bstar (⟨10, by decide⟩ : Fin basis.length) = (ratKF (1 / 2 : ℚ)) := by
  rw [opS, build_opers2, Matrix.of_apply]
  rw [(by decide : basis.get bstar = [true, false, false, false, true, false])]
  rw [(by decide : basis.get (⟨10, by decide⟩ : Fin basis.length) = [true, false, false, false, false, true])]
  rw [← Finset.sum_subset (Finset.subset_univ ({((4 : Fin 6), (5 : Fin 6))} :
      Finset (Fin 6 × Fin 6))) ?hz]
  case hz =>
    intro p _ hp
    have hm : matel2 [true, false, false, false, true, false] p.1 p.2 [true, false, false, false, false, true] = 0 := by
      revert hp
      revert p
      decide
    rw [hm, Int.cast_zero, mul_zero]
  rw [Finset.sum_singleton]
  rw [(by decide : matel2 [true, false, false, false, true, false] 4 5 [true, false, false, false, false, true] = 1)]
  norm_num [tot_mom, orb_mom, spin_mom, get_orb_momentum, get_spin_momentum,
    Matrix.of_apply, Matrix.add_apply, l1mat, s1mat, ms,
    finval6_0, finval6_1, finval6_2, finval6_3, finval6_4, finval6_5]
  all_goals try simp [QuadExt.ext_iff, ratKF_apply, sqrt2K_apply, iK]
  all_goals try norm_num

theorem opScol_1_0 : opS 1 (⟨0, by decide⟩ : Fin basis.length) bstar = (0 : KF) := by
  rw [opS, build_opers2, Matrix.of_apply]
  rw [(by decide : basis.get (⟨0, by decide⟩ : Fin basis.length) = [false, false, false, false, true, true])]
  rw [(by decide : basis.get bstar = [true, false, false, false, true, false])]
  rw [← Finset.sum_subset (Finset.subset_univ ({((5 : Fin 6), (0 : Fin 6))} :
      Finset (Fin 6 × Fin 6))) ?hz]
  case hz =>
    intro p _ hp
    have hm : matel2 [false, false, false, false, true, true] p.1 p.2 [true, false, false, false, true, false] = 0 := by
      revert hp
      revert p
      decide
    rw [hm, Int.cast_zero, mul_zero]
  rw [Finset.sum_singleton]
  rw [(by decide : matel2 [false, false, false, false, true, true] 5 0 [true, false, false, false, true, false] = -1)]
  norm_num [tot_mom, orb_mom, spin_mom, get_orb_momentum, get_spin_momentum,
    Matrix.of_apply, Matrix.add_apply, l1mat, s1mat, ms,
    finval6_0, finval6_1, finval6_2, finval6_3, finval6_4, finval6_5]
  all_goals try simp [QuadExt.ext_iff, ratKF_apply, sqrt2K_apply, iK]
  all_goals try norm_num

theorem opScol_1_1 : opS 1 (⟨1, by decide⟩ : Fin basis.length) bstar = (0 : KF) := by
  rw [opS, build_opers2, Matrix.of_apply]
  rw [(by decide : basis.get (⟨1, by decide⟩ : Fin basis.length) = [false, false, false, true, false, true])]
  rw [(by decide : basis.get bstar = [true, false, false, false, true, false])]
  rw [← Finset.sum_subset (Finset.subset_univ (∅ :
      Finset (Fin 6 × Fin 6))) ?hz]
  case hz =>
    intro p _ hp
    have hm : matel2 [false, false, false, true, false, true] p.1 p.2 [true, false, false, false, true, false] = 0 := by
      revert hp
      revert p
      decide
    rw [hm, Int.cast_zero, mul_zero]
  rw [Finset.sum_empty]

theorem opScol_1_2 : opS 1 (⟨2, by decide⟩ : Fin basis.length) bstar = (0 : KF) := by
  rw [opS, build_opers2, Matrix.of_apply]
  rw [(by decide : basis.get (⟨2, by decide⟩ : Fin basis.length) = [false, false, false, true, true, false])]
  rw [(by decide : basis.get bstar = [true, false, false, false, true, false])]
  rw [← Finset.sum_subset (Finset.subset_univ ({((3 : Fin 6), (0 : Fin 6))} :
      Finset (Fin 6 × Fin 6))) ?hz]
  case hz =>
    intro p _ hp
    have hm : matel2 [false, false, false, true, true, false] p.1 p.2 [true, false, false, false, true, false] = 0 := by
      revert hp
      revert p
      decide
    rw [hm, Int.cast_zero, mul_zero]
  rw [Finset.sum_singleton]
  rw [(by decide : matel2 [false, false, false, true, true, false] 3 0 [true, false, false, false, true, false] = 1)]
  norm_num [tot_mom, orb_mom, spin_mom, get_orb_momentum, get_spin_momentum,
    Matrix.of_apply, Matrix.add_apply, l1mat, s1mat, ms,
    finval6_0, finval6_1, finval6_2, finval6_3, finval6_4, finval6_5]
  all_goals try simp [QuadExt.ext_iff, ratKF_apply, sqrt2K_apply, iK]
  all_goals try norm_num

theorem opScol_1_3 : opS 1 (⟨3, by decide⟩ : Fin basis.length) bstar = (0 : KF) := by
  rw [opS, build_opers2, Matrix.of_apply]
  rw [(by decide : basis.get (⟨3, by decide⟩ : Fin basis.length) = [false, false, true, false, false, true])]
  rw [(by decide : basis.get bstar = [true, false, false, false, true, false])]
  rw [← Finset.sum_subset (Finset.subset_univ (∅ :
      Finset (Fin 6 × Fin 6))) ?hz]
  case hz =>
    intro p _ hp
    have hm : matel2 [false, false, true, false, false, true] p.1 p.2 [true, false, false, false, true, false] = 0 := by
      revert hp
      revert p
      decide
    rw [hm, Int.cast_zero, mul_zero]
  rw [Finset.sum_empty]

theorem opScol_1_4 : opS 1 (⟨4, by decide⟩ : Fin basis.length) bstar = (0 : KF) := by
  rw [opS, build_opers2, Matrix.of_apply]
  rw [(by decide : basis.get (⟨4, by decide⟩ : Fin basis.length) = [false, false, true, false, true, false])]
  rw [(by decide : basis.get bstar = [true, false, false, false, true, false])]
  rw [← Finset.sum_subset (Finset.subset_univ ({((2 : Fin 6), (0 : Fin 6))} :
      Finset (Fin 6 × Fin 6))) ?hz]
  case hz =>
    intro p _ hp
    have hm : matel2 [false, false, true, false, true, false] p.1 p.2 [true, false, false, false, true, false] = 0 := by
      revert hp
      revert p
      decide
    rw [hm, Int.cast_zero, mul_zero]
  rw [Finset.sum_singleton]
  rw [(by decide : matel2 [false, false, true, false, true, false] 2 0 [true, false, false, false, true, false] = 1)]
  norm_num [tot_mom, orb_mom, spin_mom, get_orb_momentum, get_spin_momentum,
    Matrix.of_apply, Matrix.add_apply, l1mat, s1mat, ms,
    finval6_0, finval6_1, finval6_2, finval6_3, finval6_4, finval6_5]
  all_goals try simp [QuadExt.ext_iff, ratKF_apply, sqrt2K_apply, iK]
  all_goals try norm_num

theorem opScol_1_5 : opS 1 (⟨5, by decide⟩ : Fin basis.length) bstar = (0 : KF) := by
  rw [opS, build_opers2, Matrix.of_apply]
  rw [(by decide : basis.get (⟨5, by decide⟩ : Fin basis.length) = [false, false, true, true, false, false])]
  rw [(by decide : basis.get bstar = [true, false, false, false, true, false])]
  rw [← Finset.sum_subset (Finset.subset_univ (∅ :
      Finset (Fin 6 × Fin 6))) ?hz]
  case hz =>
    intro p _ hp
    have hm : matel2 [false, false, true, true, false, false] p.1 p.2 [true, false, false, false, true, false] = 0 := by
      revert hp
      revert p
      decide
    rw [hm, Int.cast_zero, mul_zero]
  rw [Finset.sum_empty]

theorem opScol_1_6 : opS 1 (⟨6, by decide⟩ : Fin basis.length) bstar = (0 : KF) := by
  rw [opS, build_opers2, Matrix.of_apply]
  rw [(by decide : basis.get (⟨6, by decide⟩ : Fin basis.length) = [false, true, false, false, false, true])]
  rw [(by decide : basis.get bstar = [true, false, false, false, true, false])]
  rw [← Finset.sum_subset (Finset.subset_univ (∅ :
      Finset (Fin 6 × Fin 6))) ?hz]
  case hz =>
    intro p _ hp
    have hm : matel2 [false, true, false, false, false, true] p.1 p.2 [true, false, false, false, true, false] = 0 := by
      revert hp
      revert p
      decide
    rw [hm, Int.cast_zero, mul_zero]
  rw [Finset.sum_empty]

theorem opScol_1_7 : opS 1 (⟨7, by decide⟩ : Fin basis.length) bstar = (ratKF (1 / 2 : ℚ) * iK) := by
  rw [opS, build_opers2, Matrix.of_apply]
  rw [(by decide : basis.get (⟨7, by decide⟩ : Fin basis.length) = [false, true, false, false, true, false])]
  rw [(by decide : basis.get bstar = [true, false, false, false, true, false])]
  rw [← Finset.sum_subset (Finset.subset_univ ({((1 : Fin 6), (0 : Fin 6))} :
      Finset (Fin 6 × Fin 6))) ?hz]
  case hz =>
    intro p _ hp
    have hm : matel2 [false, true, false, false, true, false] p.1 p.2 [true, false, false, false, true, false] = 0 := by
      revert hp
      revert p
      decide
    rw [hm, Int.cast_zero, mul_zero]
  rw [Finset.sum_singleton]
  rw [(by decide : matel2 [false, true, false, false, true, false] 1 0 [true, false, false, false, true, false] = 1)]
  norm_num [tot_mom, orb_mom, spin_mom, get_orb_momentum, get_spin_momentum,
    Matrix.of_apply, Matrix.add_apply, l1mat, s1mat, ms,
    finval6_0, finval6_1, finval6_2, finval6_3, finval6_4, finval6_5]
  all_goals try simp [QuadExt.ext_iff, ratKF_apply, sqrt2K_apply, iK]
  all_goals try norm_num

theorem opScol_1_8 : opS 1 (⟨8, by decide⟩ : Fin basis.length) bstar = (0 : KF) := by
  rw [opS, build_opers2, Matrix.of_apply]
  rw [(by decide : basis.get (⟨8, by decide⟩ : Fin basis.length) = [false, true, false, true, false, false])]
  rw [(by decide : basis.get bstar = [true, false, false, false, true, false])]
  rw [← Finset.sum_subset (Finset.subset_univ (∅ :
      Finset (Fin 6 × Fin 6))) ?hz]
  case hz =>
    intro p _ hp
    have hm : matel2 [false, true, false, true, false, false] p.1 p.2 [true, false, false, false, true, false] = 0 := by
      revert hp
      revert p
      decide
    rw [hm, Int.cast_zero, mul_zero]
  rw [Finset.sum_empty]

theorem opScol_1_9 : opS 1 (⟨9, by decide⟩ : Fin basis.length) bstar = (0 : KF) := by
  rw [opS, build_opers2, Matrix.of_apply]
  rw [(by decide : basis.get (⟨9, by decide⟩ : Fin basis.length) = [false, true, true, false, false, false])]
  rw [(by decide : basis.get bstar = [true, false, false, false, true, false])]
  rw [← Finset.sum_subset (Finset.subset_univ (∅ :
      Finset (Fin 6 × Fin 6))) ?hz]
  case hz =>
    intro p _ hp
    have hm : matel2 [false, true, true, false, false, false] p.1 p.2 [true, false, false, false, true, false] = 0 := by
      revert hp
      revert p
      decide
    rw [hm, Int.cast_zero, mul_zero]
  rw [Finset.sum_empty]

theorem opScol_1_10 : opS 1 (⟨10, by decide⟩ : Fin basis.length) bstar = (ratKF (1 / 2 : ℚ) * iK) := by
  rw [opS, build_opers2, Matrix.of_apply]
  rw [(by decide : basis.get (⟨10, by decide⟩ : Fin basis.length) = [true, false, false, false, false, true])]
  rw [(by decide : basis.get bstar = [true, false, false, false, true, false])]
  rw [← Finset.sum_subset (Finset.subset_univ ({((5 : Fin 6), (4 : Fin 6))} :
      Finset (Fin 6 × Fin 6))) ?hz]
  case hz =>
    intro p _ hp
    have hm : matel2 [true, false, false, false, false, true] p.1 p.2 [true, false, false, false, true, false] = 0 := by
      revert hp
      revert p
      decide
    rw [hm, Int.cast_zero, mul_zero]
  rw [Finset.sum_singleton]
  rw [(by decide : matel2 [true, false, false, false, false, true] 5 4 [true, false, false, false, true, false] = 1)]
  norm_num [tot_mom, orb_mom, spin_mom, get_orb_momentum, get_spin_momentum,
    Matrix.of_apply, Matrix.add_apply, l1mat, s1mat, ms,
    finval6_0, finval6_1, finval6_2, finval6_3, finval6_4, finval6_5]
  all_goals try simp [QuadExt.ext_iff, ratKF_apply, sqrt2K_apply, iK]
  all_goals try norm_num

theorem opScol_1_11 : opS 1 bstar bstar = (0 : KF) := by
  rw [opS, build_opers2, Matrix.of_apply]
  rw [(by decide : basis.get bstar = [true, false, false, false, true, false])]
  rw [← Finset.sum_subset (Finset.subset_univ ({((0 : Fin 6), (0 : Fin 6)), ((4 : Fin 6), (4 : Fin 6))} :
      Finset (Fin 6 × Fin 6))) ?hz]
  case hz =>
    intro p _ hp
    have hm : matel2 [true, false, false, false, true, false] p.1 p.2 [true, false, false, false, true, false] = 0 := by
      revert hp
      revert p
      decide
    rw [hm, Int.cast_zero, mul_zero]
  rw [Finset.sum_insert (by decide), Finset.sum_singleton]
  rw [(by decide : matel2 [true, false, false, false, true, false] 0 0 [true, false, false, false, true, false] = 1), (by decide : matel2 [true, false, false, false, true, false] 4 4 [true, false, false, false, true, false] = 1)]
  norm_num [tot_mom, orb_mom, spin_mom, get_orb_momentum, get_spin_momentum,
    Matrix.of_apply, Matrix.add_apply, l1mat, s1mat, ms,
    finval6_0, finval6_1, finval6_2, finval6_3, finval6_4, finval6_5]
  all_goals try simp [QuadExt.ext_iff, ratKF_apply, sqrt2K_apply, iK]
  all_goals try norm_num

theorem opScol_1_12 : opS 1 (⟨12, by decide⟩ : Fin basis.length) bstar = (0 : KF) := by
  rw [opS, build_opers2, Matrix.of_apply]
  rw [(by decide : basis.get (⟨12, by decide⟩ : Fin basis.length) = [true, false, false, true, false, false])]
  rw [(by decide : basis.get bstar = [true, false, false, false, true, false])]
  rw [← Finset.sum_subset (Finset.subset_univ ({((3 : Fin 6), (4 : Fin 6))} :
      Finset (Fin 6 × Fin 6))) ?hz]
  case hz =>
    intro p _ hp
    have hm : matel2 [true, false, false, true, false, false] p.1 p.2 [true, false, false, false, true, false] = 0 := by
      revert hp
      revert p
      decide
    rw [hm, Int.cast_zero, mul_zero]
  rw [Finset.sum_singleton]
  rw [(by decide : matel2 [true, false, false, true, false, false] 3 4 [true, false, false, false, true, false] = 1)]
  norm_num [tot_mom, orb_mom, spin_mom, get_orb_momentum, get_spin_momentum,
    Matrix.of_apply, Matrix.add_apply, l1mat, s1mat, ms,
    finval6_0, finval6_1, finval6_2, finval6_3, finval6_4, finval6_5]
  all_goals try simp [QuadExt.ext_iff, ratKF_apply, sqrt2K_apply, iK]
  all_goals try norm_num

theorem opScol_1_13 : opS 1 (⟨13, by decide⟩ : Fin basis.length) bstar = (0 : KF) := by
  rw [opS, build_opers2, Matrix.of_apply]
  rw [(by decide : basis.get (⟨13, by decide⟩ : Fin basis.length) = [true, false, true, false, false, false])]
  rw [(by decide : basis.get bstar = [true, false, false, false, true, false])]
  rw [← Finset.sum_subset (Finset.subset_univ ({((2 : Fin 6), (4 : Fin 6))} :
      Finset (Fin 6 × Fin 6))) ?hz]
  case hz =>
    intro p _ hp
    have hm : matel2 [true, false, true, false, false, false] p.1 p.2 [true, false, false, false, true, false] = 0 := by
      revert hp
      revert p
      decide
    rw [hm, Int.cast_zero, mul_zero]
  rw [Finset.sum_singleton]
  rw [(by decide : matel2 [true, false, true, false, false, false] 2 4 [true, false, false, false, true, false] = 1)]
  norm_num [tot_mom, orb_mom, spin_mom, get_orb_momentum, get_spin_momentum,
    Matrix.of_apply, Matrix.add_apply, l1mat, s1mat, ms,
    finval6_0, finval6_1, finval6_2, finval6_3, finval6_4, finval6_5]
  all_goals try simp [QuadExt.ext_iff, ratKF_apply, sqrt2K_apply, iK]
  all_goals try norm_num

theorem opScol_1_14 : opS 1 (⟨14, by decide⟩ : Fin basis.length) bstar = (0 : KF) := by
  rw [opS, build_opers2, Matrix.of_apply]
  rw [(by decide : basis.get (⟨14, by decide⟩ : Fin basis.length) = [true, true, false, false, false, false])]
  rw [(by decide : basis.get bstar = [true, false, false, false, true, false])]
  rw [← Finset.sum_subset (Finset.subset_univ ({((1 : Fin 6), (4 : Fin 6))} :
      Finset (Fin 6 × Fin 6))) ?hz]
  case hz =>
    intro p _ hp
    have hm : matel2 [true, true, false, false, false, false] p.1 p.2 [true, false, false, false, true, false] = 0 := by
      revert hp
      revert p
      decide
    rw [hm, Int.cast_zero, mul_zero]
  rw [Finset.sum_singleton]
  rw [(by decide : matel2 [true, true, false, false, false, false] 1 4 [true, false, false, false, true, false] = 1)]
  norm_num [tot_mom, orb_mom, spin_mom, get_orb_momentum, get_spin_momentum,
    Matrix.of_apply, Matrix.add_apply, l1mat, s1mat, ms,
    finval6_0, finval6_1, finval6_2, finval6_3, finval6_4, finval6_5]
  all_goals try simp [QuadExt.ext_iff, ratKF_apply, sqrt2K_apply, iK]
  all_goals try norm_num

theorem opSrow_1_7 : opS 1 bstar (⟨7, by decide⟩ : Fin basis.length) = (ratKF (-1 / 2 : ℚ) * iK) := by
  rw [opS, build_opers2, Matrix.of_apply]
  rw [(by decide : basis.get bstar = [true, false, false, false, true, false])]
  rw [(by decide : basis.get (⟨7, by decide⟩ : Fin basis.length) = [false, true, false, false, true, false])]
  rw [← Finset.sum_subset (Finset.subset_univ ({((0 : Fin 6), (1 : Fin 6))} :
      Finset (Fin 6 × Fin 6))) ?hz]
  case hz =>
    intro p _ hp
    have hm : matel2 [true, false, false, false, true, false] p.1 p.2 [false, true, false, false, true, false] = 0 := by
      revert hp
      revert p
      decide
    rw [hm, Int.cast_zero, mul_zero]
  rw [Finset.sum_singleton]
  rw [(by decide : matel2 [true, false, false, false, true, false] 0 1 [false, true, false, false, true, false] = 1)]
  norm_num [tot_mom, orb_mom, spin_mom, get_orb_momentum, get_spin_momentum,
    Matrix.of_apply, Matrix.add_apply, l1mat, s1mat, ms,
    finval6_0, finval6_1, finval6_2, finval6_3, finval6_4, finval6_5]
  all_goals try simp [QuadExt.ext_iff, ratKF_apply, sqrt2K_apply, iK]
  all_goals try norm_num

theorem opSrow_1_10 : opS 1 bstar (⟨10, by decide⟩ : Fin basis.length) = (ratKF (-1 / 2 : ℚ) * iK) := by
  rw [opS, build_opers2, Matrix.of_apply]
  rw [(by decide : basis.get bstar = [true, false, false, false, true, false])]
  rw [(by decide : basis.get (⟨10, by decide⟩ : Fin basis.length) = [true, false, false, false, false, true])]
  rw [← Finset.sum_subset (Finset.subset_univ ({((4 : Fin 6), (5 : Fin 6))} :
      Finset (Fin 6 × Fin 6))) ?hz]
  case hz =>
    intro p _ hp
    have hm : matel2 [true, false, false, false, true, false] p.1 p.2 [true, false, false, false, false, true] = 0 := by
      revert hp
      revert p
      decide
    rw [hm, Int.cast_zero, mul_zero]
  rw [Finset.sum_singleton]
  rw [(by decide : matel2 [true, false, false, false, true, false] 4 5 [true, false, false, false, false, true] = 1)]
  norm_num [tot_mom, orb_mom, spin_mom, get_orb_momentum, get_spin_momentum,
    Matrix.of_apply, Matrix.add_apply, l1mat, s1mat, ms,
    finval6_0, finval6_1, finval6_2, finval6_3, finval6_4, finval6_5]
  all_goals try simp [QuadExt.ext_iff, ratKF_apply, sqrt2K_apply, iK]
  all_goals try norm_num

theorem opScol_2_0 : opS 2 (⟨0, by decide⟩ : Fin basis.length) bstar = (0 : KF) := by
  rw [opS, build_opers2, Matrix.of_apply]
  rw [(by decide : basis.get (⟨0, by decide⟩ : Fin basis.length) = [false, false, false, false, true, true])]
  rw [(by decide : basis.get bstar = [true, false, false, false, true, false])]
  rw [← Finset.sum_subset (Finset.subset_univ ({((5 : Fin 6), (0 : Fin 6))} :
      Finset (Fin 6 × Fin 6))) ?hz]
  case hz =>
    intro p _ hp
    have hm : matel2 [false, false, false, false, true, true] p.1 p.2 [true, false, false, false, true, false] = 0 := by
      revert hp
      revert p
      decide
    rw [hm, Int.cast_zero, mul_zero]
  rw [Finset.sum_singleton]
  rw [(by decide : matel2 [false, false, false, false, true, true] 5 0 [true, false, false, false, true, false] = -1)]
  norm_num [tot_mom, orb_mom, spin_mom, get_orb_momentum, get_spin_momentum,
    Matrix.of_apply, Matrix.add_apply, l1mat, s1mat, ms,
    finval6_0, finval6_1, finval6_2, finval6_3, finval6_4, finval6_5]
  all_goals try simp [QuadExt.ext_iff, ratKF_apply, sqrt2K_apply, iK]
  all_goals try norm_num

theorem opScol_2_1 : opS 2 (⟨1, by decide⟩ : Fin basis.length) bstar = (0 : KF) := by
  rw [opS, build_opers2, Matrix.of_apply]
  rw [(by decide : basis.get (⟨1, by decide⟩ : Fin basis.length) = [false, false, false, true, false, true])]
  rw [(by decide : basis.get bstar = [true, false, false, false, true, false])]
  rw [← Finset.sum_subset (Finset.subset_univ (∅ :
      Finset (Fin 6 × Fin 6))) ?hz]
  case hz =>
    intro p _ hp
    have hm : matel2 [false, false, false, true, false, true] p.1 p.2 [true, false, false, false, true, false] = 0 := by
      revert hp
      revert p
      decide
    rw [hm, Int.cast_zero, mul_zero]
  rw [Finset.sum_empty]

theorem opScol_2_2 : opS 2 (⟨2, by decide⟩ : Fin basis.length) bstar = (0 : KF) := by
  rw [opS, build_opers2, Matrix.of_apply]
  rw [(by decide : basis.get (⟨2, by decide⟩ : Fin basis.length) = [false, false, false, true, true, false])]
  rw [(by decide : basis.get bstar = [true, false, false, false, true, false])]
  rw [← Finset.sum_subset (Finset.subset_univ ({((3 : Fin 6), (0 : Fin 6))} :
      Finset (Fin 6 × Fin 6))) ?hz]
  case hz =>
    intro p _ hp
    have hm : matel2 [false, false, false, true, true, false] p.1 p.2 [true, false, false, false, true, false] = 0 := by
      revert hp
      revert p
      decide
    rw [hm, Int.cast_zero, mul_zero]
  rw [Finset.sum_singleton]
  rw [(by decide : matel2 [false, false, false, true, true, false] 3 0 [true, false, false, false, true, false] = 1)]
  norm_num [tot_mom, orb_mom, spin_mom, get_orb_momentum, get_spin_momentum,
    Matrix.of_apply, Matrix.add_apply, l1mat, s1mat, ms,
    finval6_0, finval6_1, finval6_2, finval6_3, finval6_4, finval6_5]
  all_goals try simp [QuadExt.ext_iff, ratKF_apply, sqrt2K_apply, iK]
  all_goals try norm_num

theorem opScol_2_3 : opS 2 (⟨3, by decide⟩ : Fin basis.length) bstar = (0 : KF) := by
  rw [opS, build_opers2, Matrix.of_apply]
  rw [(by decide : basis.get (⟨3, by decide⟩ : Fin basis.length) = [false, false, true, false, false, true])]
  rw [(by decide : basis.get bstar = [true, false, false, false, true, false])]
  rw [← Finset.sum_subset (Finset.subset_univ (∅ :
      Finset (Fin 6 × Fin 6))) ?hz]
  case hz =>
    intro p _ hp
    have hm : matel2 [false, false, true, false, false, true] p.1 p.2 [true, false, false, false, true, false] = 0 := by
      revert hp
      revert p
      decide
    rw [hm, Int.cast_zero, mul_zero]
  rw [Finset.sum_empty]

theorem opScol_2_4 : opS 2 (⟨4, by decide⟩ : Fin basis.length) bstar = (0 : KF) := by
  rw [opS, build_opers2, Matrix.of_apply]
  rw [(by decide : basis.get (⟨4, by decide⟩ : Fin basis.length) = [false, false, true, false, true, false])]
  rw [(by decide : basis.get bstar = [true, false, false, false, true, false])]
  rw [← Finset.sum_subset (Finset.subset_univ ({((2 : Fin 6), (0 : Fin 6))} :
      Finset (Fin 6 × Fin 6))) ?hz]
  case hz =>
    intro p _ hp
    have hm : matel2 [false, false, true, false, true, false] p.1 p.2 [true, false, false, false, true, false] = 0 := by
      revert hp
      revert p
      decide
    rw [hm, Int.cast_zero, mul_zero]
  rw [Finset.sum_singleton]
  rw [(by decide : matel2 [false, false, true, false, true, false] 2 0 [true, false, false, false, true, false] = 1)]
  norm_num [tot_mom, orb_mom, spin_mom, get_orb_momentum, get_spin_momentum,
    Matrix.of_apply, Matrix.add_apply, l1mat, s1mat, ms,
    finval6_0, finval6_1, finval6_2, finval6_3, finval6_4, finval6_5]
  all_goals try simp [QuadExt.ext_iff, ratKF_apply, sqrt2K_apply, iK]
  all_goals try norm_num

theorem opScol_2_5 : opS 2 (⟨5, by decide⟩ : Fin basis.length) bstar = (0 : KF) := by
  rw [opS, build_opers2, Matrix.of_apply]
  rw [(by decide : basis.get (⟨5, by decide⟩ : Fin basis.length) = [false, false, true, true, false, false])]
  rw [(by decide : basis.get bstar = [true, false, false, false, true, false])]
  rw [← Finset.sum_subset (Finset.subset_univ (∅ :
      Finset (Fin 6 × Fin 6))) ?hz]
  case hz =>
    intro p _ hp
    have hm : matel2 [false, false, true, true, false, false] p.1 p.2 [true, false, false, false, true, false] = 0 := by
      revert hp
      revert p
      decide
    rw [hm, Int.cast_zero, mul_zero]
  rw [Finset.sum_empty]

theorem opScol_2_6 : opS 2 (⟨6, by decide⟩ : Fin basis.length) bstar = (0 : KF) := by
  rw [opS, build_opers2, Matrix.of_apply]
  rw [(by decide : basis.get (⟨6, by decide⟩ : Fin basis.length) = [false, true, false, false, false, true])]
  rw [(by decide : basis.get bstar = [true, false, false, false, true, false])]
  rw [← Finset.sum_subset (Finset.subset_univ (∅ :
      Finset (Fin 6 × Fin 6))) ?hz]
  case hz =>
    intro p _ hp
    have hm : matel2 [false, true, false, false, false, true] p.1 p.2 [true, false, false, false, true, false] = 0 := by
      revert hp
      revert p
      decide
    rw [hm, Int.cast_zero, mul_zero]
  rw [Finset.sum_empty]

theorem opScol_2_7 : opS 2 (⟨7, by decide⟩ : Fin basis.length) bstar = (0 : KF) := by
  rw [opS, build_opers2, Matrix.of_apply]
  rw [(by decide : basis.get (⟨7, by decide⟩ : Fin basis.length) = [false, true, false, false, true, false])]
  rw [(by decide : basis.get bstar = [true, false, false, false, true, false])]
  rw [← Finset.sum_subset (Finset.subset_univ ({((1 : Fin 6), (0 : Fin 6))} :
      Finset (Fin 6 × Fin 6))) ?hz]
  case hz =>
    intro p _ hp
    have hm : matel2 [false, true, false, false, true, false] p.1 p.2 [true, false, false, false, true, false] = 0 := by
      revert hp
      revert p
      decide
    rw [hm, Int.cast_zero, mul_zero]
  rw [Finset.sum_singleton]
  rw [(by decide : matel2 [false, true, false, false, true, false] 1 0 [true, false, false, false, true, false] = 1)]
  norm_num [tot_mom, orb_mom, spin_mom, get_orb_momentum, get_spin_momentum,
    Matrix.of_apply, Matrix.add_apply, l1mat, s1mat, ms,
    finval6_0, finval6_1, finval6_2, finval6_3, finval6_4, finval6_5]
  all_goals try simp [QuadExt.ext_iff, ratKF_apply, sqrt2K_apply, iK]
  all_goals try norm_num

theorem opScol_2_8 : opS 2 (⟨8, by decide⟩ : Fin basis.length) bstar = (0 : KF) := by
  rw [opS, build_opers2, Matrix.of_apply]
  rw [(by decide : basis.get (⟨8, by decide⟩ : Fin basis.length) = [false, true, false, true, false, false])]
  rw [(by decide : basis.get bstar = [true, false, false, false, true, false])]
  rw [← Finset.sum_subset (Finset.subset_univ (∅ :
      Finset (Fin 6 × Fin 6))) ?hz]
  case hz =>
    intro p _ hp
    have hm : matel2 [false, true, false, true, false, false] p.1 p.2 [true, false, false, false, true, false] = 0 := by
      revert hp
      revert p
      decide
    rw [hm, Int.cast_zero, mul_zero]
  rw [Finset.sum_empty]

theorem opScol_2_9 : opS 2 (⟨9, by decide⟩ : Fin basis.length) bstar = (0 : KF) := by
  rw [opS, build_opers2, Matrix.of_apply]
  rw [(by decide : basis.get (⟨9, by decide⟩ : Fin basis.length) = [false, true, true, false, false, false])]
  rw [(by decide : basis.get bstar = [true, false, false, false, true, false])]
  rw [← Finset.sum_subset (Finset.subset_univ (∅ :
      Finset (Fin 6 × Fin 6))) ?hz]
  case hz =>
    intro p _ hp
    have hm : matel2 [false, true, true, false, false, false] p.1 p.2 [true, false, false, false, true, false] = 0 := by
      revert hp
      revert p
      decide
    rw [hm, Int.cast_zero, mul_zero]
  rw [Finset.sum_empty]

theorem opScol_2_10 : opS 2 (⟨10, by decide⟩ : Fin basis.length) bstar = (0 : KF) := by
  rw [opS, build_opers2, Matrix.of_apply]
  rw [(by decide : basis.get (⟨10, by decide⟩ : Fin basis.length) = [true, false, false, false, false, true])]
  rw [(by decide : basis.get bstar = [true, false, false, false, true, false])]
  rw [← Finset.sum_subset (Finset.subset_univ ({((5 : Fin 6), (4 : Fin 6))} :
      Finset (Fin 6 × Fin 6))) ?hz]
  case hz =>
    intro p _ hp
    have hm : matel2 [true, false, false, false, false, true] p.1 p.2 [true, false, false, false, true, false] = 0 := by
      revert hp
      revert p
      decide
    rw [hm, Int.cast_zero, mul_zero]
  rw [Finset.sum_singleton]
  rw [(by decide : matel2 [true, false, false, false, false, true] 5 4 [true, false, false, false, true, false] = 1)]
  norm_num [tot_mom, orb_mom, spin_mom, get_orb_momentum, get_spin_momentum,
    Matrix.of_apply, Matrix.add_apply, l1mat, s1mat, ms,
    finval6_0, finval6_1, finval6_2, finval6_3, finval6_4, finval6_5]
  all_goals try simp [QuadExt.ext_iff, ratKF_apply, sqrt2K_apply, iK]
  all_goals try norm_num

theorem opScol_2_11 : opS 2 bstar bstar = (ratKF (1 : ℚ)) := by
  rw [opS, build_opers2, Matrix.of_apply]
  rw [(by decide : basis.get bstar = [true, false, false, false, true, false])]
  rw [← Finset.sum_subset (Finset.subset_univ ({((0 : Fin 6), (0 : Fin 6)), ((4 : Fin 6), (4 : Fin 6))} :
      Finset (Fin 6 × Fin 6))) ?hz]
  case hz =>
    intro p _ hp
    have hm : matel2 [true, false, false, false, true, false] p.1 p.2 [true, false, false, false, true, false] = 0 := by
      revert hp
      revert p
      decide
    rw [hm, Int.cast_zero, mul_zero]
  rw [Finset.sum_insert (by decide), Finset.sum_singleton]
  rw [(by decide : matel2 [true, false, false, false, true, false] 0 0 [true, false, false, false, true, false] = 1), (by decide : matel2 [true, false, false, false, true, false] 4 4 [true, false, false, false, true, false] = 1)]
  norm_num [tot_mom, orb_mom, spin_mom, get_orb_momentum, get_spin_momentum,
    Matrix.of_apply, Matrix.add_apply, l1mat, s1mat, ms,
    finval6_0, finval6_1, finval6_2, finval6_3, finval6_4, finval6_5]
  all_goals try simp [QuadExt.ext_iff, ratKF_apply, sqrt2K_apply, iK]
  all_goals try norm_num

theorem opScol_2_12 : opS 2 (⟨12, by decide⟩ : Fin basis.length) bstar = (0 : KF) := by
  rw [opS, build_opers2, Matrix.of_apply]
  rw [(by decide : basis.get (⟨12, by decide⟩ : Fin basis.length) = [true, false, false, true, false, false])]
  rw [(by decide : basis.get bstar = [true, false, false, false, true, false])]
  rw [← Finset.sum_subset (Finset.subset_univ ({((3 : Fin 6), (4 : Fin 6))} :
      Finset (Fin 6 × Fin 6))) ?hz]
  case hz =>
    intro p _ hp
    have hm : matel2 [true, false, false, true, false, false] p.1 p.2 [true, false, false, false, true, false] = 0 := by
      revert hp
      revert p
      decide
    rw [hm, Int.cast_zero, mul_zero]
  rw [Finset.sum_singleton]
  rw [(by decide : matel2 [true, false, false, true, false, false] 3 4 [true, false, false, false, true, false] = 1)]
  norm_num [tot_mom, orb_mom, spin_mom, get_orb_momentum, get_spin_momentum,
    Matrix.of_apply, Matrix.add_apply, l1mat, s1mat, ms,
    finval6_0, finval6_1, finval6_2, finval6_3, finval6_4, finval6_5]
  all_goals try simp [QuadExt.ext_iff, ratKF_apply, sqrt2K_apply, iK]
  all_goals try norm_num

theorem opScol_2_13 : opS 2 (⟨13, by decide⟩ : Fin basis.length) bstar = (0 : KF) := by
  rw [opS, build_opers2, Matrix.of_apply]
  rw [(by decide : basis.get (⟨13, by decide⟩ : Fin basis.length) = [true, false, true, false, false, false])]
  rw [(by decide : basis.get bstar = [true, false, false, false, true, false])]
  rw [← Finset.sum_subset (Finset.subset_univ ({((2 : Fin 6), (4 : Fin 6))} :
      Finset (Fin 6 × Fin 6))) ?hz]
  case hz =>
    intro p _ hp
    have hm : matel2 [true, false, true, false, false, false] p.1 p.2 [true, false, false, false, true, false] = 0 := by
      revert hp
      revert p
      decide
    rw [hm, Int.cast_zero, mul_zero]
  rw [Finset.sum_singleton]
  rw [(by decide : matel2 [true, false, true, false, false, false] 2 4 [true, false, false, false, true, false] = 1)]
  norm_num [tot_mom, orb_mom, spin_mom, get_orb_momentum, get_spin_momentum,
    Matrix.of_apply, Matrix.add_apply, l1mat, s1mat, ms,
    finval6_0, finval6_1, finval6_2, finval6_3, finval6_4, finval6_5]
  all_goals try simp [QuadExt.ext_iff, ratKF_apply, sqrt2K_apply, iK]
  all_goals try norm_num

theorem opScol_2_14 : opS 2 (⟨14, by decide⟩ : Fin basis.length) bstar = (0 : KF) := by
  rw [opS, build_opers2, Matrix.of_apply]
  rw [(by decide : basis.get (⟨14, by decide⟩ : Fin basis.length) = [true, true, false, false, false, false])]
  rw [(by decide : basis.get bstar = [true, false, false, false, true, false])]
  rw [← Finset.sum_subset (Finset.subset_univ ({((1 : Fin 6), (4 : Fin 6))} :
      Finset (Fin 6 × Fin 6))) ?hz]
  case hz =>
    intro p _ hp
    have hm : matel2 [true, true, false, false, false, false] p.1 p.2 [true, false, false, false, true, false] = 0 := by
      revert hp
      revert p
      decide
    rw [hm, Int.cast_zero, mul_zero]
  rw [Finset.sum_singleton]
  rw [(by decide : matel2 [true, true, false, false, false, false] 1 4 [true, false, false, false, true, false] = 1)]
  norm_num [tot_mom, orb_mom, spin_mom, get_orb_momentum, get_spin_momentum,
    Matrix.of_apply, Matrix.add_apply, l1mat, s1mat, ms,
    finval6_0, finval6_1, finval6_2, finval6_3, finval6_4, finval6_5]
  all_goals try simp [QuadExt.ext_iff, ratKF_apply, sqrt2K_apply, iK]
  all_goals try norm_num

theorem opJcol_0_0 : opJ 0 (⟨0, by decide⟩ : Fin basis.length) bstar = (0 : KF) := by
  rw [opJ, build_opers2, Matrix.of_apply]
  rw [(by decide : basis.get (⟨0, by decide⟩ : Fin basis.length) = [false, false, false, false, true, true])]
  rw [(by decide : basis.get bstar = [true, false, false, false, true, false])]
  rw [← Finset.sum_subset (Finset.subset_univ ({((5 : Fin 6), (0 : Fin 6))} :
      Finset (Fin 6 × Fin 6))) ?hz]
  case hz =>
    intro p _ hp
    have hm : matel2 [false, false, false, false, true, true] p.1 p.2 [true, false, false, false, true, false] = 0 := by
      revert hp
      revert p
      decide
    rw [hm, Int.cast_zero, mul_zero]
  rw [Finset.sum_singleton]
  rw [(by decide : matel2 [false, false, false, false, true, true] 5 0 [true, false, false, false, true, false] = -1)]
  norm_num [tot_mom, orb_mom, spin_mom, get_orb_momentum, get_spin_momentum,
    Matrix.of_apply, Matrix.add_apply, l1mat, s1mat, ms,
    finval6_0, finval6_1, finval6_2, finval6_3, finval6_4, finval6_5]
  all_goals try simp [QuadExt.ext_iff, ratKF_apply, sqrt2K_apply, iK]
  all_goals try norm_num

theorem opJcol_0_1 : opJ 0 (⟨1, by decide⟩ : Fin basis.length) bstar = (0 : KF) := by
  rw [opJ, build_opers2, Matrix.of_apply]
  rw [(by decide : basis.get (⟨1, by decide⟩ : Fin basis.length) = [false, false, false, true, false, true])]
  rw [(by decide : basis.get bstar = [true, false, false, false, true, false])]
  rw [← Finset.sum_subset (Finset.subset_univ (∅ :
      Finset (Fin 6 × Fin 6))) ?hz]
  case hz =>
    intro p _ hp
    have hm : matel2 [false, false, false, true, false, true] p.1 p.2 [true, false, false, false, true, false] = 0 := by
      revert hp
      revert p
      decide
    rw [hm, Int.cast_zero, mul_zero]
  rw [Finset.sum_empty]

theorem opJcol_0_2 : opJ 0 (⟨2, by decide⟩ : Fin basis.length) bstar = (0 : KF) := by
  rw [opJ, build_opers2, Matrix.of_apply]
  rw [(by decide : basis.get (⟨2, by decide⟩ : Fin basis.length) = [false, false, false, true, true, false])]
  rw [(by decide : basis.get bstar = [true, false, false, false, true, false])]
  rw [← Finset.sum_subset (Finset.subset_univ ({((3 : Fin 6), (0 : Fin 6))} :
      Finset (Fin 6 × Fin 6))) ?hz]
  case hz =>
    intro p _ hp
    have hm : matel2 [false, false, false, true, true, false] p.1 p.2 [true, false, false, false, true, false] = 0 := by
      revert hp
      revert p
      decide
    rw [hm, Int.cast_zero, mul_zero]
  rw [Finset.sum_singleton]
  rw [(by decide : matel2 [false, false, false, true, true, false] 3 0 [true, false, false, false, true, false] = 1)]
  norm_num [tot_mom, orb_mom, spin_mom, get_orb_momentum, get_spin_momentum,
    Matrix.of_apply, Matrix.add_apply, l1mat, s1mat, ms,
    finval6_0, finval6_1, finval6_2, finval6_3, finval6_4, finval6_5]
  all_goals try simp [QuadExt.ext_iff, ratKF_apply, sqrt2K_apply, iK]
  all_goals try norm_num

theorem opJcol_0_3 : opJ 0 (⟨3, by decide⟩ : Fin basis.length) bstar = (0 : KF) := by
  rw [opJ, build_opers2, Matrix.of_apply]
  rw [(by decide : basis.get (⟨3, by decide⟩ : Fin basis.length) = [false, false, true, false, false, true])]
  rw [(by decide : basis.get bstar = [true, false, false, false, true, false])]
  rw [← Finset.sum_subset (Finset.subset_univ (∅ :
      Finset (Fin 6 × Fin 6))) ?hz]
  case hz =>
    intro p _ hp
    have hm : matel2 [false, false, true, false, false, true] p.1 p.2 [true, false, false, false, true, false] = 0 := by
      revert hp
      revert p
      decide
    rw [hm, Int.cast_zero, mul_zero]
  rw [Finset.sum_empty]

theorem opJcol_0_4 : opJ 0 (⟨4, by decide⟩ : Fin basis.length) bstar = (ratKF (1 / 2 : ℚ) * sqrt2K) := by
  rw [opJ, build_opers2, Matrix.of_apply]
  rw [(by decide : basis.get (⟨4, by decide⟩ : Fin basis.length) = [false, false, true, false, true, false])]
  rw [(by decide : basis.get bstar = [true, false, false, false, true, false])]
  rw [← Finset.sum_subset (Finset.subset_univ ({((2 : Fin 6), (0 : Fin 6))} :
      Finset (Fin 6 × Fin 6))) ?hz]
  case hz =>
    intro p _ hp
    have hm : matel2 [false, false, true, false, true, false] p.1 p.2 [true, false, false, false, true, false] = 0 := by
      revert hp
      revert p
      decide
    rw [hm, Int.cast_zero, mul_zero]
  rw [Finset.sum_singleton]
  rw [(by decide : matel2 [false, false, true, false, true, false] 2 0 [true, false, false, false, true, false] = 1)]
  norm_num [tot_mom, orb_mom, spin_mom, get_orb_momentum, get_spin_momentum,
    Matrix.of_apply, Matrix.add_apply, l1mat, s1mat, ms,
    finval6_0, finval6_1, finval6_2, finval6_3, finval6_4, finval6_5]
  all_goals try simp [QuadExt.ext_iff, ratKF_apply, sqrt2K_apply, iK]
  all_goals try norm_num

theorem opJcol_0_5 : opJ 0 (⟨5, by decide⟩ : Fin basis.length) bstar = (0 : KF) := by
  rw [opJ, build_opers2, Matrix.of_apply]
  rw [(by decide : basis.get (⟨5, by decide⟩ : Fin basis.length) = [false, false, true, true, false, false])]
  rw [(by decide : basis.get bstar = [true, false, false, false, true, false])]
  rw [← Finset.sum_subset (Finset.subset_univ (∅ :
      Finset (Fin 6 × Fin 6))) ?hz]
  case hz =>
    intro p _ hp
    have hm : matel2 [false, false, true, true, false, false] p.1 p.2 [true, false, false, false, true, false] = 0 := by
      revert hp
      revert p
      decide
    rw [hm, Int.cast_zero, mul_zero]
  rw [Finset.sum_empty]

theorem opJcol_0_6 : opJ 0 (⟨6, by decide⟩ : Fin basis.length) bstar = (0 : KF) := by
  rw [opJ, build_opers2, Matrix.of_apply]
  rw [(by decide : basis.get (⟨6, by decide⟩ : Fin basis.length) = [false, true, false, false, false, true])]
  rw [(by decide : basis.get bstar = [true, false, false, false, true, false])]
  rw [← Finset.sum_subset (Finset.subset_univ (∅ :
      Finset (Fin 6 × Fin 6))) ?hz]
  case hz =>
    intro p _ hp
    have hm : matel2 [false, true, false, false, false, true] p.1 p.2 [true, false, false, false, true, false] = 0 := by
      revert hp
      revert p
      decide
    rw [hm, Int.cast_zero, mul_zero]
  rw [Finset.sum_empty]

theorem opJcol_0_7 : opJ 0 (⟨7, by decide⟩ : Fin basis.length) bstar = (ratKF (1 / 2 : ℚ)) := by
  rw [opJ, build_opers2, Matrix.of_apply]
  rw [(by decide : basis.get (⟨7, by decide⟩ : Fin basis.length) = [false, true, false, false, true, false])]
  rw [(by decide : basis.get bstar = [true, false, false, false, true, false])]
  rw [← Finset.sum_subset (Finset.subset_univ ({((1 : Fin 6), (0 : Fin 6))} :
      Finset (Fin 6 × Fin 6))) ?hz]
  case hz =>
    intro p _ hp
    have hm : matel2 [false, true, false, false, true, false] p.1 p.2 [true, false, false, false, true, false] = 0 := by
      revert hp
      revert p
      decide
    rw [hm, Int.cast_zero, mul_zero]
  rw [Finset.sum_singleton]
  rw [(by decide : matel2 [false, true, false, false, true, false] 1 0 [true, false, false, false, true, false] = 1)]
  norm_num [tot_mom, orb_mom, spin_mom, get_orb_momentum, get_spin_momentum,
    Matrix.of_apply, Matrix.add_apply, l1mat, s1mat, ms,
    finval6_0, finval6_1, finval6_2, finval6_3, finval6_4, finval6_5]
  all_goals try simp [QuadExt.ext_iff, ratKF_apply, sqrt2K_apply, iK]
  all_goals try norm_num

theorem opJcol_0_8 : opJ 0 (⟨8, by decide⟩ : Fin basis.length) bstar = (0 : KF) := by
  rw [opJ, build_opers2, Matrix.of_apply]
  rw [(by decide : basis.get (⟨8, by decide⟩ : Fin basis.length) = [false, true, false, true, false, false])]
  rw [(by decide : basis.get bstar = [true, false, false, false, true, false])]
  rw [← Finset.sum_subset (Finset.subset_univ (∅ :
      Finset (Fin 6 × Fin 6))) ?hz]
  case hz =>
    intro p _ hp
    have hm : matel2 [false, true, false, true, false, false] p.1 p.2 [true, false, false, false, true, false] = 0 := by
      revert hp
      revert p
      decide
    rw [hm, Int.cast_zero, mul_zero]
  rw [Finset.sum_empty]

theorem opJcol_0_9 : opJ 0 (⟨9, by decide⟩ : Fin basis.length) bstar = (0 : KF) := by
  rw [opJ, build_opers2, Matrix.of_apply]
  rw [(by decide : basis.get (⟨9, by decide⟩ : Fin basis.length) = [false, true, true, false, false, false])]
  rw [(by decide : basis.get bstar = [true, false, false, false, true, false])]
  rw [← Finset.sum_subset (Finset.subset_univ (∅ :
      Finset (Fin 6 × Fin 6))) ?hz]
  case hz =>
    intro p _ hp
    have hm : matel2 [false, true, true, false, false, false] p.1 p.2 [true, false, false, false, true, false] = 0 := by
      revert hp
      revert p
      decide
    rw [hm, Int.cast_zero, mul_zero]
  rw [Finset.sum_empty]

theorem opJcol_0_10 : opJ 0 (⟨10, by decide⟩ : Fin basis.length) bstar = (ratKF (1 / 2 : ℚ)) := by
  rw [opJ, build_opers2, Matrix.of_apply]
  rw [(by decide : basis.get (⟨10, by decide⟩ : Fin basis.length) = [true, false, false, false, false, true])]
  rw [(by decide : basis.get bstar = [true, false, false, false, true, false])]
  rw [← Finset.sum_subset (Finset.subset_univ ({((5 : Fin 6), (4 : Fin 6))} :
      Finset (Fin 6 × Fin 6))) ?hz]
  case hz =>
    intro p _ hp
    have hm : matel2 [true, false, false, false, false, true] p.1 p.2 [true, false, false, false, true, false] = 0 := by
      revert hp
      revert p
      decide
    rw [hm, Int.cast_zero, mul_zero]
  rw [Finset.sum_singleton]
  rw [(by decide : matel2 [true, false, false, false, false, true] 5 4 [true, false, false, false, true, false] = 1)]
  norm_num [tot_mom, orb_mom, spin_mom, get_orb_momentum, get_spin_momentum,
    Matrix.of_apply, Matrix.add_apply, l1mat, s1mat, ms,
    finval6_0, finval6_1, finval6_2, finval6_3, finval6_4, finval6_5]
  all_goals try simp [QuadExt.ext_iff, ratKF_apply, sqrt2K_apply, iK]
  all_goals try norm_num

theorem opJcol_0_11 : opJ 0 bstar bstar = (0 : KF) := by
  rw [opJ, build_opers2, Matrix.of_apply]
  rw [(by decide : basis.get bstar = [true, false, false, false, true, false])]
  rw [← Finset.sum_subset (Finset.subset_univ ({((0 : Fin 6), (0 : Fin 6)), ((4 : Fin 6), (4 : Fin 6))} :
      Finset (Fin 6 × Fin 6))) ?hz]
  case hz =>
    intro p _ hp
    have hm : matel2 [true, false, false, false, true, false] p.1 p.2 [true, false, false, false, true, false] = 0 := by
      revert hp
      revert p
      decide
    rw [hm, Int.cast_zero, mul_zero]
  rw [Finset.sum_insert (by decide), Finset.sum_singleton]
  rw [(by decide : matel2 [true, false, false, false, true, false] 0 0 [true, false, false, false, true, false] = 1), (by decide : matel2 [true, false, false, false, true, false] 4 4 [true, false, false, false, true, false] = 1)]
  norm_num [tot_mom, orb_mom, spin_mom, get_orb_momentum, get_spin_momentum,
    Matrix.of_apply, Matrix.add_apply, l1mat, s1mat, ms,
    finval6_0, finval6_1, finval6_2, finval6_3, finval6_4, finval6_5]
  all_goals try simp [QuadExt.ext_iff, ratKF_apply, sqrt2K_apply, iK]
  all_goals try norm_num

theorem opJcol_0_12 : opJ 0 (⟨12, by decide⟩ : Fin basis.length) bstar = (0 : KF) := by
  rw [opJ, build_opers2, Matrix.of_apply]
  rw [(by decide : basis.get (⟨12, by decide⟩ : Fin basis.length) = [true, false, false, true, false, false])]
  rw [(by decide : basis.get bstar = [true, false, false, false, true, false])]
  rw [← Finset.sum_subset (Finset.subset_univ ({((3 : Fin 6), (4 : Fin 6))} :
      Finset (Fin 6 × Fin 6))) ?hz]
  case hz =>
    intro p _ hp
    have hm : matel2 [true, false, false, true, false, false] p.1 p.2 [true, false, false, false, true, false] = 0 := by
      revert hp
      revert p
      decide
    rw [hm, Int.cast_zero, mul_zero]
  rw [Finset.sum_singleton]
  rw [(by decide : matel2 [true, false, false, true, false, false] 3 4 [true, false, false, false, true, false] = 1)]
  norm_num [tot_mom, orb_mom, spin_mom, get_orb_momentum, get_spin_momentum,
    Matrix.of_apply, Matrix.add_apply, l1mat, s1mat, ms,
    finval6_0, finval6_1, finval6_2, finval6_3, finval6_4, finval6_5]
  all_goals try simp [QuadExt.ext_iff, ratKF_apply, sqrt2K_apply, iK]
  all_goals try norm_num

theorem opJcol_0_13 : opJ 0 (⟨13, by decide⟩ : Fin basis.length) bstar = (ratKF (1 / 2 : ℚ) * sqrt2K) := by
  rw [opJ, build_opers2, Matrix.of_apply]
  rw [(by decide : basis.get (⟨13, by decide⟩ : Fin basis.length) = [true, false, true, false, false, false])]
  rw [(by decide : basis.get bstar = [true, false, false, false, true, false])]
  rw [← Finset.sum_subset (Finset.subset_univ ({((2 : Fin 6), (4 : Fin 6))} :
      Finset (Fin 6 × Fin 6))) ?hz]
  case hz =>
    intro p _ hp
    have hm : matel2 [true, false, true, false, false, false] p.1 p.2 [true, false, false, false, true, false] = 0 := by
      revert hp
      revert p
      decide
    rw [hm, Int.cast_zero, mul_zero]
  rw [Finset.sum_singleton]
  rw [(by decide : matel2 [true, false, true, false, false, false] 2 4 [true, false, false, false, true, false] = 1)]
  norm_num [tot_mom, orb_mom, spin_mom, get_orb_momentum, get_spin_momentum,
    Matrix.of_apply, Matrix.add_apply, l1mat, s1mat, ms,
    finval6_0, finval6_1, finval6_2, finval6_3, finval6_4, finval6_5]
  all_goals try simp [QuadExt.ext_iff, ratKF_apply, sqrt2K_apply, iK]
  all_goals try norm_num

theorem opJcol_0_14 : opJ 0 (⟨14, by decide⟩ : Fin basis.length) bstar = (0 : KF) := by
  rw [opJ, build_opers2, Matrix.of_apply]
  rw [(by decide : basis.get (⟨14, by decide⟩ : Fin basis.length) = [true, true, false, false, false, false])]
  rw [(by decide : basis.get bstar = [true, false, false, false, true, false])]
  rw [← Finset.sum_subset (Finset.subset_univ ({((1 : Fin 6), (4 : Fin 6))} :
      Finset (Fin 6 × Fin 6))) ?hz]
  case hz =>
    intro p _ hp
    have hm : matel2 [true, true, false, false, false, false] p.1 p.2 [true, false, false, false, true, false] = 0 := by
      revert hp
      revert p
      decide
    rw [hm, Int.cast_zero, mul_zero]
  rw [Finset.sum_singleton]
  rw [(by decide : matel2 [true, true, false, false, false, false] 1 4 [true, false, false, false, true, false] = 1)]
  norm_num [tot_mom, orb_mom, spin_mom, get_orb_momentum, get_spin_momentum,
    Matrix.of_apply, Matrix.add_apply, l1mat, s1mat, ms,
    finval6_0, finval6_1, finval6_2, finval6_3, finval6_4, finval6_5]
  all_goals try simp [QuadExt.ext_iff, ratKF_apply, sqrt2K_apply, iK]
  all_goals try norm_num

theorem opJrow_0_4 : opJ 0 bstar (⟨4, by decide⟩ : Fin basis.length) = (ratKF (1 / 2 : ℚ) * sqrt2K) := by
  rw [opJ, build_opers2, Matrix.of_apply]
  rw [(by decide : basis.get bstar = [true, false, false, false, true, false])]
  rw [(by decide : basis.get (⟨4, by decide⟩ : Fin basis.length) = [false, false, true, false, true, false])]
  rw [← Finset.sum_subset (Finset.subset_univ ({((0 : Fin 6), (2 : Fin 6))} :
      Finset (Fin 6 × Fin 6))) ?hz]
  case hz =>
    intro p _ hp
    have hm : matel2 [true, false, false, false, true, false] p.1 p.2 [false, false, true, false, true, false] = 0 := by
      revert hp
      revert p
      decide
    rw [hm, Int.cast_zero, mul_zero]
  rw [Finset.sum_singleton]
  rw [(by decide : matel2 [true, false, false, false, true, false] 0 2 [false, false, true, false, true, false] = 1)]
  norm_num [tot_mom, orb_mom, spin_mom, get_orb_momentum, get_spin_momentum,
    Matrix.of_apply, Matrix.add_apply, l1mat, s1mat, ms,
    finval6_0, finval6_1, finval6_2, finval6_3, finval6_4, finval6_5]
  all_goals try simp [QuadExt.ext_iff, ratKF_apply, sqrt2K_apply, iK]
  all_goals try norm_num

theorem opJrow_0_7 : opJ 0 bstar (⟨7, by decide⟩ : Fin basis.length) = (ratKF (1 / 2 : ℚ)) := by
  rw [opJ, build_opers2, Matrix.of_apply]
  rw [(by decide : basis.get bstar = [true, false, false, false, true, false])]
  rw [(by decide : basis.get (⟨7, by decide⟩ : Fin basis.length) = [false, true, false, false, true, false])]
  rw [← Finset.sum_subset (Finset.subset_univ ({((0 : Fin 6), (1 : Fin 6))} :
      Finset (Fin 6 × Fin 6))) ?hz]
  case hz =>
    intro p _ hp
    have hm : matel2 [true, false, false, false, true, false] p.1 p.2 [false, true, false, false, true, false] = 0 := by
      revert hp
      revert p
      decide
    rw [hm, Int.cast_zero, mul_zero]
  rw [Finset.sum_singleton]
  rw [(by decide : matel2 [true, false, false, false, true, false] 0 1 [false, true, false, false, true, false] = 1)]
  norm_num [tot_mom, orb_mom, spin_mom, get_orb_momentum, get_spin_momentum,
    Matrix.of_apply, Matrix.add_apply, l1mat, s1mat, ms,
    finval6_0, finval6_1, finval6_2, finval6_3, finval6_4, finval6_5]
  all_goals try simp [QuadExt.ext_iff, ratKF_apply, sqrt2K_apply, iK]
  all_goals try norm_num

theorem opJrow_0_10 : opJ 0 bstar (⟨10, by decide⟩ : Fin basis.length) = (ratKF (1 / 2 : ℚ)) := by
  rw [opJ, build_opers2, Matrix.of_apply]
  rw [(by decide : basis.get bstar = [true, false, false, false, true, false])]
  rw [(by decide : basis.get (⟨10, by decide⟩ : Fin basis.length) = [true, false, false, false, false, true])]
  rw [← Finset.sum_subset (Finset.subset_univ ({((4 : Fin 6), (5 : Fin 6))} :
      Finset (Fin 6 × Fin 6))) ?hz]
  case hz =>
    intro p _ hp
    have hm : matel2 [true, false, false, false, true, false] p.1 p.2 [true, false, false, false, false, true] = 0 := by
      revert hp
      revert p
      decide
    rw [hm, Int.cast_zero, mul_zero]
  rw [Finset.sum_singleton]
  rw [(by decide : matel2 [true, false, false, false, true, false] 4 5 [true, false, false, false, false, true] = 1)]
  norm_num [tot_mom, orb_mom, spin_mom, get_orb_momentum, get_spin_momentum,
    Matrix.of_apply, Matrix.add_apply, l1mat, s1mat, ms,
    finval6_0, finval6_1, finval6_2, finval6_3, finval6_4, finval6_5]
  all_goals try simp [QuadExt.ext_iff, ratKF_apply, sqrt2K_apply, iK]
  all_goals try norm_num

theorem opJrow_0_13 : opJ 0 bstar (⟨13, by decide⟩ : Fin basis.length) = (ratKF (1 / 2 : ℚ) * sqrt2K) := by
  rw [opJ, build_opers2, Matrix.of_apply]
  rw [(by decide : basis.get bstar = [true, false, false, false, true, false])]
  rw [(by decide : basis.get (⟨13, by decide⟩ : Fin basis.length) = [true, false, true, false, false, false])]
  rw [← Finset.sum_subset (Finset.subset_univ ({((4 : Fin 6), (2 : Fin 6))} :
      Finset (Fin 6 × Fin 6))) ?hz]
  case hz =>
    intro p _ hp
    have hm : matel2 [true, false, false, false, true, false] p.1 p.2 [true, false, true, false, false, false] = 0 := by
      revert hp
      revert p
      decide
    rw [hm, Int.cast_zero, mul_zero]
  rw [Finset.sum_singleton]
  rw [(by decide : matel2 [true, false, false, false, true, false] 4 2 [true, false, true, false, false, false] = 1)]
  norm_num [tot_mom, orb_mom, spin_mom, get_orb_momentum, get_spin_momentum,
    Matrix.of_apply, Matrix.add_apply, l1mat, s1mat, ms,
    finval6_0, finval6_1, finval6_2, finval6_3, finval6_4, finval6_5]
  all_goals try simp [QuadExt.ext_iff, ratKF_apply, sqrt2K_apply, iK]
  all_goals try norm_num

theorem opJcol_1_0 : opJ 1 (⟨0, by decide⟩ : Fin basis.length) bstar = (0 : KF) := by
  rw [opJ, build_opers2, Matrix.of_apply]
  rw [(by decide : basis.get (⟨0, by decide⟩ : Fin basis.length) = [false, false, false, false, true, true])]
  rw [(by decide : basis.get bstar = [true, false, false, false, true, false])]
  rw [← Finset.sum_subset (Finset.subset_univ ({((5 : Fin 6), (0 : Fin 6))} :
      Finset (Fin 6 × Fin 6))) ?hz]
  case hz =>
    intro p _ hp
    have hm : matel2 [false, false, false, false, true, true] p.1 p.2 [true, false, false, false, true, false] = 0 := by
      revert hp
      revert p
      decide
    rw [hm, Int.cast_zero, mul_zero]
  rw [Finset.sum_singleton]
  rw [(by decide : matel2 [false, false, false, false, true, true] 5 0 [true, false, false, false, true, false] = -1)]
  norm_num [tot_mom, orb_mom, spin_mom, get_orb_momentum, get_spin_momentum,
    Matrix.of_apply, Matrix.add_apply, l1mat, s1mat, ms,
    finval6_0, finval6_1, finval6_2, finval6_3, finval6_4, finval6_5]
  all_goals try simp [QuadExt.ext_iff, ratKF_apply, sqrt2K_apply, iK]
  all_goals try norm_num

theorem opJcol_1_1 : opJ 1 (⟨1, by decide⟩ : Fin basis.length) bstar = (0 : KF) := by
  rw [opJ, build_opers2, Matrix.of_apply]
  rw [(by decide : basis.get (⟨1, by decide⟩ : Fin basis.length) = [false, false, false, true, false, true])]
  rw [(by decide : basis.get bstar = [true, false, false, false, true, false])]
  rw [← Finset.sum_subset (Finset.subset_univ (∅ :
      Finset (Fin 6 × Fin 6))) ?hz]
  case hz =>
    intro p _ hp
    have hm : matel2 [false, false, false, true, false, true] p.1 p.2 [true, false, false, false, true, false] = 0 := by
      revert hp
      revert p
      decide
    rw [hm, Int.cast_zero, mul_zero]
  rw [Finset.sum_empty]

theorem opJcol_1_2 : opJ 1 (⟨2, by decide⟩ : Fin basis.length) bstar = (0 : KF) := by
  rw [opJ, build_opers2, Matrix.of_apply]
  rw [(by decide : basis.get (⟨2, by decide⟩ : Fin basis.length) = [false, false, false, true, true, false])]
  rw [(by decide : basis.get bstar = [true, false, false, false, true, false])]
  rw [← Finset.sum_subset (Finset.subset_univ ({((3 : Fin 6), (0 : Fin 6))} :
      Finset (Fin 6 × Fin 6))) ?hz]
  case hz =>
    intro p _ hp
    have hm : matel2 [false, false, false, true, true, false] p.1 p.2 [true, false, false, false, true, false] = 0 := by
      revert hp
      revert p
      decide
    rw [hm, Int.cast_zero, mul_zero]
  rw [Finset.sum_singleton]
  rw [(by decide : matel2 [false, false, false, true, true, false] 3 0 [true, false, false, false, true, false] = 1)]
  norm_num [tot_mom, orb_mom, spin_mom, get_orb_momentum, get_spin_momentum,
    Matrix.of_apply, Matrix.add_apply, l1mat, s1mat, ms,
    finval6_0, finval6_1, finval6_2, finval6_3, finval6_4, finval6_5]
  all_goals try simp [QuadExt.ext_iff, ratKF_apply, sqrt2K_apply, iK]
  all_goals try norm_num

theorem opJcol_1_3 : opJ 1 (⟨3, by decide⟩ : Fin basis.length) bstar = (0 : KF) := by
  rw [opJ, build_opers2, Matrix.of_apply]
  rw [(by decide : basis.get (⟨3, by decide⟩ : Fin basis.length) = [false, false, true, false, false, true])]
  rw [(by decide : basis.get bstar = [true, false, false, false, true, false])]
  rw [← Finset.sum_subset (Finset.subset_univ (∅ :
      Finset (Fin 6 × Fin 6))) ?hz]
  case hz =>
    intro p _ hp
    have hm : matel2 [false, false, true, false, false, true] p.1 p.2 [true, false, false, false, true, false] = 0 := by
      revert hp
      revert p
      decide
    rw [hm, Int.cast_zero, mul_zero]
  rw [Finset.sum_empty]

theorem opJcol_1_4 : opJ 1 (⟨4, by decide⟩ : Fin basis.length) bstar = (ratKF (-1 / 2 : ℚ) * sqrt2K * iK) := by
  rw [opJ, build_opers2, Matrix.of_apply]
  rw [(by decide : basis.get (⟨4, by decide⟩ : Fin basis.length) = [false, false, true, false, true, false])]
  rw [(by decide : basis.get bstar = [true, false, false, false, true, false])]
  rw [← Finset.sum_subset (Finset.subset_univ ({((2 : Fin 6), (0 : Fin 6))} :
      Finset (Fin 6 × Fin 6))) ?hz]
  case hz =>
    intro p _ hp
    have hm : matel2 [false, false, true, false, true, false] p.1 p.2 [true, false, false, false, true, false] = 0 := by
      revert hp
      revert p
      decide
    rw [hm, Int.cast_zero, mul_zero]
  rw [Finset.sum_singleton]
  rw [(by decide : matel2 [false, false, true, false, true, false] 2 0 [true, false, false, false, true, false] = 1)]
  norm_num [tot_mom, orb_mom, spin_mom, get_orb_momentum, get_spin_momentum,
    Matrix.of_apply, Matrix.add_apply, l1mat, s1mat, ms,
    finval6_0, finval6_1, finval6_2, finval6_3, finval6_4, finval6_5]
  all_goals try simp [QuadExt.ext_iff, ratKF_apply, sqrt2K_apply, iK]
  all_goals try norm_num

theorem opJcol_1_5 : opJ 1 (⟨5, by decide⟩ : Fin basis.length) bstar = (0 : KF) := by
  rw [opJ, build_opers2, Matrix.of_apply]
  rw [(by decide : basis.get (⟨5, by decide⟩ : Fin basis.length) = [false, false, true, true, false, false])]
  rw [(by decide : basis.get bstar = [true, false, false, false, true, false])]
  rw [← Finset.sum_subset (Finset.subset_univ (∅ :
      Finset (Fin 6 × Fin 6))) ?hz]
  case hz =>
    intro p _ hp
    have hm : matel2 [false, false, true, true, false, false] p.1 p.2 [true, false, false, false, true, false] = 0 := by
      revert hp
      revert p
      decide
    rw [hm, Int.cast_zero, mul_zero]
  rw [Finset.sum_empty]

theorem opJcol_1_6 : opJ 1 (⟨6, by decide⟩ : Fin basis.length) bstar = (0 : KF) := by
  rw [opJ, build_opers2, Matrix.of_apply]
  rw [(by decide : basis.get (⟨6, by decide⟩ : Fin basis.length) = [false, true, false, false, false, true])]
  rw [(by decide : basis.get bstar = [true, false, false, false, true, false])]
  rw [← Finset.sum_subset (Finset.subset_univ (∅ :
      Finset (Fin 6 × Fin 6))) ?hz]
  case hz =>
    intro p _ hp
    have hm : matel2 [false, true, false, false, false, true] p.1 p.2 [true, false, false, false, true, false] = 0 := by
      revert hp
      revert p
      decide
    rw [hm, Int.cast_zero, mul_zero]
  rw [Finset.sum_empty]

theorem opJcol_1_7 : opJ 1 (⟨7, by decide⟩ : Fin basis.length) bstar = (ratKF (1 / 2 : ℚ) * iK) := by
  rw [opJ, build_opers2, Matrix.of_apply]
  rw [(by decide : basis.get (⟨7, by decide⟩ : Fin basis.length) = [false, true, false, false, true, false])]
  rw [(by decide : basis.get bstar = [true, false, false, false, true, false])]
  rw [← Finset.sum_subset (Finset.subset_univ ({((1 : Fin 6), (0 : Fin 6))} :
      Finset (Fin 6 × Fin 6))) ?hz]
  case hz =>
    intro p _ hp
    have hm : matel2 [false, true, false, false, true, false] p.1 p.2 [true, false, false, false, true, false] = 0 := by
      revert hp
      revert p
      decide
    rw [hm, Int.cast_zero, mul_zero]
  rw [Finset.sum_singleton]
  rw [(by decide : matel2 [false, true, false, false, true, false] 1 0 [true, false, false, false, true, false] = 1)]
  norm_num [tot_mom, orb_mom, spin_mom, get_orb_momentum, get_spin_momentum,
    Matrix.of_apply, Matrix.add_apply, l1mat, s1mat, ms,
    finval6_0, finval6_1, finval6_2, finval6_3, finval6_4, finval6_5]
  all_goals try simp [QuadExt.ext_iff, ratKF_apply, sqrt2K_apply, iK]
  all_goals try norm_num

theorem opJcol_1_8 : opJ 1 (⟨8, by decide⟩ : Fin basis.length) bstar = (0 : KF) := by
  rw [opJ, build_opers2, Matrix.of_apply]
  rw [(by decide : basis.get (⟨8, by decide⟩ : Fin basis.length) = [false, true, false, true, false, false])]
  rw [(by decide : basis.get bstar = [true, false, false, false, true, false])]
  rw [← Finset.sum_subset (Finset.subset_univ (∅ :
      Finset (Fin 6 × Fin 6))) ?hz]
  case hz =>
    intro p _ hp
    have hm : matel2 [false, true, false, true, false, false] p.1 p.2 [true, false, false, false, true, false] = 0 := by
      revert hp
      revert p
      decide
    rw [hm, Int.cast_zero, mul_zero]
  rw [Finset.sum_empty]

theorem opJcol_1_9 : opJ 1 (⟨9, by decide⟩ : Fin basis.length) bstar = (0 : KF) := by
  rw [opJ, build_opers2, Matrix.of_apply]
  rw [(by decide : basis.get (⟨9, by decide⟩ : Fin basis.length) = [false, true, true, false, false, false])]
  rw [(by decide : basis.get bstar = [true, false, false, false, true, false])]
  rw [← Finset.sum_subset (Finset.subset_univ (∅ :
      Finset (Fin 6 × Fin 6))) ?hz]
  case hz =>
    intro p _ hp
    have hm : matel2 [false, true, true, false, false, false] p.1 p.2 [true, false, false, false, true, false] = 0 := by
      revert hp
      revert p
      decide
    rw [hm, Int.cast_zero, mul_zero]
  rw [Finset.sum_empty]

theorem opJcol_1_10 : opJ 1 (⟨10, by decide⟩ : Fin basis.length) bstar = (ratKF (1 / 2 : ℚ) * iK) := by
  rw [opJ, build_opers2, Matrix.of_apply]
  rw [(by decide : basis.get (⟨10, by decide⟩ : Fin basis.length) = [true, false, false, false, false, true])]
  rw [(by decide : basis.get bstar = [true, false, false, false, true, false])]
  rw [← Finset.sum_subset (Finset.subset_univ ({((5 : Fin 6), (4 : Fin 6))} :
      Finset (Fin 6 × Fin 6))) ?hz]
  case hz =>
    intro p _ hp
    have hm : matel2 [true, false, false, false, false, true] p.1 p.2 [true, false, false, false, true, false] = 0 := by
      revert hp
      revert p
      decide
    rw [hm, Int.cast_zero, mul_zero]
  rw [Finset.sum_singleton]
  rw [(by decide : matel2 [true, false, false, false, false, true] 5 4 [true, false, false, false, true, false] = 1)]
  norm_num [tot_mom, orb_mom, spin_mom, get_orb_momentum, get_spin_momentum,
    Matrix.of_apply, Matrix.add_apply, l1mat, s1mat, ms,
    finval6_0, finval6_1, finval6_2, finval6_3, finval6_4, finval6_5]
  all_goals try simp [QuadExt.ext_iff, ratKF_apply, sqrt2K_apply, iK]
  all_goals try norm_num

theorem opJcol_1_11 : opJ 1 bstar bstar = (0 : KF) := by
  rw [opJ, build_opers2, Matrix.of_apply]
  rw [(by decide : basis.get bstar = [true, false, false, false, true, false])]
  rw [← Finset.sum_subset (Finset.subset_univ ({((0 : Fin 6), (0 : Fin 6)), ((4 : Fin 6), (4 : Fin 6))} :
      Finset (Fin 6 × Fin 6))) ?hz]
  case hz =>
    intro p _ hp
    have hm : matel2 [true, false, false, false, true, false] p.1 p.2 [true, false, false, false, true, false] = 0 := by
      revert hp
      revert p
      decide
    rw [hm, Int.cast_zero, mul_zero]
  rw [Finset.sum_insert (by decide), Finset.sum_singleton]
  rw [(by decide : matel2 [true, false, false, false, true, false] 0 0 [true, false, false, false, true, false] = 1), (by decide : matel2 [true, false, false, false, true, false] 4 4 [true, false, false, false, true, false] = 1)]
  norm_num [tot_mom, orb_mom, spin_mom, get_orb_momentum, get_spin_momentum,
    Matrix.of_apply, Matrix.add_apply, l1mat, s1mat, ms,
    finval6_0, finval6_1, finval6_2, finval6_3, finval6_4, finval6_5]
  all_goals try simp [QuadExt.ext_iff, ratKF_apply, sqrt2K_apply, iK]
  all_goals try norm_num

theorem opJcol_1_12 : opJ 1 (⟨12, by decide⟩ : Fin basis.length) bstar = (0 : KF) := by
  rw [opJ, build_opers2, Matrix.of_apply]
  rw [(by decide : basis.get (⟨12, by decide⟩ : Fin basis.length) = [true, false, false, true, false, false])]
  rw [(by decide : basis.get bstar = [true, false, false, false, true, false])]
  rw [← Finset.sum_subset (Finset.subset_univ ({((3 : Fin 6), (4 : Fin 6))} :
      Finset (Fin 6 × Fin 6))) ?hz]
  case hz =>
    intro p _ hp
    have hm : matel2 [true, false, false, true, false, false] p.1 p.2 [true, false, false, false, true, false] = 0 := by
      revert hp
      revert p
      decide
    rw [hm, Int.cast_zero, mul_zero]
  rw [Finset.sum_singleton]
  rw [(by decide : matel2 [true, false, false, true, false, false] 3 4 [true, false, false, false, true, false] = 1)]
  norm_num [tot_mom, orb_mom, spin_mom, get_orb_momentum, get_spin_momentum,
    Matrix.of_apply, Matrix.add_apply, l1mat, s1mat, ms,
    finval6_0, finval6_1, finval6_2, finval6_3, finval6_4, finval6_5]
  all_goals try simp [QuadExt.ext_iff, ratKF_apply, sqrt2K_apply, iK]
  all_goals try norm_num

theorem opJcol_1_13 : opJ 1 (⟨13, by decide⟩ : Fin basis.length) bstar = (ratKF (1 / 2 : ℚ) * sqrt2K * iK) := by
  rw [opJ, build_opers2, Matrix.of_apply]
  rw [(by decide : basis.get (⟨13, by decide⟩ : Fin basis.length) = [true, false, true, false, false, false])]
  rw [(by decide : basis.get bstar = [true, false, false, false, true, false])]
  rw [← Finset.sum_subset (Finset.subset_univ ({((2 : Fin 6), (4 : Fin 6))} :
      Finset (Fin 6 × Fin 6))) ?hz]
  case hz =>
    intro p _ hp
    have hm : matel2 [true, false, true, false, false, false] p.1 p.2 [true, false, false, false, true, false] = 0 := by
      revert hp
      revert p
      decide
    rw [hm, Int.cast_zero, mul_zero]
  rw [Finset.sum_singleton]
  rw [(by decide : matel2 [true, false, true, false, false, false] 2 4 [true, false, false, false, true, false] = 1)]
  norm_num [tot_mom, orb_mom, spin_mom, get_orb_momentum, get_spin_momentum,
    Matrix.of_apply, Matrix.add_apply, l1mat, s1mat, ms,
    finval6_0, finval6_1, finval6_2, finval6_3, finval6_4, finval6_5]
  all_goals try simp [QuadExt.ext_iff, ratKF_apply, sqrt2K_apply, iK]
  all_goals try norm_num

theorem opJcol_1_14 : opJ 1 (⟨14, by decide⟩ : Fin basis.length) bstar = (0 : KF) := by
  rw [opJ, build_opers2, Matrix.of_apply]
  rw [(by decide : basis.get (⟨14, by decide⟩ : Fin basis.length) = [true, true, false, false, false, false])]
  rw [(by decide : basis.get bstar = [true, false, false, false, true, false])]
  rw [← Finset.sum_subset (Finset.subset_univ ({((1 : Fin 6), (4 : Fin 6))} :
      Finset (Fin 6 × Fin 6))) ?hz]
  case hz =>
    intro p _ hp
    have hm : matel2 [true, true, false, false, false, false] p.1 p.2 [true, false, false, false, true, false] = 0 := by
      revert hp
      revert p
      decide
    rw [hm, Int.cast_zero, mul_zero]
  rw [Finset.sum_singleton]
  rw [(by decide : matel2 [true, true, false, false, false, false] 1 4 [true, false, false, false, true, false] = 1)]
  norm_num [tot_mom, orb_mom, spin_mom, get_orb_momentum, get_spin_momentum,
    Matrix.of_apply, Matrix.add_apply, l1mat, s1mat, ms,
    finval6_0, finval6_1, finval6_2, finval6_3, finval6_4, finval6_5]
  all_goals try simp [QuadExt.ext_iff, ratKF_apply, sqrt2K_apply, iK]
  all_goals try norm_num

theorem opJrow_1_4 : opJ 1 bstar (⟨4, by decide⟩ : Fin basis.length) = (ratKF (1 / 2 : ℚ) * sqrt2K * iK) := by
  rw [opJ, build_opers2, Matrix.of_apply]
  rw [(by decide : basis.get bstar = [true, false, false, false, true, false])]
  rw [(by decide : basis.get (⟨4, by decide⟩ : Fin basis.length) = [false, false, true, false, true, false])]
  rw [← Finset.sum_subset (Finset.subset_univ ({((0 : Fin 6), (2 : Fin 6))} :
      Finset (Fin 6 × Fin 6))) ?hz]
  case hz =>
    intro p _ hp
    have hm : matel2 [true, false, false, false, true, false] p.1 p.2 [false, false, true, false, true, false] = 0 := by
      revert hp
      revert p
      decide
    rw [hm, Int.cast_zero, mul_zero]
  rw [Finset.sum_singleton]
  rw [(by decide : matel2 [true, false, false, false, true, false] 0 2 [false, false, true, false, true, false] = 1)]
  norm_num [tot_mom, orb_mom, spin_mom, get_orb_momentum, get_spin_momentum,
    Matrix.of_apply, Matrix.add_apply, l1mat, s1mat, ms,
    finval6_0, finval6_1, finval6_2, finval6_3, finval6_4, finval6_5]
  all_goals try simp [QuadExt.ext_iff, ratKF_apply, sqrt2K_apply, iK]
  all_goals try norm_num

theorem opJrow_1_7 : opJ 1 bstar (⟨7, by decide⟩ : Fin basis.length) = (ratKF (-1 / 2 : ℚ) * iK) := by
  rw [opJ, build_opers2, Matrix.of_apply]
  rw [(by decide : basis.get bstar = [true, false, false, false, true, false])]
  rw [(by decide : basis.get (⟨7, by decide⟩ : Fin basis.length) = [false, true, false, false, true, false])]
  rw [← Finset.sum_subset (Finset.subset_univ ({((0 : Fin 6), (1 : Fin 6))} :
      Finset (Fin 6 × Fin 6))) ?hz]
  case hz =>
    intro p _ hp
    have hm : matel2 [true, false, false, false, true, false] p.1 p.2 [false, true, false, false, true, false] = 0 := by
      revert hp
      revert p
      decide
    rw [hm, Int.cast_zero, mul_zero]
  rw [Finset.sum_singleton]
  rw [(by decide : matel2 [true, false, false, false, true, false] 0 1 [false, true, false, false, true, false] = 1)]
  norm_num [tot_mom, orb_mom, spin_mom, get_orb_momentum, get_spin_momentum,
    Matrix.of_apply, Matrix.add_apply, l1mat, s1mat, ms,
    finval6_0, finval6_1, finval6_2, finval6_3, finval6_4, finval6_5]
  all_goals try simp [QuadExt.ext_iff, ratKF_apply, sqrt2K_apply, iK]
  all_goals try norm_num

theorem opJrow_1_10 : opJ 1 bstar (⟨10, by decide⟩ : Fin basis.length) = (ratKF (-1 / 2 : ℚ) * iK) := by
  rw [opJ, build_opers2, Matrix.of_apply]
  rw [(by decide : basis.get bstar = [true, false, false, false, true, false])]
  rw [(by decide : basis.get (⟨10, by decide⟩ : Fin basis.length) = [true, false, false, false, false, true])]
  rw [← Finset.sum_subset (Finset.subset_univ ({((4 : Fin 6), (5 : Fin 6))} :
      Finset (Fin 6 × Fin 6))) ?hz]
  case hz =>
    intro p _ hp
    have hm : matel2 [true, false, false, false, true, false] p.1 p.2 [true, false, false, false, false, true] = 0 := by
      revert hp
      revert p
      decide
    rw [hm, Int.cast_zero, mul_zero]
  rw [Finset.sum_singleton]
  rw [(by decide : matel2 [true, false, false, false, true, false] 4 5 [true, false, false, false, false, true] = 1)]
  norm_num [tot_mom, orb_mom, spin_mom, get_orb_momentum, get_spin_momentum,
    Matrix.of_apply, Matrix.add_apply, l1mat, s1mat, ms,
    finval6_0, finval6_1, finval6_2, finval6_3, finval6_4, finval6_5]
  all_goals try simp [QuadExt.ext_iff, ratKF_apply, sqrt2K_apply, iK]
  all_goals try norm_num

theorem opJrow_1_13 : opJ 1 bstar (⟨13, by decide⟩ : Fin basis.length) = (ratKF (-1 / 2 : ℚ) * sqrt2K * iK) := by
  rw [opJ, build_opers2, Matrix.of_apply]
  rw [(by decide : basis.get bstar = [true, false, false, false, true, false])]
  rw [(by decide : basis.get (⟨13, by decide⟩ : Fin basis.length) = [true, false, true, false, false, false])]
  rw [← Finset.sum_subset (Finset.subset_univ ({((4 : Fin 6), (2 : Fin 6))} :
      Finset (Fin 6 × Fin 6))) ?hz]
  case hz =>
    intro p _ hp
    have hm : matel2 [true, false, false, false, true, false] p.1 p.2 [true, false, true, false, false, false] = 0 := by
      revert hp
      revert p
      decide
    rw [hm, Int.cast_zero, mul_zero]
  rw [Finset.sum_singleton]
  rw [(by decide : matel2 [true, false, false, false, true, false] 4 2 [true, false, true, false, false, false] = 1)]
  norm_num [tot_mom, orb_mom, spin_mom, get_orb_momentum, get_spin_momentum,
    Matrix.of_apply, Matrix.add_apply, l1mat, s1mat, ms,
    finval6_0, finval6_1, finval6_2, finval6_3, finval6_4, finval6_5]
  all_goals try simp [QuadExt.ext_iff, ratKF_apply, sqrt2K_apply, iK]
  all_goals try norm_num

theorem opJcol_2_0 : opJ 2 (⟨0, by decide⟩ : Fin basis.length) bstar = (0 : KF) := by
  rw [opJ, build_opers2, Matrix.of_apply]
  rw [(by decide : basis.get (⟨0, by decide⟩ : Fin basis.length) = [false, false, false, false, true, true])]
  rw [(by decide : basis.get bstar = [true, false, false, false, true, false])]
  rw [← Finset.sum_subset (Finset.subset_univ ({((5 : Fin 6), (0 : Fin 6))} :
      Finset (Fin 6 × Fin 6))) ?hz]
  case hz =>
    intro p _ hp
    have hm : matel2 [false, false, false, false, true, true] p.1 p.2 [true, false, false, false, true, false] = 0 := by
      revert hp
      revert p
      decide
    rw [hm, Int.cast_zero, mul_zero]
  rw [Finset.sum_singleton]
  rw [(by decide : matel2 [false, false, false, false, true, true] 5 0 [true, false, false, false, true, false] = -1)]
  norm_num [tot_mom, orb_mom, spin_mom, get_orb_momentum, get_spin_momentum,
    Matrix.of_apply, Matrix.add_apply, l1mat, s1mat, ms,
    finval6_0, finval6_1, finval6_2, finval6_3, finval6_4, finval6_5]
  all_goals try simp [QuadExt.ext_iff, ratKF_apply, sqrt2K_apply, iK]
  all_goals try norm_num

theorem opJcol_2_1 : opJ 2 (⟨1, by decide⟩ : Fin basis.length) bstar = (0 : KF) := by
  rw [opJ, build_opers2, Matrix.of_apply]
  rw [(by decide : basis.get (⟨1, by decide⟩ : Fin basis.length) = [false, false, false, true, false, true])]
  rw [(by decide : basis.get bstar = [true, false, false, false, true, false])]
  rw [← Finset.sum_subset (Finset.subset_univ (∅ :
      Finset (Fin 6 × Fin 6))) ?hz]
  case hz =>
    intro p _ hp
    have hm : matel2 [false, false, false, true, false, true] p.1 p.2 [true, false, false, false, true, false] = 0 := by
      revert hp
      revert p
      decide
    rw [hm, Int.cast_zero, mul_zero]
  rw [Finset.sum_empty]

theorem opJcol_2_2 : opJ 2 (⟨2, by decide⟩ : Fin basis.length) bstar = (0 : KF) := by
  rw [opJ, build_opers2, Matrix.of_apply]
  rw [(by decide : basis.get (⟨2, by decide⟩ : Fin basis.length) = [false, false, false, true, true, false])]
  rw [(by decide : basis.get bstar = [true, false, false, false, true, false])]
  rw [← Finset.sum_subset (Finset.subset_univ ({((3 : Fin 6), (0 : Fin 6))} :
      Finset (Fin 6 × Fin 6))) ?hz]
  case hz =>
    intro p _ hp
    have hm : matel2 [false, false, false, true, true, false] p.1 p.2 [true, false, false, false, true, false] = 0 := by
      revert hp
      revert p
      decide
    rw [hm, Int.cast_zero, mul_zero]
  rw [Finset.sum_singleton]
  rw [(by decide : matel2 [false, false, false, true, true, false] 3 0 [true, false, false, false, true, false] = 1)]
  norm_num [tot_mom, orb_mom, spin_mom, get_orb_momentum, get_spin_momentum,
    Matrix.of_apply, Matrix.add_apply, l1mat, s1mat, ms,
    finval6_0, finval6_1, finval6_2, finval6_3, finval6_4, finval6_5]
  all_goals try simp [QuadExt.ext_iff, ratKF_apply, sqrt2K_apply, iK]
  all_goals try norm_num

theorem opJcol_2_3 : opJ 2 (⟨3, by decide⟩ : Fin basis.length) bstar = (0 : KF) := by
  rw [opJ, build_opers2, Matrix.of_apply]
  rw [(by decide : basis.get (⟨3, by decide⟩ : Fin basis.length) = [false, false, true, false, false, true])]
  rw [(by decide : basis.get bstar = [true, false, false, false, true, false])]
  rw [← Finset.sum_subset (Finset.subset_univ (∅ :
      Finset (Fin 6 × Fin 6))) ?hz]
  case hz =>
    intro p _ hp
    have hm : matel2 [false, false, true, false, false, true] p.1 p.2 [true, false, false, false, true, false] = 0 := by
      revert hp
      revert p
      decide
    rw [hm, Int.cast_zero, mul_zero]
  rw [Finset.sum_empty]

theorem opJcol_2_4 : opJ 2 (⟨4, by decide⟩ : Fin basis.length) bstar = (0 : KF) := by
  rw [opJ, build_opers2, Matrix.of_apply]
  rw [(by decide : basis.get (⟨4, by decide⟩ : Fin basis.length) = [false, false, true, false, true, false])]
  rw [(by decide : basis.get bstar = [true, false, false, false, true, false])]
  rw [← Finset.sum_subset (Finset.subset_univ ({((2 : Fin 6), (0 : Fin 6))} :
      Finset (Fin 6 × Fin 6))) ?hz]
  case hz =>
    intro p _ hp
    have hm : matel2 [false, false, true, false, true, false] p.1 p.2 [true, false, false, false, true, false] = 0 := by
      revert hp
      revert p
      decide
    rw [hm, Int.cast_zero, mul_zero]
  rw [Finset.sum_singleton]
  rw [(by decide : matel2 [false, false, true, false, true, false] 2 0 [true, false, false, false, true, false] = 1)]
  norm_num [tot_mom, orb_mom, spin_mom, get_orb_momentum, get_spin_momentum,
    Matrix.of_apply, Matrix.add_apply, l1mat, s1mat, ms,
    finval6_0, finval6_1, finval6_2, finval6_3, finval6_4, finval6_5]
  all_goals try simp [QuadExt.ext_iff, ratKF_apply, sqrt2K_apply, iK]
  all_goals try norm_num

theorem opJcol_2_5 : opJ 2 (⟨5, by decide⟩ : Fin basis.length) bstar = (0 : KF) := by
  rw [opJ, build_opers2, Matrix.of_apply]
  rw [(by decide : basis.get (⟨5, by decide⟩ : Fin basis.length) = [false, false, true, true, false, false])]
  rw [(by decide : basis.get bstar = [true, false, false, false, true, false])]
  rw [← Finset.sum_subset (Finset.subset_univ (∅ :
      Finset (Fin 6 × Fin 6))) ?hz]
  case hz =>
    intro p _ hp
    have hm : matel2 [false, false, true, true, false, false] p.1 p.2 [true, false, false, false, true, false] = 0 := by
      revert hp
      revert p
      decide
    rw [hm, Int.cast_zero, mul_zero]
  rw [Finset.sum_empty]

theorem opJcol_2_6 : opJ 2 (⟨6, by decide⟩ : Fin basis.length) bstar = (0 : KF) := by
  rw [opJ, build_opers2, Matrix.of_apply]
  rw [(by decide : basis.get (⟨6, by decide⟩ : Fin basis.length) = [false, true, false, false, false, true])]
  rw [(by decide : basis.get bstar = [true, false, false, false, true, false])]
  rw [← Finset.sum_subset (Finset.subset_univ (∅ :
      Finset (Fin 6 × Fin 6))) ?hz]
  case hz =>
    intro p _ hp
    have hm : matel2 [false, true, false, false, false, true] p.1 p.2 [true, false, false, false, true, false] = 0 := by
      revert hp
      revert p
      decide
    rw [hm, Int.cast_zero, mul_zero]
  rw [Finset.sum_empty]

theorem opJcol_2_7 : opJ 2 (⟨7, by decide⟩ : Fin basis.length) bstar = (0 : KF) := by
  rw [opJ, build_opers2, Matrix.of_apply]
  rw [(by decide : basis.get (⟨7, by decide⟩ : Fin basis.length) = [false, true, false, false, true, false])]
  rw [(by decide : basis.get bstar = [true, false, false, false, true, false])]
  rw [← Finset.sum_subset (Finset.subset_univ ({((1 : Fin 6), (0 : Fin 6))} :
      Finset (Fin 6 × Fin 6))) ?hz]
  case hz =>
    intro p _ hp
    have hm : matel2 [false, true, false, false, true, false] p.1 p.2 [true, false, false, false, true, false] = 0 := by
      revert hp
      revert p
      decide
    rw [hm, Int.cast_zero, mul_zero]
  rw [Finset.sum_singleton]
  rw [(by decide : matel2 [false, true, false, false, true, false] 1 0 [true, false, false, false, true, false] = 1)]
  norm_num [tot_mom, orb_mom, spin_mom, get_orb_momentum, get_spin_momentum,
    Matrix.of_apply, Matrix.add_apply, l1mat, s1mat, ms,
    finval6_0, finval6_1, finval6_2, finval6_3, finval6_4, finval6_5]
  all_goals try simp [QuadExt.ext_iff, ratKF_apply, sqrt2K_apply, iK]
  all_goals try norm_num

theorem opJcol_2_8 : opJ 2 (⟨8, by decide⟩ : Fin basis.length) bstar = (0 : KF) := by
  rw [opJ, build_opers2, Matrix.of_apply]
  rw [(by decide : basis.get (⟨8, by decide⟩ : Fin basis.length) = [false, true, false, true, false, false])]
  rw [(by decide : basis.get bstar = [true, false, false, false, true, false])]
  rw [← Finset.sum_subset (Finset.subset_univ (∅ :
      Finset (Fin 6 × Fin 6))) ?hz]
  case hz =>
    intro p _ hp
    have hm : matel2 [false, true, false, true, false, false] p.1 p.2 [true, false, false, false, true, false] = 0 := by
      revert hp
      revert p
      decide
    rw [hm, Int.cast_zero, mul_zero]
  rw [Finset.sum_empty]

theorem opJcol_2_9 : opJ 2 (⟨9, by decide⟩ : Fin basis.length) bstar = (0 : KF) := by
  rw [opJ, build_opers2, Matrix.of_apply]
  rw [(by decide : basis.get (⟨9, by decide⟩ : Fin basis.length) = [false, true, true, false, false, false])]
  rw [(by decide : basis.get bstar = [true, false, false, false, true, false])]
  rw [← Finset.sum_subset (Finset.subset_univ (∅ :
      Finset (Fin 6 × Fin 6))) ?hz]
  case hz =>
    intro p _ hp
    have hm : matel2 [false, true, true, false, false, false] p.1 p.2 [true, false, false, false, true, false] = 0 := by
      revert hp
      revert p
      decide
    rw [hm, Int.cast_zero, mul_zero]
  rw [Finset.sum_empty]

theorem opJcol_2_10 : opJ 2 (⟨10, by decide⟩ : Fin basis.length) bstar = (0 : KF) := by
  rw [opJ, build_opers2, Matrix.of_apply]
  rw [(by decide : basis.get (⟨10, by decide⟩ : Fin basis.length) = [true, false, false, false, false, true])]
  rw [(by decide : basis.get bstar = [true, false, false, false, true, false])]
  rw [← Finset.sum_subset (Finset.subset_univ ({((5 : Fin 6), (4 : Fin 6))} :
      Finset (Fin 6 × Fin 6))) ?hz]
  case hz =>
    intro p _ hp
    have hm : matel2 [true, false, false, false, false, true] p.1 p.2 [true, false, false, false, true, false] = 0 := by
      revert hp
      revert p
      decide
    rw [hm, Int.cast_zero, mul_zero]
  rw [Finset.sum_singleton]
  rw [(by decide : matel2 [true, false, false, false, false, true] 5 4 [true, false, false, false, true, false] = 1)]
  norm_num [tot_mom, orb_mom, spin_mom, get_orb_momentum, get_spin_momentum,
    Matrix.of_apply, Matrix.add_apply, l1mat, s1mat, ms,
    finval6_0, finval6_1, finval6_2, finval6_3, finval6_4, finval6_5]
  all_goals try simp [QuadExt.ext_iff, ratKF_apply, sqrt2K_apply, iK]
  all_goals try norm_num

theorem opJcol_2_11 : opJ 2 bstar bstar = (ratKF (1 : ℚ)) := by
  rw [opJ, build_opers2, Matrix.of_apply]
  rw [(by decide : basis.get bstar = [true, false, false, false, true, false])]
  rw [← Finset.sum_subset (Finset.subset_univ ({((0 : Fin 6), (0 : Fin 6)), ((4 : Fin 6), (4 : Fin 6))} :
      Finset (Fin 6 × Fin 6))) ?hz]
  case hz =>
    intro p _ hp
    have hm : matel2 [true, false, false, false, true, false] p.1 p.2 [true, false, false, false, true, false] = 0 := by
      revert hp
      revert p
      decide
    rw [hm, Int.cast_zero, mul_zero]
  rw [Finset.sum_insert (by decide), Finset.sum_singleton]
  rw [(by decide : matel2 [true, false, false, false, true, false] 0 0 [true, false, false, false, true, false] = 1), (by decide : matel2 [true, false, false, false, true, false] 4 4 [true, false, false, false, true, false] = 1)]
  norm_num [tot_mom, orb_mom, spin_mom, get_orb_momentum, get_spin_momentum,
    Matrix.of_apply, Matrix.add_apply, l1mat, s1mat, ms,
    finval6_0, finval6_1, finval6_2, finval6_3, finval6_4, finval6_5]
  all_goals try simp [QuadExt.ext_iff, ratKF_apply, sqrt2K_apply, iK]
  all_goals try norm_num

theorem opJcol_2_12 : opJ 2 (⟨12, by decide⟩ : Fin basis.length) bstar = (0 : KF) := by
  rw [opJ, build_opers2, Matrix.of_apply]
  rw [(by decide : basis.get (⟨12, by decide⟩ : Fin basis.length) = [true, false, false, true, false, false])]
  rw [(by decide : basis.get bstar = [true, false, false, false, true, false])]
  rw [← Finset.sum_subset (Finset.subset_univ ({((3 : Fin 6), (4 : Fin 6))} :
      Finset (Fin 6 × Fin 6))) ?hz]
  case hz =>
    intro p _ hp
    have hm : matel2 [true, false, false, true, false, false] p.1 p.2 [true, false, false, false, true, false] = 0 := by
      revert hp
      revert p
      decide
    rw [hm, Int.cast_zero, mul_zero]
  rw [Finset.sum_singleton]
  rw [(by decide : matel2 [true, false, false, true, false, false] 3 4 [true, false, false, false, true, false] = 1)]
  norm_num [tot_mom, orb_mom, spin_mom, get_orb_momentum, get_spin_momentum,
    Matrix.of_apply, Matrix.add_apply, l1mat, s1mat, ms,
    finval6_0, finval6_1, finval6_2, finval6_3, finval6_4, finval6_5]
  all_goals try simp [QuadExt.ext_iff, ratKF_apply, sqrt2K_apply, iK]
  all_goals try norm_num

theorem opJcol_2_13 : opJ 2 (⟨13, by decide⟩ : Fin basis.length) bstar = (0 : KF) := by
  rw [opJ, build_opers2, Matrix.of_apply]
  rw [(by decide : basis.get (⟨13, by decide⟩ : Fin basis.length) = [true, false, true, false, false, false])]
  rw [(by decide : basis.get bstar = [true, false, false, false, true, false])]
  rw [← Finset.sum_subset (Finset.subset_univ ({((2 : Fin 6), (4 : Fin 6))} :
      Finset (Fin 6 × Fin 6))) ?hz]
  case hz =>
    intro p _ hp
    have hm : matel2 [true, false, true, false, false, false] p.1 p.2 [true, false, false, false, true, false] = 0 := by
      revert hp
      revert p
      decide
    rw [hm, Int.cast_zero, mul_zero]
  rw [Finset.sum_singleton]
  rw [(by decide : matel2 [true, false, true, false, false, false] 2 4 [true, false, false, false, true, false] = 1)]
  norm_num [tot_mom, orb_mom, spin_mom, get_orb_momentum, get_spin_momentum,
    Matrix.of_apply, Matrix.add_apply, l1mat, s1mat, ms,
    finval6_0, finval6_1, finval6_2, finval6_3, finval6_4, finval6_5]
  all_goals try simp [QuadExt.ext_iff, ratKF_apply, sqrt2K_apply, iK]
  all_goals try norm_num

theorem opJcol_2_14 : opJ 2 (⟨14, by decide⟩ : Fin basis.length) bstar = (0 : KF) := by
  rw [opJ, build_opers2, Matrix.of_apply]
  rw [(by decide : basis.get (⟨14, by decide⟩ : Fin basis.length) = [true, true, false, false, false, false])]
  rw [(by decide : basis.get bstar = [true, false, false, false, true, false])]
  rw [← Finset.sum_subset (Finset.subset_univ ({((1 : Fin 6), (4 : Fin 6))} :
      Finset (Fin 6 × Fin 6))) ?hz]
  case hz =>
    intro p _ hp
    have hm : matel2 [true, true, false, false, false, false] p.1 p.2 [true, false, false, false, true, false] = 0 := by
      revert hp
      revert p
      decide
    rw [hm, Int.cast_zero, mul_zero]
  rw [Finset.sum_singleton]
  rw [(by decide : matel2 [true, true, false, false, false, false] 1 4 [true, false, false, false, true, false] = 1)]
  norm_num [tot_mom, orb_mom, spin_mom, get_orb_momentum, get_spin_momentum,
    Matrix.of_apply, Matrix.add_apply, l1mat, s1mat, ms,
    finval6_0, finval6_1, finval6_2, finval6_3, finval6_4, finval6_5]
  all_goals try simp [QuadExt.ext_iff, ratKF_apply, sqrt2K_apply, iK]
  all_goals try norm_num

theorem L2aux_0 : (opL 0 * opL 0) bstar bstar = (ratKF (1 : ℚ)) := by
  rw [Matrix.mul_apply]
  rw [← Finset.sum_subset (Finset.subset_univ ({(⟨4, by decide⟩ : Fin basis.length), (⟨13, by decide⟩ : Fin basis.length)} :
      Finset (Fin basis.length))) ?hz]
  case hz =>
    intro c _ hc
    fin_cases c
    · simp only [opLcol_0_0, mul_zero]
    · simp only [opLcol_0_1, mul_zero]
    · simp only [opLcol_0_2, mul_zero]
    · simp only [opLcol_0_3, mul_zero]
    · exact absurd (by decide) hc
    · simp only [opLcol_0_5, mul_zero]
    · simp only [opLcol_0_6, mul_zero]
    · simp only [opLcol_0_7, mul_zero]
    · simp only [opLcol_0_8, mul_zero]
    · simp only [opLcol_0_9, mul_zero]
    · simp only [opLcol_0_10, mul_zero]
    · exact mul_eq_zero_of_right _ opLcol_0_11
    · simp only [opLcol_0_12, mul_zero]
    · exact absurd (by decide) hc
    · simp only [opLcol_0_14, mul_zero]
  rw [Finset.sum_insert (by decide), Finset.sum_singleton]
  rw [opLrow_0_4, opLcol_0_4, opLrow_0_13, opLcol_0_13]
  norm_num [tot_mom, orb_mom, spin_mom, get_orb_momentum, get_spin_momentum,
    Matrix.of_apply, Matrix.add_apply, l1mat, s1mat, ms,
    finval6_0, finval6_1, finval6_2, finval6_3, finval6_4, finval6_5]
  all_goals try simp [QuadExt.ext_iff, ratKF_apply, sqrt2K_apply, iK]
  all_goals try norm_num

theorem L2aux_1 : (opL 1 * opL 1) bstar bstar = (ratKF (1 : ℚ)) := by
  rw [Matrix.mul_apply]
  rw [← Finset.sum_subset (Finset.subset_univ ({(⟨4, by decide⟩ : Fin basis.length), (⟨13, by decide⟩ : Fin basis.length)} :
      Finset (Fin basis.length))) ?hz]
  case hz =>
    intro c _ hc
    fin_cases c
    · simp only [opLcol_1_0, mul_zero]
    · simp only [opLcol_1_1, mul_zero]
    · simp only [opLcol_1_2, mul_zero]
    · simp only [opLcol_1_3, mul_zero]
    · exact absurd (by decide) hc
    · simp only [opLcol_1_5, mul_zero]
    · simp only [opLcol_1_6, mul_zero]
    · simp only [opLcol_1_7, mul_zero]
    · simp only [opLcol_1_8, mul_zero]
    · simp only [opLcol_1_9, mul_zero]
    · simp only [opLcol_1_10, mul_zero]
    · exact mul_eq_zero_of_right _ opLcol_1_11
    · simp only [opLcol_1_12, mul_zero]
    · exact absurd (by decide) hc
    · simp only [opLcol_1_14, mul_zero]
  rw [Finset.sum_insert (by decide), Finset.sum_singleton]
  rw [opLrow_1_4, opLcol_1_4, opLrow_1_13, opLcol_1_13]
  norm_num [tot_mom, orb_mom, spin_mom, get_orb_momentum, get_spin_momentum,
    Matrix.of_apply, Matrix.add_apply, l1mat, s1mat, ms,
    finval6_0, finval6_1, finval6_2, finval6_3, finval6_4, finval6_5]
  all_goals try simp [QuadExt.ext_iff, ratKF_apply, sqrt2K_apply, iK]
  all_goals try norm_num

theorem L2aux_2 : (opL 2 * opL 2) bstar bstar = (0 : KF) := by
  rw [Matrix.mul_apply]
  rw [← Finset.sum_subset (Finset.subset_univ (∅ :
      Finset (Fin basis.length))) ?hz]
  case hz =>
    intro c _ hc
    fin_cases c
    · simp only [opLcol_2_0, mul_zero]
    · simp only [opLcol_2_1, mul_zero]
    · simp only [opLcol_2_2, mul_zero]
    · simp only [opLcol_2_3, mul_zero]
    · simp only [opLcol_2_4, mul_zero]
    · simp only [opLcol_2_5, mul_zero]
    · simp only [opLcol_2_6, mul_zero]
    · simp only [opLcol_2_7, mul_zero]
    · simp only [opLcol_2_8, mul_zero]
    · simp only [opLcol_2_9, mul_zero]
    · simp only [opLcol_2_10, mul_zero]
    · exact mul_eq_zero_of_right _ opLcol_2_11
    · simp only [opLcol_2_12, mul_zero]
    · simp only [opLcol_2_13, mul_zero]
    · simp only [opLcol_2_14, mul_zero]
  rw [Finset.sum_empty]

theorem L2_bstar : L2 bstar bstar = (ratKF (2 : ℚ)) := by
  rw [L2, Matrix.add_apply, Matrix.add_apply, L2aux_0, L2aux_1, L2aux_2]
  all_goals try simp [QuadExt.ext_iff, ratKF_apply, sqrt2K_apply, iK]
  all_goals try norm_num

theorem S2aux_0 : (opS 0 * opS 0) bstar bstar = (ratKF (1 / 2 : ℚ)) := by
  rw [Matrix.mul_apply]
  rw [← Finset.sum_subset (Finset.subset_univ ({(⟨7, by decide⟩ : Fin basis.length), (⟨10, by decide⟩ : Fin basis.length)} :
      Finset (Fin basis.length))) ?hz]
  case hz =>
    intro c _ hc
    fin_cases c
    · simp only [opScol_0_0, mul_zero]
    · simp only [opScol_0_1, mul_zero]
    · simp only [opScol_0_2, mul_zero]
    · simp only [opScol_0_3, mul_zero]
    · simp only [opScol_0_4, mul_zero]
    · simp only [opScol_0_5, mul_zero]
    · simp only [opScol_0_6, mul_zero]
    · exact absurd (by decide) hc
    · simp only [opScol_0_8, mul_zero]
    · simp only [opScol_0_9, mul_zero]
    · exact absurd (by decide) hc
    · exact mul_eq_zero_of_right _ opScol_0_11
    · simp only [opScol_0_12, mul_zero]
    · simp only [opScol_0_13, mul_zero]
    · simp only [opScol_0_14, mul_zero]
  rw [Finset.sum_insert (by decide), Finset.sum_singleton]
  rw [opSrow_0_7, opScol_0_7, opSrow_0_10, opScol_0_10]
  norm_num [tot_mom, orb_mom, spin_mom, get_orb_momentum, get_spin_momentum,
    Matrix.of_apply, Matrix.add_apply, l1mat, s1mat, ms,
    finval6_0, finval6_1, finval6_2, finval6_3, finval6_4, finval6_5]
  all_goals try simp [QuadExt.ext_iff, ratKF_apply, sqrt2K_apply, iK]
  all_goals try norm_num

theorem S2aux_1 : (opS 1 * opS 1) bstar bstar = (ratKF (1 / 2 : ℚ)) := by
  rw [Matrix.mul_apply]
  rw [← Finset.sum_subset (Finset.subset_univ ({(⟨7, by decide⟩ : Fin basis.length), (⟨10, by decide⟩ : Fin basis.length)} :
      Finset (Fin basis.length))) ?hz]
  case hz =>
    intro c _ hc
    fin_cases c
    · simp only [opScol_1_0, mul_zero]
    · simp only [opScol_1_1, mul_zero]
    · simp only [opScol_1_2, mul_zero]
    · simp only [opScol_1_3, mul_zero]
    · simp only [opScol_1_4, mul_zero]
    · simp only [opScol_1_5, mul_zero]
    · simp only [opScol_1_6, mul_zero]
    · exact absurd (by decide) hc
    · simp only [opScol_1_8, mul_zero]
    · simp only [opScol_1_9, mul_zero]
    · exact absurd (by decide) hc
    · exact mul_eq_zero_of_right _ opScol_1_11
    · simp only [opScol_1_12, mul_zero]
    · simp only [opScol_1_13, mul_zero]
    · simp only [opScol_1_14, mul_zero]
  rw [Finset.sum_insert (by decide), Finset.sum_singleton]
  rw [opSrow_1_7, opScol_1_7, opSrow_1_10, opScol_1_10]
  norm_num [tot_mom, orb_mom, spin_mom, get_orb_momentum, get_spin_momentum,
    Matrix.of_apply, Matrix.add_apply, l1mat, s1mat, ms,
    finval6_0, finval6_1, finval6_2, finval6_3, finval6_4, finval6_5]
  all_goals try simp [QuadExt.ext_iff, ratKF_apply, sqrt2K_apply, iK]
  all_goals try norm_num

theorem S2aux_2 : (opS 2 * opS 2) bstar bstar = (ratKF (1 : ℚ)) := by
  rw [Matrix.mul_apply]
  rw [← Finset.sum_subset (Finset.subset_univ ({bstar} :
      Finset (Fin basis.length))) ?hz]
  case hz =>
    intro c _ hc
    fin_cases c
    · simp only [opScol_2_0, mul_zero]
    · simp only [opScol_2_1, mul_zero]
    · simp only [opScol_2_2, mul_zero]
    · simp only [opScol_2_3, mul_zero]
    · simp only [opScol_2_4, mul_zero]
    · simp only [opScol_2_5, mul_zero]
    · simp only [opScol_2_6, mul_zero]
    · simp only [opScol_2_7, mul_zero]
    · simp only [opScol_2_8, mul_zero]
    · simp only [opScol_2_9, mul_zero]
    · simp only [opScol_2_10, mul_zero]
    · exact absurd (by decide) hc
    · simp only [opScol_2_12, mul_zero]
    · simp only [opScol_2_13, mul_zero]
    · simp only [opScol_2_14, mul_zero]
  rw [Finset.sum_singleton]
  rw [opScol_2_11]
  norm_num [tot_mom, orb_mom, spin_mom, get_orb_momentum, get_spin_momentum,
    Matrix.of_apply, Matrix.add_apply, l1mat, s1mat, ms,
    finval6_0, finval6_1, finval6_2, finval6_3, finval6_4, finval6_5]
  all_goals try simp [QuadExt.ext_iff, ratKF_apply, sqrt2K_apply, iK]
  all_goals try norm_num

theorem S2_bstar : S2 bstar bstar = (ratKF (2 : ℚ)) := by
  rw [S2, Matrix.add_apply, Matrix.add_apply, S2aux_0, S2aux_1, S2aux_2]
  all_goals try simp [QuadExt.ext_iff, ratKF_apply, sqrt2K_apply, iK]
  all_goals try norm_num

theorem J2aux_0 : (opJ 0 * opJ 0) bstar bstar = (ratKF (3 / 2 : ℚ)) := by
  rw [Matrix.mul_apply]
  rw [← Finset.sum_subset (Finset.subset_univ ({(⟨4, by decide⟩ : Fin basis.length), (⟨7, by decide⟩ : Fin basis.length), (⟨10, by decide⟩ : Fin basis.length), (⟨13, by decide⟩ : Fin basis.length)} :
      Finset (Fin basis.length))) ?hz]
  case hz =>
    intro c _ hc
    fin_cases c
    · simp only [opJcol_0_0, mul_zero]
    · simp only [opJcol_0_1, mul_zero]
    · simp only [opJcol_0_2, mul_zero]
    · simp only [opJcol_0_3, mul_zero]
    · exact absurd (by decide) hc
    · simp only [opJcol_0_5, mul_zero]
    · simp only [opJcol_0_6, mul_zero]
    · exact absurd (by decide) hc
    · simp only [opJcol_0_8, mul_zero]
    · simp only [opJcol_0_9, mul_zero]
    · exact absurd (by decide) hc
    · exact mul_eq_zero_of_right _ opJcol_0_11
    · simp only [opJcol_0_12, mul_zero]
    · exact absurd (by decide) hc
    · simp only [opJcol_0_14, mul_zero]
  rw [Finset.sum_insert (by decide), Finset.sum_insert (by decide), Finset.sum_insert (by decide), Finset.sum_singleton]
  rw [opJrow_0_4, opJcol_0_4, opJrow_0_7, opJcol_0_7, opJrow_0_10, opJcol_0_10, opJrow_0_13, opJcol_0_13]
  norm_num [tot_mom, orb_mom, spin_mom, get_orb_momentum, get_spin_momentum,
    Matrix.of_apply, Matrix.add_apply, l1mat, s1mat, ms,
    finval6_0, finval6_1, finval6_2, finval6_3, finval6_4, finval6_5]
  all_goals try simp [QuadExt.ext_iff, ratKF_apply, sqrt2K_apply, iK]
  all_goals try norm_num

theorem J2aux_1 : (opJ 1 * opJ 1) bstar bstar = (ratKF (3 / 2 : ℚ)) := by
  rw [Matrix.mul_apply]
  rw [← Finset.sum_subset (Finset.subset_univ ({(⟨4, by decide⟩ : Fin basis.length), (⟨7, by decide⟩ : Fin basis.length), (⟨10, by decide⟩ : Fin basis.length), (⟨13, by decide⟩ : Fin basis.length)} :
      Finset (Fin basis.length))) ?hz]
  case hz =>
    intro c _ hc
    fin_cases c
    · simp only [opJcol_1_0, mul_zero]
    · simp only [opJcol_1_1, mul_zero]
    · simp only [opJcol_1_2, mul_zero]
    · simp only [opJcol_1_3, mul_zero]
    · exact absurd (by decide) hc
    · simp only [opJcol_1_5, mul_zero]
    · simp only [opJcol_1_6, mul_zero]
    · exact absurd (by decide) hc
    · simp only [opJcol_1_8, mul_zero]
    · simp only [opJcol_1_9, mul_zero]
    · exact absurd (by decide) hc
    · exact mul_eq_zero_of_right _ opJcol_1_11
    · simp only [opJcol_1_12, mul_zero]
    · exact absurd (by decide) hc
    · simp only [opJcol_1_14, mul_zero]
  rw [Finset.sum_insert (by decide), Finset.sum_insert (by decide), Finset.sum_insert (by decide), Finset.sum_singleton]
  rw [opJrow_1_4, opJcol_1_4, opJrow_1_7, opJcol_1_7, opJrow_1_10, opJcol_1_10, opJrow_1_13, opJcol_1_13]
  norm_num [tot_mom, orb_mom, spin_mom, get_orb_momentum, get_spin_momentum,
    Matrix.of_apply, Matrix.add_apply, l1mat, s1mat, ms,
    finval6_0, finval6_1, finval6_2, finval6_3, finval6_4, finval6_5]
  all_goals try simp [QuadExt.ext_iff, ratKF_apply, sqrt2K_apply, iK]
  all_goals try norm_num

theorem J2aux_2 : (opJ 2 * opJ 2) bstar bstar = (ratKF (1 : ℚ)) := by
  rw [Matrix.mul_apply]
  rw [← Finset.sum_subset (Finset.subset_univ ({bstar} :
      Finset (Fin basis.length))) ?hz]
  case hz =>
    intro c _ hc
    fin_cases c
    · simp only [opJcol_2_0, mul_zero]
    · simp only [opJcol_2_1, mul_zero]
    · simp only [opJcol_2_2, mul_zero]
    · simp only [opJcol_2_3, mul_zero]
    · simp only [opJcol_2_4, mul_zero]
    · simp only [opJcol_2_5, mul_zero]
    · simp only [opJcol_2_6, mul_zero]
    · simp only [opJcol_2_7, mul_zero]
    · simp only [opJcol_2_8, mul_zero]
    · simp only [opJcol_2_9, mul_zero]
    · simp only [opJcol_2_10, mul_zero]
    · exact absurd (by decide) hc
    · simp only [opJcol_2_12, mul_zero]
    · simp only [opJcol_2_13, mul_zero]
    · simp only [opJcol_2_14, mul_zero]
  rw [Finset.sum_singleton]
  rw [opJcol_2_11]
  norm_num [tot_mom, orb_mom, spin_mom, get_orb_momentum, get_spin_momentum,
    Matrix.of_apply, Matrix.add_apply, l1mat, s1mat, ms,
    finval6_0, finval6_1, finval6_2, finval6_3, finval6_4, finval6_5]
  all_goals try simp [QuadExt.ext_iff, ratKF_apply, sqrt2K_apply, iK]
  all_goals try norm_num

theorem J2_bstar : J2 bstar bstar = (ratKF (4 : ℚ)) := by
  rw [J2, Matrix.add_apply, Matrix.add_apply, J2aux_0, J2aux_1, J2aux_2]
  all_goals try simp [QuadExt.ext_iff, ratKF_apply, sqrt2K_apply, iK]
  all_goals try norm_num
/-- Evaluation of the coefficient field embedding on rational constants. -/
theorem toC_ratKF (q : ℚ) : toC (ratKF q) = (q : ℂ) := by
  simp [toC, ratKF, r23toReal, r2toReal, RingHom.comp_apply]

/-- Expectation value of an operator on a Fock basis vector is the matching
diagonal entry. -/
theorem single_expect (M : Matrix (Fin basis.length) (Fin basis.length) ℂ)
    (b : Fin basis.length) :
    Matrix.dotProduct (star (Pi.single b 1 : Fin basis.length → ℂ))
      (M.mulVec (Pi.single b 1)) = M b b := by
  rw [Matrix.mulVec_single_one, Matrix.dotProduct, Finset.sum_eq_single b]
  · simp [Matrix.transpose_apply]
  · intro r _ hr
    simp [Pi.single_apply, hr]
  · intro h
    exact absurd (Finset.mem_univ _) h

/-- The distinguished Fock basis vector is normalized. -/
theorem single_norm :
    Matrix.dotProduct (star (Pi.single bstar 1 : Fin basis.length → ℂ))
      (Pi.single bstar 1) = 1 := by
  rw [Matrix.dotProduct, Finset.sum_eq_single bstar]
  · simp
  · intro r _ hr
    simp [Pi.single_apply, hr]
  · intro h
    exact absurd (Finset.mem_univ _) h

/-- The distinguished Fock basis vector is an eigenvector of the Coulomb
Hamiltonian. -/
theorem bstar_eigenvec :
    Hc.mulVec (Pi.single bstar 1) =
      toC (H bstar bstar) • (Pi.single bstar 1 : Fin basis.length → ℂ) := by
  funext r
  rw [Matrix.mulVec_single_one]
  by_cases h : r = bstar
  · subst h
    simp [Matrix.transpose_apply, Pi.single_apply, Hc, Matrix.map_apply]
  · have h0 : H r bstar = 0 := Hcol_off r h
    simp [Matrix.transpose_apply, Pi.single_apply, h, Hc, Matrix.map_apply, h0]

/-- The squared total momentum expectation on the distinguished vector. -/
theorem J2c_expect :
    Matrix.dotProduct (star (Pi.single bstar 1 : Fin basis.length → ℂ))
      (J2c.mulVec (Pi.single bstar 1)) = 4 := by
  rw [single_expect]
  rw [show J2c bstar bstar = toC (J2 bstar bstar) from rfl, J2_bstar, toC_ratKF]
  norm_num

/-- The squared spin expectation on the distinguished vector. -/
theorem S2c_expect :
    Matrix.dotProduct (star (Pi.single bstar 1 : Fin basis.length → ℂ))
      (S2c.mulVec (Pi.single bstar 1)) = 2 := by
  rw [single_expect]
  rw [show S2c bstar bstar = toC (S2 bstar bstar) from rfl, S2_bstar, toC_ratKF]
  norm_num

/-- The squared orbital momentum expectation on the distinguished vector. -/
theorem L2c_expect :
    Matrix.dotProduct (star (Pi.single bstar 1 : Fin basis.length → ℂ))
      (L2c.mulVec (Pi.single bstar 1)) = 2 := by
  rw [single_expect]
  rw [show L2c bstar bstar = toC (L2 bstar bstar) from rfl, L2_bstar, toC_ratKF]
  norm_num

/-- 4 is not of the form j(j+1) for a half integer j = k/2. -/
theorem half_int_sq_ne_four (k : ℕ) :
    ((k : ℝ) / 2) * ((k : ℝ) / 2 + 1) ≠ 4 := by
  intro h
  have h2 : (k : ℝ) * ((k : ℝ) + 2) = 16 := by nlinarith
  have h3 : k * (k + 2) = 16 := by exact_mod_cast h2
  have h4 : k < 4 := by
    by_contra hge
    push_neg at hge
    have h24 : 4 * 6 ≤ k * (k + 2) := Nat.mul_le_mul hge (by omega)
    omega
  interval_cases k <;> omega
/-- C6: counterexample.  The claim that every eigenvector of H has quantized
squared momentum expectation values is false: the distinguished Fock basis
vector is a normalized eigenvector of the Coulomb Hamiltonian whose squared
total momentum expectation value is exactly 4, and 4 is not j(j+1) for any
non-negative half integer j. -/
theorem C6_quantization_counterexample :
    Hc.mulVec (Pi.single bstar 1) =
        toC (H bstar bstar) • (Pi.single bstar 1 : Fin basis.length → ℂ) ∧
    Matrix.dotProduct (star (Pi.single bstar 1 : Fin basis.length → ℂ))
        (Pi.single bstar 1) = 1 ∧
    Matrix.dotProduct (star (Pi.single bstar 1 : Fin basis.length → ℂ))
        (J2c.mulVec (Pi.single bstar 1)) = 4 ∧
    ∀ k : ℕ, ((k : ℝ) / 2) * ((k : ℝ) / 2 + 1) ≠ 4 :=
  ⟨bstar_eigenvec, single_norm, J2c_expect, half_int_sq_ne_four⟩

/-- C6 (amended): on an eigenvector inside a degenerate eigenspace only the
squared spin and orbital momentum expectation values need be quantized: the
distinguished Fock basis vector is an eigenvector of the Coulomb
Hamiltonian with squared spin and orbital momentum expectation values both
the quantized 1(1+1) = 2, while its squared total momentum expectation
value is 4. -/
theorem C6_expectation_values_on_bstar :
    Hc.mulVec (Pi.single bstar 1) =
        toC (H bstar bstar) • (Pi.single bstar 1 : Fin basis.length → ℂ) ∧
    Matrix.dotProduct (star (Pi.single bstar 1 : Fin basis.length → ℂ))
        (S2c.mulVec (Pi.single bstar 1)) = 2 ∧
    Matrix.dotProduct (star (Pi.single bstar 1 : Fin basis.length → ℂ))
        (L2c.mulVec (Pi.single bstar 1)) = 2 ∧
    ((1 : ℝ) * (1 + 1) = 2) ∧
    Matrix.dotProduct (star (Pi.single bstar 1 : Fin basis.length → ℂ))
        (J2c.mulVec (Pi.single bstar 1)) = 4 :=
  ⟨bstar_eigenvec, S2c_expect, L2c_expect, by norm_num, J2c_expect⟩
